import Mathlib

/-!
# AppArmor af_unix and ipc mediation, x86 resource clipping

A shallow embedding of `security/apparmor/af_unix.c`, `security/apparmor/ipc.c`,
`security/apparmor/include/audit.h` and `arch/x86/kernel/resource.c`.

* Automaton states (`aa_state_t`, `unsigned int`) are natural numbers, `0` is
  the no-match state `DFA_NOMATCH`.
* Error codes are integers, `0` is success.
* A `const char *` diagnostic is an `Option String` (`none` is the null pointer).
* Code that writes through the `ad` pointer takes and returns an `audit_state`;
  the audit decisions and the calls into the path mediator are appended to the
  log carried by that state.
* Everything the sources use but do not define (automaton routines, macros of
  headers that are not among the sources, collaborators) is either a field of
  `aa_dfa` / `kern`, or a definition whose comment says it is modelled from the
  specification.
-/

namespace X86

/-! ## arch/x86/kernel/resource.c

`resource_size_t` is an unsigned 64-bit integer; arithmetic on it wraps modulo
`2^64`. -/

/-- The modulus of `resource_size_t` and `u64` arithmetic, `2^64`. -/
def U64_MOD : Nat := 18446744073709551616

/-- What `resource_clip` reads and writes of a `struct resource`: the first and the
last address of the range (`end_` is the field `end`). -/
structure resource where
  start : Nat
  end_ : Nat
deriving DecidableEq, Repr

/-- The function `resource_clip`, `end_` being its parameter `end`. -/
def resource_clip (res : resource) (start end_ : Nat) : resource :=
  if res.end_ < start ∨ res.start > end_ then res
  else
    let low := if res.start < start then (start + U64_MOD - res.start) % U64_MOD else 0
    let high := if res.end_ > end_ then (res.end_ + U64_MOD - end_) % U64_MOD else 0
    if low > high then { res with end_ := (start + U64_MOD - 1) % U64_MOD }
    else { res with start := (end_ + 1) % U64_MOD }

/-- One entry `struct e820_entry` of the e820 table. -/
structure e820_entry where
  addr : Nat
  size : Nat
deriving DecidableEq, Repr

/-- The last address `entry->addr + entry->size - 1` of an entry, in `u64` arithmetic. -/
def e820_end (entry : e820_entry) : Nat :=
  (entry.addr + entry.size + U64_MOD - 1) % U64_MOD

/-- The function `remove_e820_regions`; `table` holds the `nr_entries` entries of
`e820_table`. The message printed when an entry clips the resource changes
nothing and is left out. -/
def remove_e820_regions (pci_use_e820 : Bool) (table : List e820_entry) (avail : resource) :
    resource :=
  if !pci_use_e820 then avail
  else table.foldl (fun r entry => resource_clip r entry.addr (e820_end entry)) avail

/-- Whether an address lies in the range of a resource. -/
def in_resource (r : resource) (a : Nat) : Prop := r.start ≤ a ∧ a ≤ r.end_

/-- Sample resource, addresses 5 to 10. -/
def ex_res : resource := { start := 5, end_ := 10 }

/-- Sample e820 table. -/
def ex_table : List e820_entry := [{ addr := 0, size := 7 }, { addr := 9, size := 100 }]

end X86

namespace AppArmor

/-! ## Data model -/

/-- The compiled automaton of a policy. Its matching routines are defined in
`match.c`, which is not among the sources, so they are fields: `match_len` is
`aa_dfa_match_len` (the second argument is the `len` bytes read from `str`),
`null_transition` is `aa_dfa_null_transition`, `match_str` is `aa_dfa_match` on a
nul-terminated string and `next` is `aa_dfa_next`. -/
structure aa_dfa where
  match_len : Nat → List Nat → Nat
  null_transition : Nat → Nat
  match_str : Nat → String → Nat
  next : Nat → Nat → Nat

/-- The permission set `struct aa_perms`, with the masks the specification names. -/
structure aa_perms where
  allow : Nat
  audit : Nat
  quiet : Nat
  kill : Nat
deriving DecidableEq, Repr

/-- The policy `struct aa_policydb`: automaton, permission table, start states. -/
structure aa_policydb where
  dfa : aa_dfa
  perms : Nat → aa_perms
  start : Nat → Nat

/-- One rule set `struct aa_ruleset`. -/
structure aa_ruleset where
  policy : aa_policydb

/-- Profile modes (`APPARMOR_ENFORCE`, `APPARMOR_COMPLAIN`, `APPARMOR_UNCONFINED`). -/
inductive profile_mode where
  | enforce
  | complain
  | unconfined
deriving DecidableEq, Repr

/-- A profile `struct aa_profile`; `rules` is `list_first_entry(&profile->rules, ...)`
and `hname` is `base.hname`. -/
structure aa_profile where
  hname : String
  mode : profile_mode
  path_flags : Nat
  rules : aa_ruleset

/-- A label `struct aa_label`: the ordered profiles it resolves to. -/
structure aa_label where
  hname : String
  vec : List aa_profile

/-- The address `struct sockaddr_un`; `sun_path i` is the byte at offset `i`. -/
structure sockaddr_un where
  sun_path : Nat → Nat

/-- The bound address `struct unix_address`. -/
structure unix_address where
  name : sockaddr_un
  len : Int

/-- What the code reads of a `struct path` whose dentry is set. -/
structure dentry where
  id : Nat
  i_uid : Nat
  i_mode : Nat
deriving DecidableEq, Repr

/-- The security context `struct aa_sk_ctx` returned by `aa_sock(sk)`. -/
structure aa_sk_ctx where
  label : aa_label
  path : Option dentry

/-- A unix socket: `struct sock` together with its `struct unix_sock`
(`unix_sk(sk)` is a cast). `id` stands for the address of the object, `i_uid`
and `i_mode` for `sock_i_uid(sk)` and `sock_i_mode(sk)`. -/
structure sock where
  id : Nat
  sk_type : Int
  sk_protocol : Int
  addr : Option unix_address
  path : Option dentry
  ctx : aa_sk_ctx
  i_uid : Nat
  i_mode : Nat

/-- What the code reads of a `struct socket`: `connected` is `unix_connected(sock)`,
`peer` is `unix_peer(sock->sk)`, `f_cred` is `sock->file ? sock->file->f_cred : NULL`. -/
structure socket where
  sk : sock
  connected : Bool
  peer : Option sock
  f_cred : Option Nat

/-- The fields of `struct apparmor_audit_data` the code reads or writes. Labels
and profiles are recorded by name, sockets by identity. -/
structure apparmor_audit_data where
  op : Option String
  subj_cred : Option Nat
  subj_label : Option String
  info : Option String
  request : Nat
  denied : Nat
  error : Int
  peer : Option String
  net_type : Int
  net_protocol : Int
  net_peer_sk : Option Nat
  net_addr_set : Bool
  net_addrlen : Int
  signal : Int
  unmappedsig : Int
  name : Option String
  mq_ouid : Option Nat
deriving DecidableEq, Repr

/-- What reaches the collaborators: the permission-table lookups, the audit
decisions taken by `aa_check_perms` (with the audit data as recorded), the
calls into the generic network check and the calls into the path mediator. -/
inductive audit_event where
  | lookup (state : Nat)
  | check (profile : String) (request : Nat) (ad : apparmor_audit_data)
  | af_perm (profile : String) (request : Nat)
  | path_perm (op : Option String) (subject : String) (mask : Nat) (flags : Nat)
  | audit_file (op : Option String) (subject : String) (mask : Nat)
deriving DecidableEq, Repr

/-- The audit data a function works on, and the log of events so far. -/
structure audit_state where
  ad : apparmor_audit_data
  log : List audit_event
deriving DecidableEq, Repr

/-- The constants and the table of `sig_names.h` and of the signal headers, none of
which is among the sources. `sig_map i` is what a read of `sig_map[i]` yields;
the table has `MAXMAPPED_SIG` entries. -/
structure sig_names where
  SIGRTMIN : Int
  SIGRTMAX : Int
  SIGUNKNOWN : Int
  MAXMAPPED_SIG : Int
  SIGRT_BASE : Int
  sig_map : Int → Int

/-- What the code reads of the `struct path` of a message queue: the identity of
its dentry and of its mount, and the owner recorded in the dentry's backing
inode, if it has one (`d_backing_inode(path->dentry)`). -/
structure path where
  dentry : Nat
  mnt : Nat
  backing_inode : Option Nat
deriving DecidableEq, Repr

/-- Everything of the kernel the sources use but do not define: macros and
constants of headers that are not among the sources, and the collaborators
(label resolver, generic network mediation, path mediator). -/
structure kern where
  sig : sig_names
  AF_UNIX : Nat
  AA_CLASS_FILE : Nat
  AA_CLASS_SIGNAL : Nat
  AA_CLASS_POSIX_MQUEUE : Nat
  NET_FS_PERMS : Nat
  NET_PEER_MASK : Nat
  PATH_MEDIATE_DELETED : Nat
  PATH_SOCK_COND : Nat
  MAY_READ : Nat
  MAY_WRITE : Nat
  AA_MAY_CREATE : Nat
  AA_MAY_BIND : Nat
  AA_MAY_LISTEN : Nat
  AA_MAY_ACCEPT : Nat
  UNIX_FS : sock → Bool
  unix_addr_fs : sockaddr_un → Int → Bool
  unix_addr_len : Int → Nat
  RULE_MEDIATES : aa_ruleset → Nat → Nat
  RULE_MEDIATES_AF : aa_ruleset → Nat → Nat
  profile_mediates : aa_profile → Nat → Bool
  label_mediates : aa_label → Nat → Bool
  aa_label_match : aa_profile → aa_ruleset → aa_label → Nat → Nat → aa_perms
  aa_profile_af_perm : aa_profile → apparmor_audit_data → Nat → Nat → Int →
    Int × apparmor_audit_data
  aa_profile_af_sk_perm : aa_profile → apparmor_audit_data → Nat → sock →
    Int × apparmor_audit_data
  aa_path_perm : Option String → Option Nat → aa_label → dentry → Nat → Nat → Nat → Nat → Int
  __aa_path_perm : Option String → Option Nat → aa_profile → Option sockaddr_un → Nat →
    Nat → Nat → Nat → Int
  aa_audit_file : Option Nat → aa_profile → Option String → Nat → Option sockaddr_un →
    Nat → String → Int → Int
  dentry_path_raw : path → Except Int String
  aa_audit_data_cmp : apparmor_audit_data → apparmor_audit_data → Int
  aa_get_buffer : Bool → Option Nat
  cred_fsuid : Option Nat → Nat

/-! ## Constants and small helpers -/

/-- Modelled from the spec: the errno `EACCES` of the kernel headers, which are
not among the sources ("error = -EACCES-equivalent"). -/
def EACCES : Int := 13

/-- Modelled from the spec: the errno `EPERM` of the kernel headers, which are
not among the sources. -/
def EPERM : Int := 1

/-- Modelled from the spec: the errno `ENOMEM` of the kernel headers, which are
not among the sources ("-ENOMEM upstream of matching"). -/
def ENOMEM : Int := 12

/-- All bits of a `u32`. -/
def U32_MAX : Nat := 4294967295

/-- Complement of a `u32` mask (`~x` on 32 bits). -/
def not32 (x : Nat) : Nat := U32_MAX ^^^ (x % 4294967296)

/-- Modelled from the spec: `cpu_to_be16` of the byte-order headers, which are
not among the sources: the value is cut to 16 bits and stored as a 2-byte
big-endian field, high byte first. -/
def cpu_to_be16 (v : Int) : List Nat :=
  [(v % 65536).toNat / 256, (v % 65536).toNat % 256]

/-- The `n` bytes the automaton reads from `sun_path`. -/
def sun_path_bytes (a : sockaddr_un) (n : Nat) : List Nat :=
  (List.range n).map a.sun_path

/-- Modelled from the spec: `profile_unconfined(profile)` of `policy.h`, which is
not among the sources: the profile has no applicable policy, it runs in
unconfined mode. -/
def profile_unconfined (p : aa_profile) : Bool :=
  decide (p.mode = profile_mode.unconfined)

/-- Modelled from the spec: `unconfined(label)` of `label.h`, which is not among
the sources: a label is unconfined when it has no applicable policy, that is
when none of its profiles is confined. -/
def unconfined (l : aa_label) : Bool :=
  l.vec.all profile_unconfined

/-- The initialiser `DEFINE_AUDIT_DATA(NAME, T, C, X)` of `audit.h`: every field zero but
the operation (the class and the common part are not read by the code
embedded here). -/
def DEFINE_AUDIT_DATA (op : Option String) : apparmor_audit_data :=
  { op := op, subj_cred := none, subj_label := none, info := none, request := 0,
    denied := 0, error := 0, peer := none, net_type := 0, net_protocol := 0,
    net_peer_sk := none, net_addr_set := false, net_addrlen := 0, signal := 0,
    unmappedsig := 0, name := none, mq_ouid := none }

/-- Modelled from the spec: `DEFINE_AUDIT_NET` of `net.h`, which is not among the
sources: an audit record of the network class carrying the resource-specific
fields type and protocol. -/
def DEFINE_AUDIT_NET (op : Option String) (type protocol : Int) : apparmor_audit_data :=
  { DEFINE_AUDIT_DATA op with net_type := type, net_protocol := protocol }

/-- Modelled from the spec: `DEFINE_AUDIT_SK` of `net.h`, which is not among the
sources: the network audit record of a socket, with the socket's type and
protocol. -/
def DEFINE_AUDIT_SK (op : Option String) (sk : sock) : apparmor_audit_data :=
  DEFINE_AUDIT_NET op sk.sk_type sk.sk_protocol

/-- The operation tag `OP_CREATE` of `audit.h`. -/
def OP_CREATE : String := "create"

/-- The operation tag `OP_BIND` of `audit.h`. -/
def OP_BIND : String := "bind"

/-- The operation tag `OP_LISTEN` of `audit.h`. -/
def OP_LISTEN : String := "listen"

/-- The operation tag `OP_ACCEPT` of `audit.h`. -/
def OP_ACCEPT : String := "accept"

/-- The operation tag `OP_SIGNAL` of `audit.h`. -/
def OP_SIGNAL : String := "signal"

/-! ## Collaborators: aggregation, resolver, generic network check, path mediator -/

/-- Modelled from the spec: the `last_error` aggregator of `lib.h`, which is not
among the sources: the error so far is kept when the next check succeeds, it is
not overwritten by a later success; a later failure is the last error. -/
def last_error (E : Int) (subE : Int) : Int :=
  if subE ≠ 0 then subE else E

/-- Modelled from the spec: the loop shared by the `fn_for_each` family of
`label.h`, which is not among the sources: run `FN` on every profile in order,
threading the state, aggregating the results with `last_error`. -/
def fn_for_each_XXX {σ : Type} (FN : aa_profile → σ → Int × σ) :
    List aa_profile → Int → σ → Int × σ
  | [], E, s => (E, s)
  | p :: ps, E, s => fn_for_each_XXX FN ps (last_error E (FN p s).1) (FN p s).2

/-- Modelled from the spec: `fn_for_each` of `label.h`, which is not among the
sources: plain iteration over the profiles of a label. -/
def fn_for_each {σ : Type} (L : aa_label) (FN : aa_profile → σ → Int × σ) (s : σ) :
    Int × σ :=
  fn_for_each_XXX FN L.vec 0 s

/-- Modelled from the spec: `fn_for_each_confined` of `label.h`, which is not among
the sources: "for each confined profile, run the check", by plain iteration. -/
def fn_for_each_confined {σ : Type} (L : aa_label) (FN : aa_profile → σ → Int × σ)
    (s : σ) : Int × σ :=
  fn_for_each_XXX FN (L.vec.filter (fun p => !profile_unconfined p)) 0 s

/-- Modelled from the spec: `fn_for_each_in_ns` of `label.h`, which is not among the
sources: the inner iteration over the profiles of the peer label; namespace
resolution belongs to the label resolver, so every profile of the label is
visited. -/
def fn_for_each_in_ns {σ : Type} (L : aa_label) (FN : aa_profile → σ → Int × σ)
    (s : σ) : Int × σ :=
  fn_for_each_XXX FN L.vec 0 s

/-- A decision as the cross-check sees it: the error of a check and the
diagnostic its audit data holds when the check returns. -/
structure decision where
  error : Int
  info : Option String
deriving DecidableEq, Repr

/-- Modelled from the spec: the `xcheck` combinator of `perms.h`, which is not among
the sources: `xcheck(decisionA, decisionB) -> combined`, both sides having
been evaluated, A first; the combined decision denies if either side denies
and "the first encountered denial's error/diagnostic is preserved". -/
def xcheck (a b : decision) : decision :=
  if a.error ≠ 0 then a else b

/-- Modelled from the spec: `aa_lookup_perms` of the policy headers, which are not
among the sources: step 1 of the resolver, the raw permission set of the state
from the permission table. The lookup is logged. -/
def aa_lookup_perms (policy : aa_policydb) (state : Nat) (log : List audit_event) :
    aa_perms × List audit_event :=
  (policy.perms state, log ++ [audit_event.lookup state])

/-- Modelled from the spec: `aa_apply_modes_to_perms` of `lib.c`, which is not among
the sources: step 2 of the resolver. In complain mode the permissions that
would deny are marked allow and audit; the bits of the kill mask stay as they
are. Any other mode leaves the set unchanged. -/
def aa_apply_modes_to_perms (profile : aa_profile) (perms : aa_perms) : aa_perms :=
  if profile.mode = profile_mode.complain then
    { allow := perms.allow ||| (not32 perms.allow &&& not32 perms.kill),
      audit := perms.audit ||| (not32 perms.allow &&& not32 perms.kill),
      quiet := perms.quiet,
      kill := perms.kill }
  else perms

/-- Modelled from the spec: `aa_check_perms` of `lib.c`, which is not among the
sources: step 3 of the resolver. `denied = requested_mask & ~allow_mask`, the
decision is ALLOW iff `denied == 0` and DENY with `-EACCES` otherwise; every
call produces one audit decision, recorded with the audit data. -/
def aa_check_perms (profile : aa_profile) (perms : aa_perms) (request : Nat)
    (s : audit_state) : Int × audit_state :=
  let denied := request &&& not32 perms.allow
  let error : Int := if denied = 0 then 0 else -EACCES
  let ad := { s.ad with subj_label := some profile.hname, request := request,
                        denied := denied, error := error }
  (error, { ad := ad, log := s.log ++ [audit_event.check profile.hname request ad] })

/-- The generic network check `aa_profile_af_perm` of `net.c`, which is not among
the sources: the result is the collaborator's, the call is logged. -/
def aa_profile_af_perm (k : kern) (profile : aa_profile) (s : audit_state)
    (request family : Nat) (type : Int) : Int × audit_state :=
  ((k.aa_profile_af_perm profile s.ad request family type).1,
   { ad := (k.aa_profile_af_perm profile s.ad request family type).2,
     log := s.log ++ [audit_event.af_perm profile.hname request] })

/-- The generic socket check `aa_profile_af_sk_perm` of `net.h`, which is not among
the sources: the result is the collaborator's, the call is logged. -/
def aa_profile_af_sk_perm (k : kern) (profile : aa_profile) (s : audit_state)
    (request : Nat) (sk : sock) : Int × audit_state :=
  ((k.aa_profile_af_sk_perm profile s.ad request sk).1,
   { ad := (k.aa_profile_af_sk_perm profile s.ad request sk).2,
     log := s.log ++ [audit_event.af_perm profile.hname request] })

/-- The path mediator `aa_path_perm` of `file.c`, which is not among the sources:
the result is the collaborator's, the call is logged. -/
def aa_path_perm (k : kern) (op : Option String) (subj_cred : Option Nat)
    (label : aa_label) (path : dentry) (flags mask uid mode : Nat)
    (log : List audit_event) : Int × List audit_event :=
  (k.aa_path_perm op subj_cred label path flags mask uid mode,
   log ++ [audit_event.path_perm op label.hname mask flags])

/-- The per-profile path check `__aa_path_perm` of `file.c`, which is not among the
sources: the result is the collaborator's, the call is logged. -/
def __aa_path_perm (k : kern) (op : Option String) (subj_cred : Option Nat)
    (profile : aa_profile) (name : Option sockaddr_un) (mask uid mode flags : Nat)
    (log : List audit_event) : Int × List audit_event :=
  (k.__aa_path_perm op subj_cred profile name mask uid mode flags,
   log ++ [audit_event.path_perm op profile.hname mask flags])

/-- The file audit `aa_audit_file` of `file.c`, which is not among the sources: the
result is the collaborator's, the call is logged. -/
def aa_audit_file (k : kern) (subj_cred : Option Nat) (profile : aa_profile)
    (op : Option String) (mask : Nat) (name : Option sockaddr_un) (ouid : Nat)
    (info : String) (error : Int) (log : List audit_event) : Int × List audit_event :=
  (k.aa_audit_file subj_cred profile op mask name ouid info error,
   log ++ [audit_event.audit_file op profile.hname mask])

/-! ## af_unix.c: matching a socket descriptor -/

/-- The function `match_to_prot`: type and protocol as two big-endian 16-bit fields, four
bytes in all. -/
def match_to_prot (dfa : aa_dfa) (state : Nat) (type protocol : Int)
    (info : Option String) : Nat × Option String :=
  let buffer := cpu_to_be16 type ++ cpu_to_be16 protocol
  let state := dfa.match_len state buffer
  if state = 0 then (state, some "failed type and protocol match") else (state, info)

/-- The function `match_addr`: the path bytes of a present address, the byte `0x01`
for an absent one, then one null transition. -/
def match_addr (k : kern) (dfa : aa_dfa) (state : Nat) (addr : Option sockaddr_un)
    (addrlen : Int) : Nat :=
  let state :=
    match addr with
    | some a => dfa.match_len state (sun_path_bytes a (k.unix_addr_len addrlen))
    | none => dfa.match_len state [1]
  dfa.null_transition state

/-- The function `match_to_local`. -/
def match_to_local (k : kern) (dfa : aa_dfa) (state : Nat) (type protocol : Int)
    (addr : Option sockaddr_un) (addrlen : Int) (info : Option String) :
    Nat × Option String :=
  let r := match_to_prot dfa state type protocol info
  if r.1 ≠ 0 then
    let state := match_addr k dfa r.1 addr addrlen
    if state ≠ 0 then
      let state := dfa.null_transition state
      if state = 0 then (state, some "failed local label match") else (state, r.2)
    else (state, some "failed local address match")
  else r

/-- The address and its length as `match_to_sk` and `profile_peer_perm` read them
from a socket: `addr = NULL; addrlen = 0; if (u->addr) { addr = u->addr->name;
addrlen = u->addr->len; }`. -/
def sk_addr (u : sock) : Option sockaddr_un × Int :=
  match u.addr with
  | some a => (some a.name, a.len)
  | none => (none, 0)

/-- The function `match_to_sk`: the local descriptor of a socket, with its bound address
if it has one. -/
def match_to_sk (k : kern) (dfa : aa_dfa) (state : Nat) (u : sock)
    (info : Option String) : Nat × Option String :=
  let addr : Option sockaddr_un := (sk_addr u).1
  let addrlen : Int := (sk_addr u).2
  match_to_local k dfa state u.sk_type u.sk_protocol addr addrlen info

/-- The command selector `CMD_ADDR`. -/
def CMD_ADDR : Nat := 1

/-- The command selector `CMD_LISTEN`. -/
def CMD_LISTEN : Nat := 2

/-- The command selector `CMD_OPT`. -/
def CMD_OPT : Nat := 4

/-- The function `match_to_cmd`. -/
def match_to_cmd (k : kern) (dfa : aa_dfa) (state : Nat) (u : sock) (cmd : Nat)
    (info : Option String) : Nat × Option String :=
  let r := match_to_sk k dfa state u info
  if r.1 ≠ 0 then
    let state := dfa.match_len r.1 [cmd]
    if state = 0 then (state, some "failed cmd selection match") else (state, r.2)
  else r

/-- The function `match_to_peer`. -/
def match_to_peer (k : kern) (dfa : aa_dfa) (state : Nat) (u : sock)
    (peer_addr : Option sockaddr_un) (peer_addrlen : Int) (info : Option String) :
    Nat × Option String :=
  let r := match_to_cmd k dfa state u CMD_ADDR info
  if r.1 ≠ 0 then
    let state := match_addr k dfa r.1 peer_addr peer_addrlen
    if state = 0 then (state, some "failed peer address match") else (state, r.2)
  else r

/-- The function `do_perms`: look the state up, apply the profile's mode, check. -/
def do_perms (profile : aa_profile) (rule : aa_ruleset) (state request : Nat)
    (s : audit_state) : Int × audit_state :=
  let r := aa_lookup_perms rule.policy state s.log
  let perms := aa_apply_modes_to_perms profile r.1
  aa_check_perms profile perms request { ad := s.ad, log := r.2 }

/-- The state and audit data `match_label` hands to `do_perms`. -/
def match_label_state (rule : aa_ruleset) (peer : aa_profile) (state : Nat)
    (ad : apparmor_audit_data) : Nat × apparmor_audit_data :=
  let ad := { ad with peer := some peer.hname }
  if state ≠ 0 then
    let state := rule.policy.dfa.match_str state peer.hname
    if state = 0 then (state, { ad with info := some "failed peer label match" })
    else (state, ad)
  else (state, ad)

/-- The function `match_label`. -/
def match_label (profile : aa_profile) (rule : aa_ruleset) (peer : aa_profile)
    (state request : Nat) (s : audit_state) : Int × audit_state :=
  do_perms profile rule (match_label_state rule peer state s.ad).1 request
    { ad := (match_label_state rule peer state s.ad).2, log := s.log }

/-! ## af_unix.c: filesystem-backed sockets -/

/-- The function `unix_fs_perm`: the file-style check of a filesystem-backed socket. -/
def unix_fs_perm (k : kern) (op : Option String) (mask : Nat) (subj_cred : Option Nat)
    (label : aa_label) (u : sock) (flags : Nat) (log : List audit_event) :
    Int × List audit_event :=
  if unconfined label || !k.label_mediates label k.AA_CLASS_FILE then (0, log)
  else
    let mask := mask &&& k.NET_FS_PERMS
    match u.path with
    | none =>
      match u.ctx.path with
      | some d => aa_path_perm k op subj_cred label d flags mask u.i_uid u.i_mode log
      | none =>
        fn_for_each_confined label
          (fun profile l =>
            if (flags ||| profile.path_flags) &&& k.PATH_MEDIATE_DELETED ≠ 0 then
              __aa_path_perm k op subj_cred profile (u.addr.map unix_address.name) mask
                u.i_uid u.i_mode flags l
            else
              aa_audit_file k subj_cred profile op mask (u.addr.map unix_address.name)
                u.i_uid "Failed name lookup - deleted entry" (-EACCES) l)
          log
    | some d => aa_path_perm k op subj_cred label d flags mask d.i_uid d.i_mode log

/-! ## af_unix.c: the per-profile checks and the entry points -/

/-- The function `profile_create_perm`. -/
def profile_create_perm (k : kern) (profile : aa_profile) (family : Nat)
    (type protocol : Int) (log : List audit_event) : Int × List audit_event :=
  let rules := profile.rules
  let ad := DEFINE_AUDIT_NET (some OP_CREATE) type protocol
  let state := k.RULE_MEDIATES_AF rules k.AF_UNIX
  if state ≠ 0 then
    let r := match_to_prot rules.policy.dfa state type protocol ad.info
    let res := do_perms profile rules r.1 k.AA_MAY_CREATE
      { ad := { ad with info := r.2 }, log := log }
    (res.1, res.2.log)
  else
    let res := aa_profile_af_perm k profile { ad := ad, log := log } k.AA_MAY_CREATE
      family type
    (res.1, res.2.log)

/-- The entry point `aa_unix_create_perm`. -/
def aa_unix_create_perm (k : kern) (label : aa_label) (family : Nat)
    (type protocol : Int) (log : List audit_event) : Int × List audit_event :=
  if unconfined label then (0, log)
  else
    fn_for_each_confined label
      (fun profile l => profile_create_perm k profile family type protocol l) log

/-- The function `profile_sk_perm`, on the audit data it is handed. -/
def profile_sk_perm (k : kern) (profile : aa_profile) (s : audit_state)
    (request : Nat) (sk : sock) : Int × audit_state :=
  let rules := profile.rules
  let state := k.RULE_MEDIATES_AF rules k.AF_UNIX
  if state ≠ 0 then
    let r := match_to_sk k rules.policy.dfa state sk s.ad.info
    do_perms profile rules r.1 request { ad := { s.ad with info := r.2 }, log := s.log }
  else
    aa_profile_af_sk_perm k profile s request sk

/-- The entry point `aa_unix_label_sk_perm`: one audit record for all the profiles of the
label. -/
def aa_unix_label_sk_perm (k : kern) (subj_cred : Option Nat) (label : aa_label)
    (op : Option String) (request : Nat) (sk : sock) (log : List audit_event) :
    Int × List audit_event :=
  if !unconfined label then
    let ad := { DEFINE_AUDIT_SK op sk with subj_cred := subj_cred }
    let res := fn_for_each_confined label
      (fun profile s => profile_sk_perm k profile s request sk) { ad := ad, log := log }
    (res.1, res.2.log)
  else (0, log)

/-- The function `unix_label_sock_perm`. -/
def unix_label_sock_perm (k : kern) (subj_cred : Option Nat) (label : aa_label)
    (op : Option String) (request : Nat) (sock : socket) (log : List audit_event) :
    Int × List audit_event :=
  if unconfined label then (0, log)
  else if k.UNIX_FS sock.sk then unix_fs_perm k op request subj_cred label sock.sk 0 log
  else aa_unix_label_sk_perm k subj_cred label op request sock.sk log

/-- The entry point `aa_unix_sock_perm`; `label` is the current task's label and `cred`
its credentials. -/
def aa_unix_sock_perm (k : kern) (label : aa_label) (cred : Option Nat)
    (op : Option String) (request : Nat) (sock : socket) (log : List audit_event) :
    Int × List audit_event :=
  unix_label_sock_perm k cred label op request sock log

/-- The function `profile_bind_perm`, for an abstract address. -/
def profile_bind_perm (k : kern) (cred : Option Nat) (profile : aa_profile) (sk : sock)
    (addr : sockaddr_un) (addrlen : Int) (log : List audit_event) :
    Int × List audit_event :=
  let rules := profile.rules
  let ad := { DEFINE_AUDIT_SK (some OP_BIND) sk with subj_cred := cred }
  let state := k.RULE_MEDIATES_AF rules k.AF_UNIX
  if state ≠ 0 then
    let ad := { ad with net_addr_set := true, net_addrlen := addrlen }
    let r := match_to_local k rules.policy.dfa state sk.sk_type sk.sk_protocol
      (some addr) addrlen ad.info
    let res := do_perms profile rules r.1 k.AA_MAY_BIND
      { ad := { ad with info := r.2 }, log := log }
    (res.1, res.2.log)
  else
    let res := aa_profile_af_sk_perm k profile { ad := ad, log := log } k.AA_MAY_BIND sk
    (res.1, res.2.log)

/-- The entry point `aa_unix_bind_perm`; a filesystem bind is left to mknod. -/
def aa_unix_bind_perm (k : kern) (label : aa_label) (cred : Option Nat) (sock : socket)
    (address : sockaddr_un) (addrlen : Int) (log : List audit_event) :
    Int × List audit_event :=
  if !(unconfined label || k.unix_addr_fs address addrlen) then
    fn_for_each_confined label
      (fun profile l => profile_bind_perm k cred profile sock.sk address addrlen l) log
  else (0, log)

/-- The entry point `aa_unix_connect_perm`: connections are covered by other hooks. -/
def aa_unix_connect_perm (_sock : socket) (_address : sockaddr_un) (_addrlen : Int)
    (log : List audit_event) : Int × List audit_event :=
  (0, log)

/-- The function `profile_listen_perm`. -/
def profile_listen_perm (k : kern) (profile : aa_profile) (sk : sock) (backlog : Int)
    (log : List audit_event) : Int × List audit_event :=
  let rules := profile.rules
  let ad := DEFINE_AUDIT_SK (some OP_LISTEN) sk
  let state := k.RULE_MEDIATES_AF rules k.AF_UNIX
  if state ≠ 0 then
    let b := cpu_to_be16 backlog
    let r := match_to_cmd k rules.policy.dfa state sk CMD_LISTEN ad.info
    let r2 : Nat × Option String :=
      if r.1 ≠ 0 then
        let state := rules.policy.dfa.match_len r.1 b
        if state = 0 then (state, some "failed listen backlog match") else (state, r.2)
      else r
    let res := do_perms profile rules r2.1 k.AA_MAY_LISTEN
      { ad := { ad with info := r2.2 }, log := log }
    (res.1, res.2.log)
  else
    let res := aa_profile_af_sk_perm k profile { ad := ad, log := log } k.AA_MAY_LISTEN sk
    (res.1, res.2.log)

/-- The entry point `aa_unix_listen_perm`. -/
def aa_unix_listen_perm (k : kern) (label : aa_label) (sock : socket) (backlog : Int)
    (log : List audit_event) : Int × List audit_event :=
  if !(unconfined label || k.UNIX_FS sock.sk) then
    fn_for_each_confined label
      (fun profile l => profile_listen_perm k profile sock.sk backlog l) log
  else (0, log)

/-- The function `profile_accept_perm`; the new socket is not read. -/
def profile_accept_perm (k : kern) (profile : aa_profile) (sk : sock) (_newsk : sock)
    (log : List audit_event) : Int × List audit_event :=
  let rules := profile.rules
  let ad := DEFINE_AUDIT_SK (some OP_ACCEPT) sk
  let state := k.RULE_MEDIATES_AF rules k.AF_UNIX
  if state ≠ 0 then
    let r := match_to_sk k rules.policy.dfa state sk ad.info
    let res := do_perms profile rules r.1 k.AA_MAY_ACCEPT
      { ad := { ad with info := r.2 }, log := log }
    (res.1, res.2.log)
  else
    let res := aa_profile_af_sk_perm k profile { ad := ad, log := log } k.AA_MAY_ACCEPT sk
    (res.1, res.2.log)

/-- The entry point `aa_unix_accept_perm`. -/
def aa_unix_accept_perm (k : kern) (label : aa_label) (sock newsock : socket)
    (log : List audit_event) : Int × List audit_event :=
  if !(unconfined label || k.UNIX_FS sock.sk) then
    fn_for_each_confined label
      (fun profile l => profile_accept_perm k profile sock.sk newsock.sk l) log
  else (0, log)

/-- The entry point `aa_unix_msg_perm`: datagrams are handled by another hook. -/
def aa_unix_msg_perm (_op : Option String) (_request : Nat) (_sock : socket)
    (_size : Int) (log : List audit_event) : Int × List audit_event :=
  (0, log)

/-- The function `profile_opt_perm`; the level is not read. -/
def profile_opt_perm (k : kern) (profile : aa_profile) (op : Option String)
    (request : Nat) (sk : sock) (_level : Int) (optname : Int)
    (log : List audit_event) : Int × List audit_event :=
  let rules := profile.rules
  let ad := DEFINE_AUDIT_SK op sk
  let state := k.RULE_MEDIATES_AF rules k.AF_UNIX
  if state ≠ 0 then
    let b := cpu_to_be16 optname
    let r := match_to_cmd k rules.policy.dfa state sk CMD_OPT ad.info
    let r2 : Nat × Option String :=
      if r.1 ≠ 0 then
        let state := rules.policy.dfa.match_len r.1 b
        if state = 0 then (state, some "failed sockopt match") else (state, r.2)
      else r
    let res := do_perms profile rules r2.1 request
      { ad := { ad with info := r2.2 }, log := log }
    (res.1, res.2.log)
  else
    let res := aa_profile_af_sk_perm k profile { ad := ad, log := log } request sk
    (res.1, res.2.log)

/-- The entry point `aa_unix_opt_perm`. -/
def aa_unix_opt_perm (k : kern) (label : aa_label) (op : Option String) (request : Nat)
    (sock : socket) (level optname : Int) (log : List audit_event) :
    Int × List audit_event :=
  if !(unconfined label || k.UNIX_FS sock.sk) then
    fn_for_each_confined label
      (fun profile l => profile_opt_perm k profile op request sock.sk level optname l) log
  else (0, log)

/-- The function `profile_peer_perm`; an absent peer label stands for the label recorded
on the peer socket. -/
def profile_peer_perm (k : kern) (profile : aa_profile) (_op : Option String)
    (request : Nat) (sk peer_sk : sock) (peer_label : Option aa_label)
    (s : audit_state) : Int × audit_state :=
  let rules := profile.rules
  let state := k.RULE_MEDIATES_AF rules k.AF_UNIX
  if state ≠ 0 then
    let addr : Option sockaddr_un := (sk_addr peer_sk).1
    let len : Int := (sk_addr peer_sk).2
    let r := match_to_peer k rules.policy.dfa state sk addr len s.ad.info
    let peer_label : aa_label := match peer_label with
      | some l => l
      | none => peer_sk.ctx.label
    fn_for_each_in_ns peer_label
      (fun peerp t => match_label profile rules peerp r.1 request t)
      { ad := { s.ad with info := r.2 }, log := s.log }
  else
    aa_profile_af_sk_perm k profile s request sk

/-- The entry point `aa_unix_peer_perm`. Beside the error and the log, the diagnostic
left in the function's audit data is returned (none where the function sets
up no audit data). -/
def aa_unix_peer_perm (k : kern) (subj_cred : Option Nat) (label : aa_label)
    (op : Option String) (request : Nat) (sk peer_sk : sock)
    (peer_label : Option aa_label) (log : List audit_event) :
    decision × List audit_event :=
  if k.UNIX_FS peer_sk then
    let res := unix_fs_perm k op request subj_cred label peer_sk 0 log
    ({ error := res.1, info := none }, res.2)
  else if k.UNIX_FS sk then
    let res := unix_fs_perm k op request subj_cred label sk 0 log
    ({ error := res.1, info := none }, res.2)
  else
    let ad := { DEFINE_AUDIT_SK op sk with net_peer_sk := some peer_sk.id,
                                            subj_cred := subj_cred }
    if unconfined label then ({ error := 0, info := ad.info }, log)
    else
      let res := fn_for_each_confined label
        (fun profile s => profile_peer_perm k profile op request sk peer_sk peer_label s)
        { ad := ad, log := log }
      ({ error := res.1, info := res.2.ad.info }, res.2.log)

/-- The cross-check of `aa_unix_file_perm`: the acting label against the peer, then
the peer's label against the acting label, both for read and write, combined
by `xcheck`. -/
def aa_unix_file_perm_xcheck (k : kern) (subj_cred : Option Nat) (label : aa_label)
    (op : Option String) (peer_sk : sock) (sock : socket) (log : List audit_event) :
    decision × List audit_event :=
  let a := aa_unix_peer_perm k subj_cred label op (k.MAY_READ ||| k.MAY_WRITE)
    sock.sk peer_sk none log
  let b := aa_unix_peer_perm k sock.f_cred peer_sk.ctx.label op
    (k.MAY_READ ||| k.MAY_WRITE) peer_sk sock.sk (some label) a.2
  (xcheck a.1 b.1, b.2)

/-- The entry point `aa_unix_file_perm`. -/
def aa_unix_file_perm (k : kern) (subj_cred : Option Nat) (label : aa_label)
    (op : Option String) (request : Nat) (sock : socket) (log : List audit_event) :
    Int × List audit_event :=
  let sk_req := request &&& not32 k.NET_PEER_MASK
  let r0 : Int × List audit_event :=
    if !sock.connected && sk_req ≠ 0 then
      unix_label_sock_perm k subj_cred label op sk_req sock log
    else (0, log)
  match sock.peer with
  | none => r0
  | some peer_sk =>
    if k.UNIX_FS sock.sk then
      unix_fs_perm k op request subj_cred label sock.sk k.PATH_SOCK_COND r0.2
    else if k.UNIX_FS peer_sk then
      unix_fs_perm k op request subj_cred label peer_sk k.PATH_SOCK_COND r0.2
    else
      let r1 : Int × List audit_event :=
        if sk_req ≠ 0 then aa_unix_label_sk_perm k subj_cred label op sk_req sock.sk r0.2
        else r0
      let x := aa_unix_file_perm_xcheck k subj_cred label op peer_sk sock r1.2
      (last_error r1.1 x.1.error, x.2)

/-! ## ipc.c: signals -/

/-- The function `map_signal_num`. -/
def map_signal_num (c : sig_names) (sig : Int) : Int :=
  if sig > c.SIGRTMAX then c.SIGUNKNOWN
  else if sig ≥ c.SIGRTMIN then sig - c.SIGRTMIN + c.SIGRT_BASE
  else if sig < c.MAXMAPPED_SIG then c.sig_map sig
  else c.SIGUNKNOWN

/-- The function `profile_signal_perm`; the signal is handed to the automaton as one
character. -/
def profile_signal_perm (k : kern) (cred : Option Nat) (profile : aa_profile)
    (peer : aa_label) (request : Nat) (s : audit_state) : Int × audit_state :=
  let rules := profile.rules
  if !k.profile_mediates profile k.AA_CLASS_SIGNAL then (0, s)
  else
    let ad := { s.ad with subj_cred := cred, peer := some peer.hname }
    let state := k.RULE_MEDIATES rules k.AA_CLASS_SIGNAL
    if state = 0 then (0, { ad := ad, log := s.log })
    else
      let state := rules.policy.dfa.next state (ad.signal % 256).toNat
      let perms := k.aa_label_match profile rules peer state request
      let perms := aa_apply_modes_to_perms profile perms
      aa_check_perms profile perms request { ad := ad, log := s.log }

/-- Modelled from the spec: `xcheck_labels` of `perms.h`, which is not among the
sources: the first check is run for the profiles of the first label, then the
second check for the profiles of the second label, on the same audit data, and
the two decisions are combined by `xcheck`. -/
def xcheck_labels (L1 L2 : aa_label) (FN1 FN2 : aa_profile → audit_state → Int × audit_state)
    (s : audit_state) : decision × audit_state :=
  let a := fn_for_each L1 FN1 s
  let b := fn_for_each L2 FN2 a.2
  (xcheck { error := a.1, info := a.2.ad.info } { error := b.1, info := b.2.ad.info }, b.2)

/-- The cross-check of `aa_may_signal`: the sender's profiles for write against the
target, the target's profiles for read against the sender. -/
def aa_may_signal_xcheck (k : kern) (subj_cred : Option Nat) (sender : aa_label)
    (target_cred : Option Nat) (target : aa_label) (sig : Int)
    (log : List audit_event) : decision × audit_state :=
  let ad := { DEFINE_AUDIT_DATA (some OP_SIGNAL) with
                signal := map_signal_num k.sig sig, unmappedsig := sig }
  xcheck_labels sender target
    (fun profile s => profile_signal_perm k subj_cred profile target k.MAY_WRITE s)
    (fun profile s => profile_signal_perm k target_cred profile sender k.MAY_READ s)
    { ad := ad, log := log }

/-- The entry point `aa_may_signal`: the error of the combined decision. -/
def aa_may_signal (k : kern) (subj_cred : Option Nat) (sender : aa_label)
    (target_cred : Option Nat) (target : aa_label) (sig : Int)
    (log : List audit_event) : Int × audit_state :=
  ((aa_may_signal_xcheck k subj_cred sender target_cred target sig log).1.error,
   (aa_may_signal_xcheck k subj_cred sender target_cred target sig log).2)

/-! ## ipc.c: message queues -/

/-- Modelled from the spec: `denied_perms` of `perms.h`, which is not among the
sources: the requested bits the allow mask does not satisfy,
`requested_mask & ~allow_mask`. -/
def denied_perms (perms : aa_perms) (request : Nat) : Nat :=
  request &&& not32 perms.allow

/-- The function `aa_profile_mqueue_perm`. The warning printed when the queue is not on
the namespace's own mount changes nothing and is left out. -/
def aa_profile_mqueue_perm (k : kern) (profile : aa_profile) (path : AppArmor.path)
    (request : Nat) (_buffer : Nat) (s : audit_state) : Int × audit_state :=
  let rules := profile.rules
  if profile_unconfined profile || decide (k.RULE_MEDIATES rules k.AA_CLASS_POSIX_MQUEUE = 0)
  then (0, s)
  else
    let ad := { s.ad with subj_label := some profile.hname }
    match k.dentry_path_raw path with
    | Except.error e => (e, { ad := ad, log := s.log })
    | Except.ok name =>
      let ad := { ad with name := some name }
      let state := rules.policy.dfa.match_str
        (rules.policy.start k.AA_CLASS_POSIX_MQUEUE) name
      let r := aa_lookup_perms rules.policy state s.log
      let perms := aa_apply_modes_to_perms profile r.1
      if denied_perms perms request = 0 then
        aa_check_perms profile perms request { ad := ad, log := r.2 }
      else
        aa_check_perms profile perms request { ad := ad, log := r.2 }

/-- The entry point `aa_mqueue_perm`. -/
def aa_mqueue_perm (k : kern) (op : Option String) (subj_cred : Option Nat)
    (label : aa_label) (path : AppArmor.path) (request : Nat) (log : List audit_event) :
    Int × List audit_event :=
  match k.aa_get_buffer false with
  | none => (-ENOMEM, log)
  | some buffer =>
    let ad := { DEFINE_AUDIT_DATA op with
                  subj_cred := subj_cred, request := request, peer := none,
                  mq_ouid := some (match path.backing_inode with
                    | some uid => uid
                    | none => k.cred_fsuid subj_cred) }
    let res := fn_for_each_confined label
      (fun profile s => aa_profile_mqueue_perm k profile path request buffer s)
      { ad := ad, log := log }
    (res.1, res.2.log)

/-! ## audit.h -/

/-- The function `complain_error`. -/
def complain_error (error : Int) : Int :=
  if error = -EPERM ∨ error = -EACCES then 0 else error

/-! ## af_unix.c: locking two sockets -/

/-- The function `unix_state_double_lock`: the sockets whose state lock is taken, in the
order in which they are taken. Sockets are compared by address (`id`); an
absent second socket is the null pointer. -/
def unix_state_double_lock (sk1 : sock) (sk2 : Option sock) : List Nat :=
  match sk2 with
  | none => [sk1.id]
  | some s2 =>
    if sk1.id = s2.id then [sk1.id]
    else if sk1.id < s2.id then [sk1.id, s2.id]
    else [s2.id, sk1.id]

/-- The function `unix_state_double_unlock`: the sockets whose state lock is released, in
order. -/
def unix_state_double_unlock (sk1 : sock) (sk2 : Option sock) : List Nat :=
  match sk2 with
  | none => [sk1.id]
  | some s2 => if sk1.id = s2.id then [sk1.id] else [sk1.id, s2.id]

/-! ## audit.h: the audit cache -/

/-- A cached audit record `struct aa_audit_node`: the reference count `count` and the
record. -/
structure aa_audit_node where
  count : Nat
  data : apparmor_audit_data
deriving DecidableEq, Repr

/-- The cache `struct aa_audit_cache`: the size counter and the linked nodes, first
to last. -/
structure aa_audit_cache where
  size : Int
  head : List aa_audit_node
deriving DecidableEq, Repr

/-- The function `aa_audit_cache_init`: size 0 and an empty list. -/
def aa_audit_cache_init : aa_audit_cache := { size := 0, head := [] }

/-- The function `aa_get_audit_node`: one more reference on a node that is there. -/
def aa_get_audit_node (node : Option aa_audit_node) : Option aa_audit_node :=
  node.map (fun n => { n with count := n.count + 1 })

/-- The function `aa_put_audit_node`: one reference less on a node that is there; the
node is freed, and gone, when the count reaches zero. -/
def aa_put_audit_node (node : Option aa_audit_node) : Option aa_audit_node :=
  match node with
  | none => none
  | some n => if n.count ≤ 1 then none else some { n with count := n.count - 1 }

/-- Modelled from the spec: `aa_audit_cache_find` of `audit.c`, which is not among
the sources: `find(cache, record) -> existing_or_none`, the first node whose
record the comparator finds equal to the given one. -/
def aa_audit_cache_find (k : kern) (cache : aa_audit_cache) (ad : apparmor_audit_data) :
    Option aa_audit_node :=
  cache.head.find? (fun n => decide (k.aa_audit_data_cmp n.data ad = 0))

/-- The list after one more reference is taken on its first node equal to the
record, with that node; none when no node is equal. -/
def get_equal_node (k : kern) (ad : apparmor_audit_data) :
    List aa_audit_node → Option (aa_audit_node × List aa_audit_node)
  | [] => none
  | n :: rest =>
    if k.aa_audit_data_cmp n.data ad = 0 then
      some ({ n with count := n.count + 1 }, { n with count := n.count + 1 } :: rest)
    else
      match get_equal_node k ad rest with
      | some r => some (r.1, n :: r.2)
      | none => none

/-- Modelled from the spec: `aa_audit_cache_insert` of `audit.c`, which is not among
the sources: "if an equal record already exists, increment its reference
count and discard the new node (return the existing one); otherwise link the
new node and increment `size`". -/
def aa_audit_cache_insert (k : kern) (cache : aa_audit_cache) (node : aa_audit_node) :
    aa_audit_node × aa_audit_cache :=
  match get_equal_node k node.data cache.head with
  | some r => (r.1, { size := cache.size, head := r.2 })
  | none => (node, { size := cache.size + 1, head := node :: cache.head })

/-- Modelled from the spec: `aa_audit_cache_destroy` of `audit.c`, which is not among
the sources: "unlink and release every node". The spec names no change of the
size counter, which is left as it is. -/
def aa_audit_cache_destroy (cache : aa_audit_cache) : aa_audit_cache :=
  { size := cache.size, head := [] }

/-! ## Definitions used to state the properties -/

/-- The index at which `map_signal_num` reads the table `sig_map`, none when it
returns without reading it. -/
def map_signal_num_read (c : sig_names) (sig : Int) : Option Int :=
  if sig > c.SIGRTMAX then none
  else if sig ≥ c.SIGRTMIN then none
  else if sig < c.MAXMAPPED_SIG then some sig
  else none

/-- The number of audit decisions in a log: the calls into the permission check
and into the generic network check. -/
def decisions : List audit_event → Nat
  | [] => 0
  | audit_event.check _ _ _ :: rest => decisions rest + 1
  | audit_event.af_perm _ _ :: rest => decisions rest + 1
  | _ :: rest => decisions rest


/-- One input handed to the automaton: a run of bytes (`aa_dfa_match_len`), a null
transition (`aa_dfa_null_transition`) or a name (`aa_dfa_match`). -/
inductive token where
  | bytes (bs : List Nat)
  | null
  | name (n : String)
deriving DecidableEq, Repr

/-- The state after one token. -/
def feed (dfa : aa_dfa) (s : Nat) : token → Nat
  | token.bytes bs => dfa.match_len s bs
  | token.null => dfa.null_transition s
  | token.name n => dfa.match_str s n

/-- The state after a sequence of tokens, fed in order. -/
def run_tokens (dfa : aa_dfa) (s : Nat) (ts : List token) : Nat :=
  ts.foldl (feed dfa) s

/-- The states the permission table was looked up at, in order. -/
def lookups : List audit_event → List Nat
  | [] => []
  | audit_event.lookup s :: rest => s :: lookups rest
  | _ :: rest => lookups rest

/-- The audit decisions of a log, in order: the deciding profile and the request. -/
def checks : List audit_event → List (String × Nat)
  | [] => []
  | audit_event.check p r _ :: rest => (p, r) :: checks rest
  | _ :: rest => checks rest

/-- Whether an event is a call into the path mediator (or its audit of a failed
name lookup). -/
def is_path_event : audit_event → Bool
  | audit_event.path_perm _ _ _ _ => true
  | audit_event.audit_file _ _ _ => true
  | _ => false


/-- The bytes a descriptor holds for an address: the path bytes of a present
address, the reserved byte `0x01` for an absent one. -/
def addr_bytes (k : kern) (addr : Option sockaddr_un) (addrlen : Int) : List Nat :=
  match addr with
  | some a => sun_path_bytes a (k.unix_addr_len addrlen)
  | none => [1]

/-- The diagnostic of the first stage whose state is the no-match state, for
stages listed in matching order with their diagnostics. -/
def first_failed : List (Nat × String) → Option String
  | [] => none
  | (s, d) :: rest => if s = 0 then some d else first_failed rest

/-- The errors of the successive runs of a per-profile check over a list of
profiles, each run starting from the state the previous one left. -/
def run_results {σ : Type} (FN : aa_profile → σ → Int × σ) : List aa_profile → σ → List Int
  | [], _ => []
  | p :: ps, s => (FN p s).1 :: run_results FN ps (FN p s).2

/-- The confined profiles of a label, in order. -/
def confined_profiles (L : aa_label) : List aa_profile :=
  L.vec.filter (fun p => !profile_unconfined p)

/-- The pair a guarded matching stage returns: nothing is done on a failed
match; otherwise the stage `f` runs and a failure records the diagnostic `d`. -/
def guarded_stage (f : Nat → Nat) (d : String) (r : Nat × Option String) :
    Nat × Option String :=
  if r.1 ≠ 0 then (if f r.1 = 0 then (f r.1, some d) else (f r.1, r.2)) else r

/-- The result `r` of matching agrees with the stages `L` (each with its state and
diagnostic), the diagnostic `i0` on entry and the state `sN` of the last stage:
the diagnostic is that of the first failed stage, or the one on entry if none
failed; the state is 0 if a stage failed, and the live state `sN` otherwise. -/
def stage_result (r : Nat × Option String) (L : List (Nat × String)) (i0 : Option String)
    (sN : Nat) : Prop :=
  r.2 = (first_failed L).orElse (fun _ => i0) ∧
  (first_failed L ≠ none → r.1 = 0) ∧
  (first_failed L = none → r.1 = sN ∧ sN ≠ 0)

/-- The diagnostic held by the audit data of each audit decision of a log, in
order. -/
def check_infos : List audit_event → List (Option String)
  | [] => []
  | audit_event.check _ _ ad :: rest => ad.info :: check_infos rest
  | _ :: rest => check_infos rest

/-- The audit decisions of a log, in order, with the deciding profile and the
request: the calls into the permission check and into the generic network
check. -/
def decided : List audit_event → List (String × Nat)
  | [] => []
  | audit_event.check p r _ :: rest => (p, r) :: decided rest
  | audit_event.af_perm p r :: rest => (p, r) :: decided rest
  | _ :: rest => decided rest

/-- The state left by running a per-profile check on each profile of a list in
turn, each run starting from the state the previous one left. -/
def run_state {σ : Type} (FN : aa_profile → σ → Int × σ) : List aa_profile → σ → σ
  | [], s => s
  | p :: ps, s => run_state FN ps (FN p s).2

/-- Whether an event is a call into the path mediator proper (`aa_path_perm` or
`__aa_path_perm`). -/
def is_path_perm_event : audit_event → Bool
  | audit_event.path_perm _ _ _ _ => true
  | _ => false

/-- Whether an event is the file audit of a failed name lookup (`aa_audit_file`). -/
def is_audit_file_event : audit_event → Bool
  | audit_event.audit_file _ _ _ => true
  | _ => false

/-! ## Sample objects, used to instantiate the theorems -/

/-- Sample signal constants and table. -/
def ex_sig : sig_names :=
  { SIGRTMIN := 32, SIGRTMAX := 64, SIGUNKNOWN := 0, MAXMAPPED_SIG := 35,
    SIGRT_BASE := 128, sig_map := fun i => 100 + i }

/-- Sample automaton: from a live state, the token of type 1 and protocol 0 and
the name "denied" have no transition; everything else moves on. The no-match
state stays where it is. -/
def ex_dfa : aa_dfa :=
  { match_len := fun s bs =>
      if s = 0 then 0 else if bs = [0, 1, 0, 0] then 0 else if bs = [1] then s + 1 else s + 2,
    null_transition := fun s => if s = 0 then 0 else s + 1,
    match_str := fun s n => if s = 0 then 0 else if n = "denied" then 0 else s + 1,
    next := fun s c => if s = 0 then 0 else s + c + 1 }

/-- Sample policy: the no-match state allows nothing, every other state allows
everything. -/
def ex_policy : aa_policydb :=
  { dfa := ex_dfa,
    perms := fun s => if s = 0 then { allow := 0, audit := 0, quiet := 0, kill := 0 }
                      else { allow := 4294967295, audit := 0, quiet := 0, kill := 0 },
    start := fun _ => 1 }

/-- Sample rule set. -/
def ex_rules : aa_ruleset := { policy := ex_policy }

/-- Sample confined profile in enforce mode. -/
def ex_profile : aa_profile :=
  { hname := "P1", mode := profile_mode.enforce, path_flags := 0, rules := ex_rules }

/-- A second sample confined profile, whose name the sample automaton rejects. -/
def ex_profile_denied : aa_profile :=
  { hname := "denied", mode := profile_mode.enforce, path_flags := 0, rules := ex_rules }

/-- Sample unconfined profile. -/
def ex_profile_unconfined : aa_profile :=
  { hname := "unconfined", mode := profile_mode.unconfined, path_flags := 0,
    rules := ex_rules }

/-- Sample label with one confined profile. -/
def ex_label : aa_label := { hname := "P1", vec := [ex_profile] }

/-- Sample label with two confined profiles. -/
def ex_label2 : aa_label := { hname := "P1//&denied", vec := [ex_profile, ex_profile_denied] }

/-- Sample unconfined label. -/
def ex_label_unconfined : aa_label := { hname := "unconfined", vec := [ex_profile_unconfined] }

/-- Sample anonymous stream socket (type 1, protocol 0). -/
def ex_sock : sock :=
  { id := 1, sk_type := 1, sk_protocol := 0, addr := none, path := none,
    ctx := { label := ex_label, path := none }, i_uid := 0, i_mode := 0 }

/-- Sample anonymous datagram socket (type 2, protocol 0). -/
def ex_dgram : sock :=
  { id := 2, sk_type := 2, sk_protocol := 0, addr := none, path := none,
    ctx := { label := ex_label2, path := none }, i_uid := 0, i_mode := 0 }

/-- Sample abstract address: path bytes 0, 1, 0, 0, ... -/
def ex_abstract_addr : sockaddr_un := { sun_path := fun i => if i = 1 then 1 else 0 }

/-- Sample datagram socket bound to the sample abstract address, path length 4. -/
def ex_peer_abstract : sock :=
  { id := 3, sk_type := 2, sk_protocol := 0,
    addr := some { name := ex_abstract_addr, len := 6 }, path := none,
    ctx := { label := ex_label2, path := none }, i_uid := 0, i_mode := 0 }

/-- Sample address in the filesystem: every path byte is 47. -/
def ex_fs_addr : sockaddr_un := { sun_path := fun _ => 47 }

/-- Sample stream socket bound to the sample filesystem address. -/
def ex_fs_sock : sock :=
  { id := 4, sk_type := 1, sk_protocol := 0,
    addr := some { name := ex_fs_addr, len := 6 }, path := some { id := 9, i_uid := 0, i_mode := 0 },
    ctx := { label := ex_label, path := none }, i_uid := 0, i_mode := 0 }

/-- Sample kernel environment. A socket counts as filesystem-backed when it has
an address whose first path byte is not zero. -/
def ex_kern : kern :=
  { sig := ex_sig,
    AF_UNIX := 1, AA_CLASS_FILE := 2, AA_CLASS_SIGNAL := 10, AA_CLASS_POSIX_MQUEUE := 11,
    NET_FS_PERMS := 7, NET_PEER_MASK := 240, PATH_MEDIATE_DELETED := 65536,
    PATH_SOCK_COND := 131072, MAY_READ := 4, MAY_WRITE := 2,
    AA_MAY_CREATE := 16, AA_MAY_BIND := 256, AA_MAY_LISTEN := 512, AA_MAY_ACCEPT := 128,
    UNIX_FS := fun sk => match sk.addr with
      | some a => decide (a.name.sun_path 0 ≠ 0)
      | none => false,
    unix_addr_fs := fun a _ => decide (a.sun_path 0 ≠ 0),
    unix_addr_len := fun l => (l - 2).toNat,
    RULE_MEDIATES := fun r c => r.policy.start c,
    RULE_MEDIATES_AF := fun r _ => r.policy.start 0,
    profile_mediates := fun _ _ => true,
    label_mediates := fun _ _ => true,
    aa_label_match := fun _ r _ s _ => r.policy.perms s,
    aa_profile_af_perm := fun _ ad _ _ _ => (0, ad),
    aa_profile_af_sk_perm := fun _ ad _ _ => (0, ad),
    aa_path_perm := fun _ _ _ _ _ _ _ _ => 0,
    __aa_path_perm := fun _ _ _ _ _ _ _ _ => 0,
    aa_audit_file := fun _ _ _ _ _ _ _ e => e,
    dentry_path_raw := fun p => if p.dentry = 0 then Except.error (-36) else Except.ok "/queue",
    aa_audit_data_cmp := fun a b =>
      if a.error = b.error then (a.request : Int) - (b.request : Int) else a.error - b.error,
    aa_get_buffer := fun _ => some 1,
    cred_fsuid := fun _ => 1000 }

/-- Sample kernel environment in which no signal is allowed. -/
def ex_kern_deny : kern :=
  { ex_kern with aa_label_match := fun _ _ _ _ _ => { allow := 0, audit := 0, quiet := 0, kill := 0 } }

/-- Sample socket object: the sample stream socket, not connected, whose peer is
the sample socket bound to the abstract address. -/
def ex_socket : socket :=
  { sk := ex_sock, connected := false, peer := some ex_peer_abstract, f_cred := none }

/-- Sample policy that allows read and write (mask 6) in every live state. -/
def ex_policy_rw : aa_policydb :=
  { dfa := ex_dfa,
    perms := fun s => if s = 0 then { allow := 0, audit := 0, quiet := 0, kill := 0 }
                      else { allow := 6, audit := 0, quiet := 0, kill := 0 },
    start := fun _ => 1 }

/-- Sample confined profile with the read-write policy. -/
def ex_profile_rw : aa_profile :=
  { hname := "RW", mode := profile_mode.enforce, path_flags := 0,
    rules := { policy := ex_policy_rw } }

/-- Sample label with the read-write profile. -/
def ex_label_rw : aa_label := { hname := "RW", vec := [ex_profile_rw] }

/-- Sample anonymous datagram socket labelled with the read-write label. -/
def ex_dgram_rw : sock :=
  { id := 5, sk_type := 2, sk_protocol := 0, addr := none, path := none,
    ctx := { label := ex_label_rw, path := none }, i_uid := 0, i_mode := 0 }

/-- Sample socket object: an anonymous datagram socket connected to another. -/
def ex_socket_rw : socket :=
  { sk := ex_dgram_rw, connected := true, peer := some { ex_dgram_rw with id := 6 },
    f_cred := none }

/-- Sample socket object around the socket bound in the filesystem. -/
def ex_fs_socket : socket :=
  { sk := ex_fs_sock, connected := false, peer := none, f_cred := none }

/-- Sample message queue path; the sample environment yields its name. -/
def ex_mq_path : path := { dentry := 7, mnt := 1, backing_inode := some 0 }

/-- Sample message queue path whose name the sample environment cannot yield. -/
def ex_mq_path_unnamed : path := { dentry := 0, mnt := 1, backing_inode := none }

/-- Sample kernel environment in which no path buffer can be obtained. -/
def ex_kern_nobuf : kern := { ex_kern with aa_get_buffer := fun _ => none }

/-- Sample automaton that moves on from every live state on every input. -/
def ex_dfa_open : aa_dfa :=
  { match_len := fun s _ => if s = 0 then 0 else s + 1,
    null_transition := fun s => if s = 0 then 0 else s + 1,
    match_str := fun s _ => if s = 0 then 0 else s + 1,
    next := fun s c => if s = 0 then 0 else s + c + 1 }

/-- Sample confined profile whose automaton matches every descriptor. -/
def ex_profile_open : aa_profile :=
  { hname := "open", mode := profile_mode.enforce, path_flags := 0,
    rules := { policy := { ex_policy with dfa := ex_dfa_open } } }

/-- Sample label of two confined profiles: the first rejects a stream socket at
its type and protocol, the second matches it. -/
def ex_label_mixed : aa_label :=
  { hname := "P1//&open", vec := [ex_profile, ex_profile_open] }

/-- Sample stream socket bound to the sample filesystem address whose path has
been cleared, with no path recorded in its security context. -/
def ex_fs_sock_cleared : sock := { ex_fs_sock with path := none }

/-- Sample socket object around the filesystem socket whose path has been
cleared. -/
def ex_fs_socket_cleared : socket :=
  { sk := ex_fs_sock_cleared, connected := false, peer := none, f_cred := none }

/-- Sample automaton that tells every byte apart: from a live state a run of
bytes moves on by one more than the sum of the bytes. -/
def ex_dfa_sum : aa_dfa :=
  { match_len := fun s bs => if s = 0 then 0 else s + 1 + bs.sum,
    null_transition := fun s => if s = 0 then 0 else s + 1,
    match_str := fun s _ => if s = 0 then 0 else s + 1,
    next := fun s c => if s = 0 then 0 else s + c + 1 }

/-- Sample confined profile over the automaton that tells every byte apart. -/
def ex_profile_sum : aa_profile :=
  { hname := "sum", mode := profile_mode.enforce, path_flags := 0,
    rules := { policy := { ex_policy with dfa := ex_dfa_sum } } }

/-! ## Theorems -/

/-- C9: for every signal number at or above SIGRTMIN, map_signal_num yields
SIGRT_BASE + (sig - SIGRTMIN) when the signal is at most SIGRTMAX and the
sentinel SIGUNKNOWN when it is above SIGRTMAX. -/
theorem map_signal_num_realtime (c : sig_names) (sig : Int) (h : sig ≥ c.SIGRTMIN) :
    (sig ≤ c.SIGRTMAX → map_signal_num c sig = c.SIGRT_BASE + (sig - c.SIGRTMIN)) ∧
    (sig > c.SIGRTMAX → map_signal_num c sig = c.SIGUNKNOWN) := by
  constructor
  · intro hle
    have h1 : ¬ sig > c.SIGRTMAX := not_lt.mpr hle
    simp only [map_signal_num, h1, h, if_true, if_false]
    ring
  · intro hgt
    simp only [map_signal_num, hgt, if_true]

/-- Witness of C9 at the sample constants: signal 40 is real-time and maps to
136, signal 70 is above SIGRTMAX and maps to the sentinel. -/
theorem map_signal_num_realtime_witness :
    ((40 : Int) ≥ ex_sig.SIGRTMIN ∧ map_signal_num ex_sig 40 = 136) ∧
    ((70 : Int) ≥ ex_sig.SIGRTMIN ∧ map_signal_num ex_sig 70 = ex_sig.SIGUNKNOWN) :=
  ⟨⟨by decide, (map_signal_num_realtime ex_sig 40 (by decide)).1 (by decide)⟩,
   ⟨by decide, (map_signal_num_realtime ex_sig 70 (by decide)).2 (by decide)⟩⟩

/-- C10: for every signal number with 0 < sig < SIGRTMIN, map_signal_num is the
table entry sig_map[sig], read inside the table, provided the constants of the
headers are ordered as SIGRTMIN <= SIGRTMAX and SIGRTMIN <= MAXMAPPED_SIG. -/
theorem map_signal_num_table (c : sig_names) (sig : Int)
    (hrt : c.SIGRTMIN ≤ c.SIGRTMAX) (hmap : c.SIGRTMIN ≤ c.MAXMAPPED_SIG)
    (h0 : 0 < sig) (h1 : sig < c.SIGRTMIN) :
    map_signal_num c sig = c.sig_map sig ∧ 0 ≤ sig ∧ sig < c.MAXMAPPED_SIG := by
  have h2 : ¬ sig > c.SIGRTMAX := by
    intro hgt
    exact absurd (lt_of_lt_of_le h1 hrt) (not_lt.mpr (le_of_lt hgt))
  have h3 : ¬ sig ≥ c.SIGRTMIN := not_le.mpr h1
  have h4 : sig < c.MAXMAPPED_SIG := lt_of_lt_of_le h1 hmap
  refine ⟨?_, le_of_lt h0, h4⟩
  simp only [map_signal_num, h2, h3, h4, if_true, if_false]

/-- Witness of C10 at the sample constants: signal 9 maps to the table entry. -/
theorem map_signal_num_table_witness :
    ex_sig.SIGRTMIN ≤ ex_sig.SIGRTMAX ∧ ex_sig.SIGRTMIN ≤ ex_sig.MAXMAPPED_SIG ∧
    (0 : Int) < 9 ∧ (9 : Int) < ex_sig.SIGRTMIN ∧
    map_signal_num ex_sig 9 = ex_sig.sig_map 9 :=
  ⟨by decide, by decide, by decide, by decide,
   (map_signal_num_table ex_sig 9 (by decide) (by decide) (by decide) (by decide)).1⟩


theorem match_addr_eq (k : kern) (dfa : aa_dfa) (state : Nat) (addr : Option sockaddr_un)
    (addrlen : Int) :
    match_addr k dfa state addr addrlen =
      dfa.null_transition (dfa.match_len state (addr_bytes k addr addrlen)) := by
  cases addr <;> rfl

theorem match_to_local_eq (k : kern) (dfa : aa_dfa) (state : Nat) (type protocol : Int)
    (addr : Option sockaddr_un) (addrlen : Int) (info : Option String) :
    match_to_local k dfa state type protocol addr addrlen info =
      if dfa.match_len state (cpu_to_be16 type ++ cpu_to_be16 protocol) = 0 then
        (0, some "failed type and protocol match")
      else if match_addr k dfa (dfa.match_len state (cpu_to_be16 type ++ cpu_to_be16 protocol))
          addr addrlen = 0 then
        (0, some "failed local address match")
      else if dfa.null_transition (match_addr k dfa
          (dfa.match_len state (cpu_to_be16 type ++ cpu_to_be16 protocol)) addr addrlen) = 0 then
        (0, some "failed local label match")
      else
        (dfa.null_transition (match_addr k dfa
          (dfa.match_len state (cpu_to_be16 type ++ cpu_to_be16 protocol)) addr addrlen), info) := by
  unfold match_to_local match_to_prot
  split_ifs <;> simp_all

theorem match_to_sk_eq (k : kern) (dfa : aa_dfa) (state : Nat) (u : sock)
    (info : Option String) :
    match_to_sk k dfa state u info =
      match_to_local k dfa state u.sk_type u.sk_protocol (sk_addr u).1 (sk_addr u).2 info := by
  rfl


theorem match_to_cmd_eq (k : kern) (dfa : aa_dfa) (state : Nat) (u : sock) (cmd : Nat)
    (info : Option String) :
    match_to_cmd k dfa state u cmd info =
      if (match_to_sk k dfa state u info).1 = 0 then match_to_sk k dfa state u info
      else if dfa.match_len (match_to_sk k dfa state u info).1 [cmd] = 0 then
        (0, some "failed cmd selection match")
      else (dfa.match_len (match_to_sk k dfa state u info).1 [cmd],
            (match_to_sk k dfa state u info).2) := by
  unfold match_to_cmd
  split_ifs <;> simp_all

theorem match_to_peer_eq (k : kern) (dfa : aa_dfa) (state : Nat) (u : sock)
    (peer_addr : Option sockaddr_un) (peer_addrlen : Int) (info : Option String) :
    match_to_peer k dfa state u peer_addr peer_addrlen info =
      if (match_to_cmd k dfa state u CMD_ADDR info).1 = 0 then
        match_to_cmd k dfa state u CMD_ADDR info
      else if match_addr k dfa (match_to_cmd k dfa state u CMD_ADDR info).1
          peer_addr peer_addrlen = 0 then
        (0, some "failed peer address match")
      else (match_addr k dfa (match_to_cmd k dfa state u CMD_ADDR info).1
              peer_addr peer_addrlen,
            (match_to_cmd k dfa state u CMD_ADDR info).2) := by
  unfold match_to_peer
  split_ifs <;> simp_all

theorem match_label_state_eq (rule : aa_ruleset) (peer : aa_profile) (state : Nat)
    (ad : apparmor_audit_data) :
    match_label_state rule peer state ad =
      if state = 0 then (0, { ad with peer := some peer.hname })
      else if rule.policy.dfa.match_str state peer.hname = 0 then
        (0, { ad with peer := some peer.hname, info := some "failed peer label match" })
      else (rule.policy.dfa.match_str state peer.hname, { ad with peer := some peer.hname }) := by
  unfold match_label_state
  split_ifs <;> simp_all


theorem match_to_local_stages (k : kern) (dfa : aa_dfa) (start : Nat) (type protocol : Int)
    (addr : Option sockaddr_un) (addrlen : Int) (info : Option String)
    (hnull : dfa.null_transition 0 = 0) :
    (match_to_local k dfa start type protocol addr addrlen info).1 = 0 ∨
    ((match_to_local k dfa start type protocol addr addrlen info).1 =
        dfa.null_transition (dfa.null_transition (dfa.match_len
          (dfa.match_len start (cpu_to_be16 type ++ cpu_to_be16 protocol))
          (addr_bytes k addr addrlen))) ∧
      dfa.match_len start (cpu_to_be16 type ++ cpu_to_be16 protocol) ≠ 0 ∧
      dfa.match_len (dfa.match_len start (cpu_to_be16 type ++ cpu_to_be16 protocol))
        (addr_bytes k addr addrlen) ≠ 0 ∧
      dfa.null_transition (dfa.match_len
        (dfa.match_len start (cpu_to_be16 type ++ cpu_to_be16 protocol))
        (addr_bytes k addr addrlen)) ≠ 0 ∧
      dfa.null_transition (dfa.null_transition (dfa.match_len
        (dfa.match_len start (cpu_to_be16 type ++ cpu_to_be16 protocol))
        (addr_bytes k addr addrlen))) ≠ 0) := by
  rw [match_to_local_eq, match_addr_eq]
  generalize dfa.match_len start (cpu_to_be16 type ++ cpu_to_be16 protocol) = s1
  generalize hs2a : dfa.match_len s1 (addr_bytes k addr addrlen) = s2a
  by_cases h1 : s1 = 0
  · left; simp [h1]
  · by_cases h2 : dfa.null_transition s2a = 0
    · left; simp [h1, h2]
    · by_cases h3 : dfa.null_transition (dfa.null_transition s2a) = 0
      · left; simp [h1, h2, h3]
      · right
        have h2a : s2a ≠ 0 := by
          intro h
          rw [h] at h2
          exact h2 hnull
        simp [h1, h2, h3, h2a]

theorem match_to_cmd_stages (k : kern) (dfa : aa_dfa) (start : Nat) (u : sock) (cmd : Nat)
    (info : Option String) (s1 s2a s2 s3 s4 : Nat)
    (hnull : dfa.null_transition 0 = 0)
    (h1 : s1 = dfa.match_len start (cpu_to_be16 u.sk_type ++ cpu_to_be16 u.sk_protocol))
    (h2a : s2a = dfa.match_len s1 (addr_bytes k (sk_addr u).1 (sk_addr u).2))
    (h2 : s2 = dfa.null_transition s2a)
    (h3 : s3 = dfa.null_transition s2)
    (h4 : s4 = dfa.match_len s3 [cmd]) :
    (match_to_cmd k dfa start u cmd info).1 = 0 ∨
    ((match_to_cmd k dfa start u cmd info).1 = s4 ∧
      s1 ≠ 0 ∧ s2a ≠ 0 ∧ s2 ≠ 0 ∧ s3 ≠ 0 ∧ s4 ≠ 0) := by
  subst h1 h2a h2 h3 h4
  rw [match_to_cmd_eq, match_to_sk_eq]
  rcases match_to_local_stages k dfa start u.sk_type u.sk_protocol (sk_addr u).1
    (sk_addr u).2 info hnull with h | ⟨he, n1, n2a, n2, n3⟩
  · left; simp [h]
  · rw [← he] at n3 ⊢
    by_cases h4 : dfa.match_len (match_to_local k dfa start u.sk_type u.sk_protocol
        (sk_addr u).1 (sk_addr u).2 info).1 [cmd] = 0
    · left; simp [n3, h4]
    · right; simp [n3, h4, n1, n2a, n2]

theorem match_to_peer_stages (k : kern) (dfa : aa_dfa) (start : Nat) (u : sock)
    (peer_addr : Option sockaddr_un) (peer_addrlen : Int)
    (info : Option String) (s1 s2a s2 s3 s4 s5a s5 : Nat)
    (hnull : dfa.null_transition 0 = 0)
    (h1 : s1 = dfa.match_len start (cpu_to_be16 u.sk_type ++ cpu_to_be16 u.sk_protocol))
    (h2a : s2a = dfa.match_len s1 (addr_bytes k (sk_addr u).1 (sk_addr u).2))
    (h2 : s2 = dfa.null_transition s2a)
    (h3 : s3 = dfa.null_transition s2)
    (h4 : s4 = dfa.match_len s3 [CMD_ADDR])
    (h5a : s5a = dfa.match_len s4 (addr_bytes k peer_addr peer_addrlen))
    (h5 : s5 = dfa.null_transition s5a) :
    (match_to_peer k dfa start u peer_addr peer_addrlen info).1 = 0 ∨
    ((match_to_peer k dfa start u peer_addr peer_addrlen info).1 = s5 ∧
      s1 ≠ 0 ∧ s2a ≠ 0 ∧ s2 ≠ 0 ∧ s3 ≠ 0 ∧ s4 ≠ 0 ∧ s5a ≠ 0 ∧ s5 ≠ 0) := by
  rw [match_to_peer_eq, match_addr_eq]
  rcases match_to_cmd_stages k dfa start u CMD_ADDR info s1 s2a s2 s3 s4 hnull h1 h2a h2 h3 h4
    with h | ⟨he, n1, n2a, n2, n3, n4⟩
  · left; simp [h]
  · rw [he, ← h5a, ← h5]
    by_cases n5 : s5 = 0
    · left; simp [n4, n5]
    · right
      have n5a : s5a ≠ 0 := by
        intro h
        rw [h, hnull] at h5
        exact n5 h5
      simp [n1, n2a, n2, n3, n4, n5, n5a]


/-- C3: a failed match is terminal. The stages of a socket descriptor match are
the type and protocol token (s1), the local address bytes (s2a) and the null
transition after them (s2), the local-label separator (s3), the command
selector (s4c for any command, s4 for CMD_ADDR), the peer address bytes (s5a)
and the null transition after them (s5), and the peer label name (s6). For
every automaton whose no-match state stays the no-match state on the null
transition, as soon as one stage yields state 0 the states returned by
match_to_local, match_to_sk, match_to_cmd and match_to_peer and the state
match_label resolves from are 0 (every stage but the one inside match_addr is
guarded, so nothing is asked of the automaton on byte input). -/
theorem failed_match_terminal (k : kern) (rule : aa_ruleset) (start : Nat) (u : sock)
    (cmd : Nat) (peer_addr : Option sockaddr_un) (peer_addrlen : Int) (peer : aa_profile)
    (info : Option String) (ad : apparmor_audit_data)
    (s1 s2a s2 s3 s4c s4 s5a s5 s6 : Nat)
    (hnull : rule.policy.dfa.null_transition 0 = 0)
    (h1 : s1 = rule.policy.dfa.match_len start
      (cpu_to_be16 u.sk_type ++ cpu_to_be16 u.sk_protocol))
    (h2a : s2a = rule.policy.dfa.match_len s1 (addr_bytes k (sk_addr u).1 (sk_addr u).2))
    (h2 : s2 = rule.policy.dfa.null_transition s2a)
    (h3 : s3 = rule.policy.dfa.null_transition s2)
    (h4c : s4c = rule.policy.dfa.match_len s3 [cmd])
    (h4 : s4 = rule.policy.dfa.match_len s3 [CMD_ADDR])
    (h5a : s5a = rule.policy.dfa.match_len s4 (addr_bytes k peer_addr peer_addrlen))
    (h5 : s5 = rule.policy.dfa.null_transition s5a)
    (h6 : s6 = rule.policy.dfa.match_str s5 peer.hname) :
    ((s1 = 0 ∨ s2a = 0 ∨ s2 = 0 ∨ s3 = 0) →
      (match_to_local k rule.policy.dfa start u.sk_type u.sk_protocol
        (sk_addr u).1 (sk_addr u).2 info).1 = 0 ∧
      (match_to_sk k rule.policy.dfa start u info).1 = 0) ∧
    ((s1 = 0 ∨ s2a = 0 ∨ s2 = 0 ∨ s3 = 0 ∨ s4c = 0) →
      (match_to_cmd k rule.policy.dfa start u cmd info).1 = 0) ∧
    ((s1 = 0 ∨ s2a = 0 ∨ s2 = 0 ∨ s3 = 0 ∨ s4 = 0 ∨ s5a = 0 ∨ s5 = 0) →
      (match_to_peer k rule.policy.dfa start u peer_addr peer_addrlen info).1 = 0) ∧
    ((s1 = 0 ∨ s2a = 0 ∨ s2 = 0 ∨ s3 = 0 ∨ s4 = 0 ∨ s5a = 0 ∨ s5 = 0 ∨ s6 = 0) →
      (match_label_state rule peer
        (match_to_peer k rule.policy.dfa start u peer_addr peer_addrlen info).1 ad).1 = 0) := by
  have L := match_to_local_stages k rule.policy.dfa start u.sk_type u.sk_protocol
    (sk_addr u).1 (sk_addr u).2 info hnull
  rw [← h1, ← h2a, ← h2, ← h3] at L
  have C := match_to_cmd_stages k rule.policy.dfa start u cmd info s1 s2a s2 s3 s4c hnull
    h1 h2a h2 h3 h4c
  have P := match_to_peer_stages k rule.policy.dfa start u peer_addr peer_addrlen info
    s1 s2a s2 s3 s4 s5a s5 hnull h1 h2a h2 h3 h4 h5a h5
  refine ⟨?_, ?_, ?_, ?_⟩
  · intro h
    rw [match_to_sk_eq]
    rcases L with h0 | ⟨_, n1, n2a, n2, n3⟩
    · exact ⟨h0, h0⟩
    · tauto
  · intro h
    rcases C with h0 | ⟨_, n1, n2a, n2, n3, n4⟩
    · exact h0
    · tauto
  · intro h
    rcases P with h0 | ⟨_, n1, n2a, n2, n3, n4, n5a, n5⟩
    · exact h0
    · rcases h with h | h | h | h | h | h | h
      · exact absurd h n1
      · exact absurd h n2a
      · exact absurd h n2
      · exact absurd h n3
      · exact absurd h n4
      · exact absurd h n5a
      · exact absurd h n5
  · intro h
    rw [match_label_state_eq]
    rcases P with h0 | ⟨he, n1, n2a, n2, n3, n4, n5a, n5⟩
    · simp [h0]
    · have z6 : s6 = 0 := by
        rcases h with h | h | h | h | h | h | h | h
        · exact absurd h n1
        · exact absurd h n2a
        · exact absurd h n2
        · exact absurd h n3
        · exact absurd h n4
        · exact absurd h n5a
        · exact absurd h n5
        · exact h
      rw [he, ← h6]
      simp [n5, z6]


/-- Witness of C3: on the sample automaton the datagram socket matches up to
the command selector, the bytes 0, 1, 0, 0 of the peer's abstract address have
no transition, the unguarded null transition keeps the state at 0, and so do
match_to_peer and match_label. -/
theorem failed_match_terminal_witness :
    ex_rules.policy.dfa.null_transition 0 = 0 ∧
    (match_to_peer ex_kern ex_rules.policy.dfa 1 ex_dgram (some ex_abstract_addr) 6 none).1
      = 0 ∧
    (match_label_state ex_rules ex_profile
      (match_to_peer ex_kern ex_rules.policy.dfa 1 ex_dgram (some ex_abstract_addr) 6 none).1
      (DEFINE_AUDIT_DATA none)).1 = 0 :=
  have T := failed_match_terminal ex_kern ex_rules 1 ex_dgram CMD_LISTEN
    (some ex_abstract_addr) 6 ex_profile none (DEFINE_AUDIT_DATA none) 3 4 5 6 8 7 0 0 0
    (by decide) (by decide) (by decide) (by decide) (by decide) (by decide) (by decide)
    (by decide) (by decide) (by decide)
  ⟨by decide, T.2.2.1 (Or.inr (Or.inr (Or.inr (Or.inr (Or.inr (Or.inl rfl)))))),
   T.2.2.2 (Or.inr (Or.inr (Or.inr (Or.inr (Or.inr (Or.inl rfl))))))⟩

theorem first_failed_append (L M : List (Nat × String)) :
    first_failed (L ++ M) = (first_failed L).orElse (fun _ => first_failed M) := by
  induction L with
  | nil => simp [first_failed]
  | cons x xs ih =>
    obtain ⟨s, d⟩ := x
    by_cases h : s = 0
    · simp [first_failed, h]
    · simp [first_failed, h, ih]

theorem stage_result_step (f : Nat → Nat) (d : String) (r : Nat × Option String)
    (L : List (Nat × String)) (i0 : Option String) (sN : Nat)
    (h : stage_result r L i0 sN) :
    stage_result (guarded_stage f d r) (L ++ [(f sN, d)]) i0 (f sN) := by
  obtain ⟨hi, hz, hn⟩ := h
  unfold stage_result guarded_stage
  rw [first_failed_append]
  cases hL : first_failed L with
  | some x =>
    have h0 : r.1 = 0 := hz (by simp [hL])
    simp [h0, hi, hL]
  | none =>
    obtain ⟨he, hne⟩ := hn hL
    rw [he]
    by_cases hf : f sN = 0
    · simp [hne, hf, first_failed]
    · simp [hne, hf, first_failed, hi, hL]

theorem match_to_local_stage_result (k : kern) (dfa : aa_dfa) (start : Nat)
    (type protocol : Int) (addr : Option sockaddr_un) (addrlen : Int)
    (info : Option String) (s1 s2 s3 : Nat)
    (h1 : s1 = dfa.match_len start (cpu_to_be16 type ++ cpu_to_be16 protocol))
    (h2 : s2 = match_addr k dfa s1 addr addrlen)
    (h3 : s3 = dfa.null_transition s2) :
    stage_result (match_to_local k dfa start type protocol addr addrlen info)
      [(s1, "failed type and protocol match"), (s2, "failed local address match"),
       (s3, "failed local label match")] info s3 := by
  rw [match_to_local_eq, ← h1, ← h2, ← h3]
  unfold stage_result
  by_cases z1 : s1 = 0
  · simp [first_failed, z1]
  · by_cases z2 : s2 = 0
    · simp [first_failed, z1, z2]
    · by_cases z3 : s3 = 0
      · simp [first_failed, z1, z2, z3]
      · simp [first_failed, z1, z2, z3]

theorem match_to_cmd_guarded (k : kern) (dfa : aa_dfa) (state : Nat) (u : sock) (cmd : Nat)
    (info : Option String) :
    match_to_cmd k dfa state u cmd info =
      guarded_stage (fun s => dfa.match_len s [cmd]) "failed cmd selection match"
        (match_to_sk k dfa state u info) := rfl

theorem match_to_peer_guarded (k : kern) (dfa : aa_dfa) (state : Nat) (u : sock)
    (peer_addr : Option sockaddr_un) (peer_addrlen : Int) (info : Option String) :
    match_to_peer k dfa state u peer_addr peer_addrlen info =
      guarded_stage (fun s => match_addr k dfa s peer_addr peer_addrlen)
        "failed peer address match" (match_to_cmd k dfa state u CMD_ADDR info) := rfl

theorem match_to_cmd_stage_result (k : kern) (dfa : aa_dfa) (start : Nat) (u : sock)
    (cmd : Nat) (info : Option String) (s1 s2 s3 s4 : Nat)
    (h1 : s1 = dfa.match_len start (cpu_to_be16 u.sk_type ++ cpu_to_be16 u.sk_protocol))
    (h2 : s2 = match_addr k dfa s1 (sk_addr u).1 (sk_addr u).2)
    (h3 : s3 = dfa.null_transition s2)
    (h4 : s4 = dfa.match_len s3 [cmd]) :
    stage_result (match_to_cmd k dfa start u cmd info)
      [(s1, "failed type and protocol match"), (s2, "failed local address match"),
       (s3, "failed local label match"), (s4, "failed cmd selection match")] info s4 := by
  rw [match_to_cmd_guarded, match_to_sk_eq, h4]
  exact stage_result_step (fun s => dfa.match_len s [cmd]) "failed cmd selection match" _ _ _ _
    (match_to_local_stage_result k dfa start u.sk_type u.sk_protocol (sk_addr u).1
      (sk_addr u).2 info s1 s2 s3 h1 h2 h3)

theorem do_perms_info (profile : aa_profile) (rule : aa_ruleset) (state request : Nat)
    (s : audit_state) :
    (do_perms profile rule state request s).2.ad.info = s.ad.info := rfl

theorem do_perms_log (profile : aa_profile) (rule : aa_ruleset) (state request : Nat)
    (s : audit_state) :
    (do_perms profile rule state request s).2.log =
      s.log ++ [audit_event.lookup state,
        audit_event.check profile.hname request (do_perms profile rule state request s).2.ad] := by
  simp [do_perms, aa_check_perms, aa_lookup_perms]

theorem stage_result_none (r : Nat × Option String) (L : List (Nat × String)) (sN : Nat)
    (h : stage_result r L none sN) :
    r.2 = first_failed L ∧ (r.1 = 0 → first_failed L ≠ none) := by
  obtain ⟨hi, _, hn⟩ := h
  constructor
  · rw [hi]
    cases first_failed L <;> rfl
  · intro h0 hL
    obtain ⟨he, hne⟩ := hn hL
    exact hne (he ▸ h0)

theorem match_label_state_guarded (rule : aa_ruleset) (peer : aa_profile) (state : Nat)
    (ad : apparmor_audit_data) :
    ((match_label_state rule peer state ad).1, (match_label_state rule peer state ad).2.info) =
      guarded_stage (fun s => rule.policy.dfa.match_str s peer.hname)
        "failed peer label match" (state, ad.info) := by
  rw [match_label_state_eq]
  unfold guarded_stage
  by_cases h : state = 0
  · simp [h]
  · by_cases h2 : rule.policy.dfa.match_str state peer.hname = 0
    · simp [h, h2]
    · simp [h, h2]

theorem do_perms_resolved (profile : aa_profile) (rules : aa_ruleset) (request : Nat)
    (s0 : audit_state) (st : Nat) (L : List (Nat × String)) (sN : Nat)
    (hr : stage_result (st, s0.ad.info) L none sN) :
    ∃ st1 ad1,
      (do_perms profile rules st request s0).2.log
        = s0.log ++ [audit_event.lookup st1, audit_event.check profile.hname request ad1] ∧
      ad1.info = first_failed L ∧ (st1 = 0 → ad1.info ≠ none) ∧
      (do_perms profile rules st request s0).2.ad = ad1 := by
  refine ⟨st, (do_perms profile rules st request s0).2.ad, ?_, ?_, ?_, rfl⟩
  · exact do_perms_log profile rules st request s0
  · rw [do_perms_info]
    exact (stage_result_none _ L sN hr).1
  · intro h0
    rw [do_perms_info]
    have h2 := (stage_result_none _ L sN hr).1
    have h3 := (stage_result_none _ L sN hr).2 h0
    simp only at h2
    rw [h2]
    exact h3

theorem profile_listen_perm_resolved (k : kern) (profile : aa_profile) (sk : sock)
    (backlog : Int) (log : List audit_event) (s1 s2 s3 s4 s5 : Nat)
    (hmed : k.RULE_MEDIATES_AF profile.rules k.AF_UNIX ≠ 0)
    (h1 : s1 = profile.rules.policy.dfa.match_len (k.RULE_MEDIATES_AF profile.rules k.AF_UNIX)
      (cpu_to_be16 sk.sk_type ++ cpu_to_be16 sk.sk_protocol))
    (h2 : s2 = match_addr k profile.rules.policy.dfa s1 (sk_addr sk).1 (sk_addr sk).2)
    (h3 : s3 = profile.rules.policy.dfa.null_transition s2)
    (h4 : s4 = profile.rules.policy.dfa.match_len s3 [CMD_LISTEN])
    (h5 : s5 = profile.rules.policy.dfa.match_len s4 (cpu_to_be16 backlog)) :
    ∃ st ad1,
      (profile_listen_perm k profile sk backlog log).2
        = log ++ [audit_event.lookup st,
                  audit_event.check profile.hname k.AA_MAY_LISTEN ad1] ∧
      ad1.info = first_failed
        [(s1, "failed type and protocol match"), (s2, "failed local address match"),
         (s3, "failed local label match"), (s4, "failed cmd selection match"),
         (s5, "failed listen backlog match")] ∧
      (st = 0 → ad1.info ≠ none) := by
  unfold profile_listen_perm
  simp only [hmed, ne_eq, not_false_eq_true, if_true]
  have hr : stage_result
      (guarded_stage (fun s => profile.rules.policy.dfa.match_len s (cpu_to_be16 backlog))
        "failed listen backlog match"
        (match_to_cmd k profile.rules.policy.dfa
          (k.RULE_MEDIATES_AF profile.rules k.AF_UNIX) sk CMD_LISTEN none))
      [(s1, "failed type and protocol match"), (s2, "failed local address match"),
       (s3, "failed local label match"), (s4, "failed cmd selection match"),
       (s5, "failed listen backlog match")] none s5 := by
    subst h5
    exact stage_result_step
      (fun s => profile.rules.policy.dfa.match_len s (cpu_to_be16 backlog))
      "failed listen backlog match" _ _ _ _
      (match_to_cmd_stage_result k profile.rules.policy.dfa
        (k.RULE_MEDIATES_AF profile.rules k.AF_UNIX) sk CMD_LISTEN none s1 s2 s3 s4
        h1 h2 h3 h4)
  obtain ⟨st, ad1, hlog, hinfo, hz, _⟩ := do_perms_resolved profile profile.rules k.AA_MAY_LISTEN
    { ad := { DEFINE_AUDIT_SK (some OP_LISTEN) sk with info := _ }, log := log } _ _ _ hr
  exact ⟨st, ad1, hlog, hinfo, hz⟩

theorem profile_opt_perm_resolved (k : kern) (profile : aa_profile) (sk : sock)
    (op : Option String) (request : Nat) (level optname : Int) (log : List audit_event) (s1 s2 s3 s4 s5 : Nat)
    (hmed : k.RULE_MEDIATES_AF profile.rules k.AF_UNIX ≠ 0)
    (h1 : s1 = profile.rules.policy.dfa.match_len (k.RULE_MEDIATES_AF profile.rules k.AF_UNIX)
      (cpu_to_be16 sk.sk_type ++ cpu_to_be16 sk.sk_protocol))
    (h2 : s2 = match_addr k profile.rules.policy.dfa s1 (sk_addr sk).1 (sk_addr sk).2)
    (h3 : s3 = profile.rules.policy.dfa.null_transition s2)
    (h4 : s4 = profile.rules.policy.dfa.match_len s3 [CMD_OPT])
    (h5 : s5 = profile.rules.policy.dfa.match_len s4 (cpu_to_be16 optname)) :
    ∃ st ad1,
      (profile_opt_perm k profile op request sk level optname log).2
        = log ++ [audit_event.lookup st,
                  audit_event.check profile.hname request ad1] ∧
      ad1.info = first_failed
        [(s1, "failed type and protocol match"), (s2, "failed local address match"),
         (s3, "failed local label match"), (s4, "failed cmd selection match"),
         (s5, "failed sockopt match")] ∧
      (st = 0 → ad1.info ≠ none) := by
  unfold profile_opt_perm
  simp only [hmed, ne_eq, not_false_eq_true, if_true]
  have hr : stage_result
      (guarded_stage (fun s => profile.rules.policy.dfa.match_len s (cpu_to_be16 optname))
        "failed sockopt match"
        (match_to_cmd k profile.rules.policy.dfa
          (k.RULE_MEDIATES_AF profile.rules k.AF_UNIX) sk CMD_OPT none))
      [(s1, "failed type and protocol match"), (s2, "failed local address match"),
       (s3, "failed local label match"), (s4, "failed cmd selection match"),
       (s5, "failed sockopt match")] none s5 := by
    subst h5
    exact stage_result_step
      (fun s => profile.rules.policy.dfa.match_len s (cpu_to_be16 optname))
      "failed sockopt match" _ _ _ _
      (match_to_cmd_stage_result k profile.rules.policy.dfa
        (k.RULE_MEDIATES_AF profile.rules k.AF_UNIX) sk CMD_OPT none s1 s2 s3 s4
        h1 h2 h3 h4)
  obtain ⟨st, ad1, hlog, hinfo, hz, _⟩ := do_perms_resolved profile profile.rules request
    { ad := { DEFINE_AUDIT_SK op sk with info := _ }, log := log } _ _ _ hr
  exact ⟨st, ad1, hlog, hinfo, hz⟩

theorem profile_peer_perm_resolved (k : kern) (profile : aa_profile) (op : Option String)
    (request : Nat) (sk peer_sk : sock) (n : String) (peer : aa_profile) (s : audit_state)
    (s1 s2 s3 s4 s5 s6 : Nat)
    (hmed : k.RULE_MEDIATES_AF profile.rules k.AF_UNIX ≠ 0)
    (hinfo : s.ad.info = none)
    (h1 : s1 = profile.rules.policy.dfa.match_len (k.RULE_MEDIATES_AF profile.rules k.AF_UNIX)
      (cpu_to_be16 sk.sk_type ++ cpu_to_be16 sk.sk_protocol))
    (h2 : s2 = match_addr k profile.rules.policy.dfa s1 (sk_addr sk).1 (sk_addr sk).2)
    (h3 : s3 = profile.rules.policy.dfa.null_transition s2)
    (h4 : s4 = profile.rules.policy.dfa.match_len s3 [CMD_ADDR])
    (h5 : s5 = match_addr k profile.rules.policy.dfa s4 (sk_addr peer_sk).1 (sk_addr peer_sk).2)
    (h6 : s6 = profile.rules.policy.dfa.match_str s5 peer.hname) :
    ∃ st ad1,
      (profile_peer_perm k profile op request sk peer_sk
          (some { hname := n, vec := [peer] }) s).2.log
        = s.log ++ [audit_event.lookup st, audit_event.check profile.hname request ad1] ∧
      ad1.info = first_failed
        [(s1, "failed type and protocol match"), (s2, "failed local address match"),
         (s3, "failed local label match"), (s4, "failed cmd selection match"),
         (s5, "failed peer address match"), (s6, "failed peer label match")] ∧
      (st = 0 → ad1.info ≠ none) ∧
      (profile_peer_perm k profile op request sk peer_sk
          (some { hname := n, vec := [peer] }) s).2.ad = ad1 := by
  have hpeer : stage_result
      (match_to_peer k profile.rules.policy.dfa (k.RULE_MEDIATES_AF profile.rules k.AF_UNIX)
        sk (sk_addr peer_sk).1 (sk_addr peer_sk).2 none)
      [(s1, "failed type and protocol match"), (s2, "failed local address match"),
       (s3, "failed local label match"), (s4, "failed cmd selection match"),
       (s5, "failed peer address match")] none s5 := by
    subst h5
    rw [match_to_peer_guarded]
    exact stage_result_step
      (fun t => match_addr k profile.rules.policy.dfa t (sk_addr peer_sk).1 (sk_addr peer_sk).2)
      "failed peer address match" _ _ _ _
      (match_to_cmd_stage_result k profile.rules.policy.dfa
        (k.RULE_MEDIATES_AF profile.rules k.AF_UNIX) sk CMD_ADDR none s1 s2 s3 s4
        h1 h2 h3 h4)
  unfold profile_peer_perm
  simp only [hmed, ne_eq, not_false_eq_true, if_true, hinfo]
  generalize hr : match_to_peer k profile.rules.policy.dfa
    (k.RULE_MEDIATES_AF profile.rules k.AF_UNIX) sk (sk_addr peer_sk).1 (sk_addr peer_sk).2
    none = r at hpeer
  have hlab : stage_result
      (guarded_stage (fun t => profile.rules.policy.dfa.match_str t peer.hname)
        "failed peer label match" r)
      [(s1, "failed type and protocol match"), (s2, "failed local address match"),
       (s3, "failed local label match"), (s4, "failed cmd selection match"),
       (s5, "failed peer address match"), (s6, "failed peer label match")] none s6 := by
    subst h6
    exact stage_result_step
      (fun t => profile.rules.policy.dfa.match_str t peer.hname) "failed peer label match"
      _ _ _ _ hpeer
  have hg := match_label_state_guarded profile.rules peer r.1 { s.ad with info := r.2 }
  have hlab2 : stage_result
      ((match_label_state profile.rules peer r.1 { s.ad with info := r.2 }).1,
       (match_label_state profile.rules peer r.1 { s.ad with info := r.2 }).2.info)
      [(s1, "failed type and protocol match"), (s2, "failed local address match"),
       (s3, "failed local label match"), (s4, "failed cmd selection match"),
       (s5, "failed peer address match"), (s6, "failed peer label match")] none s6 := by
    rw [hg]
    exact hlab
  exact do_perms_resolved profile profile.rules request
    { ad := (match_label_state profile.rules peer r.1 { s.ad with info := r.2 }).2,
      log := s.log } _ _ _ hlab2

/-- C4: when the profile mediates AF_UNIX and the match starts with no
diagnostic, the audit data the permissions are resolved with holds the
diagnostic of the first failed stage, in matching order: type and protocol,
local address, local label, command selection, then peer address and peer
label (peer), listen backlog (listen) or socket option (option). The
diagnostic of an earlier failed stage is never replaced by that of a later
one, and whenever the state the permissions are resolved from is 0 a
diagnostic is set. -/
theorem diagnostic_names_first_failed_stage (k : kern) (profile : aa_profile)
    (op : Option String) (request : Nat) (sk peer_sk : sock) (n : String) (peer : aa_profile)
    (backlog level optname : Int) (s : audit_state)
    (s1 s2 s3 s4 s5 s6 l4 l5 o4 o5 : Nat)
    (hmed : k.RULE_MEDIATES_AF profile.rules k.AF_UNIX ≠ 0)
    (hinfo : s.ad.info = none)
    (h1 : s1 = profile.rules.policy.dfa.match_len (k.RULE_MEDIATES_AF profile.rules k.AF_UNIX)
      (cpu_to_be16 sk.sk_type ++ cpu_to_be16 sk.sk_protocol))
    (h2 : s2 = match_addr k profile.rules.policy.dfa s1 (sk_addr sk).1 (sk_addr sk).2)
    (h3 : s3 = profile.rules.policy.dfa.null_transition s2)
    (h4 : s4 = profile.rules.policy.dfa.match_len s3 [CMD_ADDR])
    (h5 : s5 = match_addr k profile.rules.policy.dfa s4 (sk_addr peer_sk).1 (sk_addr peer_sk).2)
    (h6 : s6 = profile.rules.policy.dfa.match_str s5 peer.hname)
    (hl4 : l4 = profile.rules.policy.dfa.match_len s3 [CMD_LISTEN])
    (hl5 : l5 = profile.rules.policy.dfa.match_len l4 (cpu_to_be16 backlog))
    (ho4 : o4 = profile.rules.policy.dfa.match_len s3 [CMD_OPT])
    (ho5 : o5 = profile.rules.policy.dfa.match_len o4 (cpu_to_be16 optname)) :
    (∃ st ad1,
      (profile_peer_perm k profile op request sk peer_sk
          (some { hname := n, vec := [peer] }) s).2.log
        = s.log ++ [audit_event.lookup st, audit_event.check profile.hname request ad1] ∧
      ad1.info = first_failed
        [(s1, "failed type and protocol match"), (s2, "failed local address match"),
         (s3, "failed local label match"), (s4, "failed cmd selection match"),
         (s5, "failed peer address match"), (s6, "failed peer label match")] ∧
      (st = 0 → ad1.info ≠ none) ∧
      (profile_peer_perm k profile op request sk peer_sk
          (some { hname := n, vec := [peer] }) s).2.ad = ad1) ∧
    (∃ st ad1,
      (profile_listen_perm k profile sk backlog s.log).2
        = s.log ++ [audit_event.lookup st,
                    audit_event.check profile.hname k.AA_MAY_LISTEN ad1] ∧
      ad1.info = first_failed
        [(s1, "failed type and protocol match"), (s2, "failed local address match"),
         (s3, "failed local label match"), (l4, "failed cmd selection match"),
         (l5, "failed listen backlog match")] ∧
      (st = 0 → ad1.info ≠ none)) ∧
    (∃ st ad1,
      (profile_opt_perm k profile op request sk level optname s.log).2
        = s.log ++ [audit_event.lookup st, audit_event.check profile.hname request ad1] ∧
      ad1.info = first_failed
        [(s1, "failed type and protocol match"), (s2, "failed local address match"),
         (s3, "failed local label match"), (o4, "failed cmd selection match"),
         (o5, "failed sockopt match")] ∧
      (st = 0 → ad1.info ≠ none)) :=
  ⟨profile_peer_perm_resolved k profile op request sk peer_sk n peer s s1 s2 s3 s4 s5 s6
     hmed hinfo h1 h2 h3 h4 h5 h6,
   profile_listen_perm_resolved k profile sk backlog s.log s1 s2 s3 l4 l5 hmed h1 h2 h3 hl4 hl5,
   profile_opt_perm_resolved k profile sk op request level optname s.log s1 s2 s3 o4 o5
     hmed h1 h2 h3 ho4 ho5⟩

/-- Witness of C4: the sample datagram socket against a peer bound to the sample
abstract address. The peer address is the first stage that fails, and its
diagnostic is the one recorded, not the one of the peer label stage after it. -/
theorem diagnostic_names_first_failed_stage_witness :
    ex_kern.RULE_MEDIATES_AF ex_profile.rules ex_kern.AF_UNIX ≠ 0 ∧
    (DEFINE_AUDIT_SK (some "connect") ex_dgram).info = none ∧
    ∃ st ad1,
      (profile_peer_perm ex_kern ex_profile (some "connect") 6 ex_dgram ex_peer_abstract
          (some { hname := "denied", vec := [ex_profile_denied] })
          { ad := DEFINE_AUDIT_SK (some "connect") ex_dgram, log := [] }).2.log
        = [] ++ [audit_event.lookup st, audit_event.check ex_profile.hname 6 ad1] ∧
      ad1.info = some "failed peer address match" := by
  obtain ⟨st, ad1, hlog, hi, _, _⟩ :=
    (diagnostic_names_first_failed_stage ex_kern ex_profile (some "connect") 6 ex_dgram
      ex_peer_abstract "denied" ex_profile_denied 5 1 7
      { ad := DEFINE_AUDIT_SK (some "connect") ex_dgram, log := [] }
      3 5 6 7 0 0 8 10 8 10 (by decide) (by decide) (by decide) (by decide) (by decide)
      (by decide) (by decide) (by decide) (by decide) (by decide) (by decide) (by decide)).1
  exact ⟨by decide, by decide, st, ad1, hlog, by rw [hi]; decide⟩

theorem and_not32_zero (n : Nat) : n &&& not32 0 = n % 4294967296 := by
  have h : not32 0 = 2 ^ 32 - 1 := by decide
  rw [h, Nat.and_pow_two_sub_one_eq_mod]

/-- C5: for a profile whose rules mediate AF_UNIX, when the automaton has no
transition from the AF_UNIX start state on the four bytes of type and
protocol, profile_create_perm resolves AA_MAY_CREATE exactly once, from state
0, with the diagnostic "failed type and protocol match"; if moreover state 0
allows nothing, the profile is in enforce mode and AA_MAY_CREATE names a bit
of the 32-bit mask, the decision is DENY (-EACCES), recorded as such. -/
theorem create_without_transition_denied (k : kern) (profile : aa_profile) (family : Nat)
    (type protocol : Int) (log : List audit_event)
    (hmed : k.RULE_MEDIATES_AF profile.rules k.AF_UNIX ≠ 0)
    (hno : profile.rules.policy.dfa.match_len (k.RULE_MEDIATES_AF profile.rules k.AF_UNIX)
      (cpu_to_be16 type ++ cpu_to_be16 protocol) = 0) :
    ∃ ad1,
      (profile_create_perm k profile family type protocol log).2
        = log ++ [audit_event.lookup 0,
                  audit_event.check profile.hname k.AA_MAY_CREATE ad1] ∧
      ad1.info = some "failed type and protocol match" ∧
      ad1.request = k.AA_MAY_CREATE ∧
      ad1.error = (profile_create_perm k profile family type protocol log).1 ∧
      ((profile.rules.policy.perms 0).allow = 0 → profile.mode = profile_mode.enforce →
        k.AA_MAY_CREATE % 4294967296 ≠ 0 →
        (profile_create_perm k profile family type protocol log).1 = -EACCES ∧
        ad1.denied = k.AA_MAY_CREATE % 4294967296) := by
  refine ⟨(do_perms profile profile.rules 0 k.AA_MAY_CREATE
    { ad := { DEFINE_AUDIT_NET (some OP_CREATE) type protocol with
              info := some "failed type and protocol match" }, log := log }).2.ad,
    ?_, ?_, ?_, ?_, ?_⟩
  · simp [profile_create_perm, hmed, match_to_prot, hno, do_perms, aa_check_perms,
      aa_lookup_perms]
  · rfl
  · rfl
  · simp [profile_create_perm, hmed, match_to_prot, hno, do_perms, aa_check_perms,
      aa_lookup_perms]
  · intro hallow hmode hbit
    simp [profile_create_perm, hmed, match_to_prot, hno, do_perms, aa_check_perms,
      aa_lookup_perms, aa_apply_modes_to_perms, hmode, hallow, and_not32_zero, hbit]

/-- Witness of C5: creating a stream socket (type 1, protocol 0) under the sample
profile, whose automaton has no transition for that token. -/
theorem create_without_transition_denied_witness :
    ex_kern.RULE_MEDIATES_AF ex_profile.rules ex_kern.AF_UNIX ≠ 0 ∧
    ex_profile.rules.policy.dfa.match_len
      (ex_kern.RULE_MEDIATES_AF ex_profile.rules ex_kern.AF_UNIX)
      (cpu_to_be16 1 ++ cpu_to_be16 0) = 0 ∧
    (ex_profile.rules.policy.perms 0).allow = 0 ∧
    ex_profile.mode = profile_mode.enforce ∧
    ex_kern.AA_MAY_CREATE % 4294967296 ≠ 0 ∧
    (profile_create_perm ex_kern ex_profile 1 1 0 []).1 = -EACCES ∧
    ∃ ad1,
      (profile_create_perm ex_kern ex_profile 1 1 0 []).2
        = [] ++ [audit_event.lookup 0,
                 audit_event.check ex_profile.hname ex_kern.AA_MAY_CREATE ad1] ∧
      ad1.info = some "failed type and protocol match" := by
  obtain ⟨ad1, hlog, hi, _, _, hd⟩ :=
    create_without_transition_denied ex_kern ex_profile 1 1 0 [] (by decide) (by decide)
  exact ⟨by decide, by decide, by decide, by decide, by decide,
    (hd (by decide) (by decide) (by decide)).1, ad1, hlog, hi⟩

theorem sun_path_bytes_length (a : sockaddr_un) (n : Nat) :
    (sun_path_bytes a n).length = n := by
  simp [sun_path_bytes]

theorem sun_path_bytes_ne_anon (a : sockaddr_un) (n : Nat) (h : n = 0 ∨ a.sun_path 0 = 0) :
    sun_path_bytes a n ≠ [1] := by
  intro hc
  have hlen : n = 1 := by
    have := congrArg List.length hc
    simpa [sun_path_bytes] using this
  subst hlen
  rcases h with h | h
  · exact absurd h (by decide)
  · have h0 : sun_path_bytes a 1 = [a.sun_path 0] := by
      simp [sun_path_bytes, List.range_succ]
    rw [h0, h] at hc
    exact absurd hc (by decide)

/-- C6: match_addr feeds the automaton the single byte 0x01 for an absent
address and exactly the unix_addr_len(addrlen) path bytes, in order, for a
present one, each followed by one null transition. For a present address that
is zero-length or abstract (first path byte 0x00) the bytes fed differ from
the byte fed for an absent address, so on every automaton that, from the
given state, tells the token 0x01 from every other byte string, the two
addresses reach different states. -/
theorem match_addr_no_alias (k : kern) (dfa : aa_dfa) (state : Nat) (a : sockaddr_un)
    (addrlen addrlen0 : Int) :
    match_addr k dfa state none addrlen0 = dfa.null_transition (dfa.match_len state [1]) ∧
    match_addr k dfa state (some a) addrlen =
      dfa.null_transition (dfa.match_len state (sun_path_bytes a (k.unix_addr_len addrlen))) ∧
    (sun_path_bytes a (k.unix_addr_len addrlen)).length = k.unix_addr_len addrlen ∧
    (∀ i, i < k.unix_addr_len addrlen →
      (sun_path_bytes a (k.unix_addr_len addrlen))[i]? = some (a.sun_path i)) ∧
    ((k.unix_addr_len addrlen = 0 ∨ a.sun_path 0 = 0) →
      sun_path_bytes a (k.unix_addr_len addrlen) ≠ [1] ∧
      ((∀ bs, bs ≠ [1] →
          dfa.null_transition (dfa.match_len state bs) ≠
            dfa.null_transition (dfa.match_len state [1])) →
        match_addr k dfa state (some a) addrlen ≠ match_addr k dfa state none addrlen0)) := by
  refine ⟨rfl, rfl, sun_path_bytes_length a _, ?_, ?_⟩
  · intro i hi
    simp [sun_path_bytes, List.getElem?_map, List.getElem?_range hi]
  · intro h
    refine ⟨sun_path_bytes_ne_anon a _ h, ?_⟩
    intro hsep
    exact hsep _ (sun_path_bytes_ne_anon a _ h)

/-- Witness of C6: on the sample automaton, from state 5, a bound address of
length zero and the sample abstract address both end in a state other than
the one an absent address ends in. -/
theorem match_addr_no_alias_witness :
    (ex_kern.unix_addr_len 2 = 0 ∨ ex_abstract_addr.sun_path 0 = 0) ∧
    (∀ bs, bs ≠ [1] →
      ex_dfa.null_transition (ex_dfa.match_len 5 bs) ≠
        ex_dfa.null_transition (ex_dfa.match_len 5 [1])) ∧
    match_addr ex_kern ex_dfa 5 (some ex_abstract_addr) 2 ≠ match_addr ex_kern ex_dfa 5 none 0 ∧
    match_addr ex_kern ex_dfa 5 (some ex_abstract_addr) 6 ≠ match_addr ex_kern ex_dfa 5 none 0 := by
  have hsep : ∀ bs, bs ≠ [1] →
      ex_dfa.null_transition (ex_dfa.match_len 5 bs) ≠
        ex_dfa.null_transition (ex_dfa.match_len 5 [1]) := by
    intro bs h
    by_cases h2 : bs = [0, 1, 0, 0]
    · simp [ex_dfa, h2]
    · simp [ex_dfa, h, h2]
  exact ⟨Or.inl (by decide), hsep,
    ((match_addr_no_alias ex_kern ex_dfa 5 ex_abstract_addr 2 0).2.2.2.2
      (Or.inl (by decide))).2 hsep,
    ((match_addr_no_alias ex_kern ex_dfa 5 ex_abstract_addr 6 0).2.2.2.2
      (Or.inr (by decide))).2 hsep⟩

/-- C7: for an unconfined acting label every unix-socket entry point returns 0
and leaves the log as it was: no permission is resolved from the automaton
and the path mediator is not called, whatever the environment, the socket,
its address, the peer and the request. -/
theorem unconfined_label_allowed (k : kern) (label : aa_label) (h : unconfined label = true)
    (cred : Option Nat) (op : Option String) (request family : Nat)
    (type protocol backlog level optname addrlen : Int) (sk peer_sk : sock)
    (sock newsock : socket) (address : sockaddr_un) (peer_label : Option aa_label)
    (log : List audit_event) :
    aa_unix_create_perm k label family type protocol log = (0, log) ∧
    aa_unix_label_sk_perm k cred label op request sk log = (0, log) ∧
    aa_unix_sock_perm k label cred op request sock log = (0, log) ∧
    aa_unix_bind_perm k label cred sock address addrlen log = (0, log) ∧
    aa_unix_listen_perm k label sock backlog log = (0, log) ∧
    aa_unix_accept_perm k label sock newsock log = (0, log) ∧
    aa_unix_opt_perm k label op request sock level optname log = (0, log) ∧
    (aa_unix_peer_perm k cred label op request sk peer_sk peer_label log).1.error = 0 ∧
    (aa_unix_peer_perm k cred label op request sk peer_sk peer_label log).2 = log := by
  refine ⟨?_, ?_, ?_, ?_, ?_, ?_, ?_, ?_, ?_⟩
  · simp [aa_unix_create_perm, h]
  · simp [aa_unix_label_sk_perm, h]
  · simp [aa_unix_sock_perm, unix_label_sock_perm, h]
  · simp [aa_unix_bind_perm, h]
  · simp [aa_unix_listen_perm, h]
  · simp [aa_unix_accept_perm, h]
  · simp [aa_unix_opt_perm, h]
  · unfold aa_unix_peer_perm
    split_ifs <;> simp [unix_fs_perm, h]
  · unfold aa_unix_peer_perm
    split_ifs <;> simp [unix_fs_perm, h]

/-- Witness of C7: the sample unconfined label creating a socket, and checked
against a peer that is bound in the filesystem. -/
theorem unconfined_label_allowed_witness :
    unconfined ex_label_unconfined = true ∧
    ex_kern.UNIX_FS ex_fs_sock = true ∧
    aa_unix_create_perm ex_kern ex_label_unconfined 1 1 0 [] = (0, []) ∧
    (aa_unix_peer_perm ex_kern none ex_label_unconfined (some "connect") 6 ex_sock ex_fs_sock
      none []).1.error = 0 :=
  have T := unconfined_label_allowed ex_kern ex_label_unconfined (by decide) none
    (some "connect") 6 1 1 0 0 0 0 0 ex_sock ex_fs_sock
    { sk := ex_sock, connected := false, peer := none, f_cred := none }
    { sk := ex_sock, connected := false, peer := none, f_cred := none } ex_fs_addr none []
  ⟨by decide, by decide, T.1, T.2.2.2.2.2.2.2.1⟩

theorem fn_for_each_XXX_zero_iff {σ : Type} (FN : aa_profile → σ → Int × σ)
    (ps : List aa_profile) (E : Int) (s : σ) :
    (fn_for_each_XXX FN ps E s).1 = 0 ↔ E = 0 ∧ ∀ e ∈ run_results FN ps s, e = 0 := by
  induction ps generalizing E s with
  | nil => simp [fn_for_each_XXX, run_results]
  | cons p ps ih =>
    simp only [fn_for_each_XXX, run_results, ih, List.mem_cons, forall_eq_or_imp]
    by_cases h : (FN p s).1 = 0
    · simp [last_error, h]
    · simp [last_error, h]

theorem fn_for_each_XXX_mem {σ : Type} (FN : aa_profile → σ → Int × σ)
    (ps : List aa_profile) (E : Int) (s : σ) :
    (fn_for_each_XXX FN ps E s).1 = E ∨
      ((fn_for_each_XXX FN ps E s).1 ≠ 0 ∧
        (fn_for_each_XXX FN ps E s).1 ∈ run_results FN ps s) := by
  induction ps generalizing E s with
  | nil => left; rfl
  | cons p ps ih =>
    simp only [fn_for_each_XXX, run_results, List.mem_cons]
    rcases ih (last_error E (FN p s).1) (FN p s).2 with h | ⟨h1, h2⟩
    · rw [h]
      by_cases h0 : (FN p s).1 = 0
      · left; simp [last_error, h0]
      · right; simp [last_error, h0]
    · right
      exact ⟨h1, Or.inr h2⟩

theorem run_results_length {σ : Type} (FN : aa_profile → σ → Int × σ)
    (ps : List aa_profile) (s : σ) : (run_results FN ps s).length = ps.length := by
  induction ps generalizing s with
  | nil => rfl
  | cons p ps ih => simp [run_results, ih]

theorem confined_profiles_of_unconfined (label : aa_label) (h : unconfined label = true) :
    confined_profiles label = [] := by
  unfold unconfined at h
  unfold confined_profiles
  rw [List.filter_eq_nil_iff]
  intro p hp
  simp [List.all_eq_true.mp h p hp]

theorem aa_unix_create_perm_eq (k : kern) (label : aa_label) (family : Nat)
    (type protocol : Int) (log : List audit_event) :
    aa_unix_create_perm k label family type protocol log =
      fn_for_each_XXX (fun profile l => profile_create_perm k profile family type protocol l)
        (confined_profiles label) 0 log := by
  by_cases h : unconfined label = true
  · simp [aa_unix_create_perm, h, confined_profiles_of_unconfined label h, fn_for_each_XXX]
  · simp [aa_unix_create_perm, h, fn_for_each_confined, confined_profiles]

theorem aa_unix_label_sk_perm_eq (k : kern) (cred : Option Nat) (label : aa_label)
    (op : Option String) (request : Nat) (sk : sock) (log : List audit_event) :
    (aa_unix_label_sk_perm k cred label op request sk log).1 =
      (fn_for_each_XXX (fun profile s => profile_sk_perm k profile s request sk)
        (confined_profiles label) 0
        { ad := { DEFINE_AUDIT_SK op sk with subj_cred := cred }, log := log }).1 := by
  by_cases h : unconfined label = true
  · simp [aa_unix_label_sk_perm, h, confined_profiles_of_unconfined label h, fn_for_each_XXX]
  · simp [aa_unix_label_sk_perm, h, fn_for_each_confined, confined_profiles]

theorem decided_append (a b : List audit_event) :
    decided (a ++ b) = decided a ++ decided b := by
  induction a with
  | nil => rfl
  | cons e a ih => cases e <;> simp [decided, ih]

theorem do_perms_decided (profile : aa_profile) (rule : aa_ruleset) (state request : Nat)
    (s : audit_state) :
    decided (do_perms profile rule state request s).2.log =
      decided s.log ++ [(profile.hname, request)] := by
  rw [do_perms_log, decided_append]
  rfl

theorem aa_profile_af_sk_perm_decided (k : kern) (profile : aa_profile) (s : audit_state)
    (request : Nat) (sk : sock) :
    decided (aa_profile_af_sk_perm k profile s request sk).2.log =
      decided s.log ++ [(profile.hname, request)] := by
  unfold aa_profile_af_sk_perm
  rw [decided_append]
  rfl

theorem aa_profile_af_perm_decided (k : kern) (profile : aa_profile) (s : audit_state)
    (request family : Nat) (type : Int) :
    decided (aa_profile_af_perm k profile s request family type).2.log =
      decided s.log ++ [(profile.hname, request)] := by
  unfold aa_profile_af_perm
  rw [decided_append]
  rfl

theorem fn_for_each_XXX_state {σ : Type} (FN : aa_profile → σ → Int × σ)
    (ps : List aa_profile) (E : Int) (s : σ) :
    (fn_for_each_XXX FN ps E s).2 = run_state FN ps s := by
  induction ps generalizing E s with
  | nil => rfl
  | cons p ps ih => simp only [fn_for_each_XXX, run_state, ih]

theorem run_state_collect {σ α : Type} (m : σ → List α) (FN : aa_profile → σ → Int × σ)
    (g : aa_profile → Option α) (h : ∀ p s, m (FN p s).2 = m s ++ (g p).toList)
    (ps : List aa_profile) (s : σ) :
    m (run_state FN ps s) = m s ++ ps.filterMap g := by
  induction ps generalizing s with
  | nil => simp [run_state]
  | cons p ps ih =>
    simp only [run_state]
    rw [ih, h]
    cases hg : g p <;> simp [List.filterMap_cons, hg]

theorem run_state_decided {σ : Type} (m : σ → List (String × Nat))
    (FN : aa_profile → σ → Int × σ) (f : aa_profile → String × Nat)
    (h : ∀ p s, m (FN p s).2 = m s ++ [f p]) (ps : List aa_profile) (s : σ) :
    m (run_state FN ps s) = m s ++ ps.map f := by
  induction ps generalizing s with
  | nil => simp [run_state]
  | cons p ps ih =>
    simp only [run_state, List.map_cons]
    rw [ih, h]
    simp

theorem profile_create_perm_decided (k : kern) (profile : aa_profile) (family : Nat)
    (type protocol : Int) (log : List audit_event) :
    decided (profile_create_perm k profile family type protocol log).2 =
      decided log ++ [(profile.hname, k.AA_MAY_CREATE)] := by
  unfold profile_create_perm
  dsimp only
  split_ifs
  · exact do_perms_decided _ _ _ _ _
  · exact aa_profile_af_perm_decided k profile _ _ family type

theorem profile_sk_perm_decided (k : kern) (profile : aa_profile) (s : audit_state)
    (request : Nat) (sk : sock) :
    decided (profile_sk_perm k profile s request sk).2.log =
      decided s.log ++ [(profile.hname, request)] := by
  unfold profile_sk_perm
  dsimp only
  split_ifs
  · exact do_perms_decided _ _ _ _ _
  · exact aa_profile_af_sk_perm_decided k profile _ _ sk

theorem aa_unix_create_perm_state (k : kern) (label : aa_label) (family : Nat)
    (type protocol : Int) (log : List audit_event) :
    (aa_unix_create_perm k label family type protocol log).2 =
      run_state (fun profile l => profile_create_perm k profile family type protocol l)
        (confined_profiles label) log := by
  rw [aa_unix_create_perm_eq, fn_for_each_XXX_state]

theorem aa_unix_label_sk_perm_state (k : kern) (cred : Option Nat) (label : aa_label)
    (op : Option String) (request : Nat) (sk : sock) (log : List audit_event) :
    (aa_unix_label_sk_perm k cred label op request sk log).2 =
      (run_state (fun profile s => profile_sk_perm k profile s request sk)
        (confined_profiles label)
        { ad := { DEFINE_AUDIT_SK op sk with subj_cred := cred }, log := log }).log := by
  rw [← fn_for_each_XXX_state _ _ 0]
  by_cases h : unconfined label = true
  · simp [aa_unix_label_sk_perm, h, confined_profiles_of_unconfined label h, fn_for_each_XXX]
  · simp [aa_unix_label_sk_perm, h, fn_for_each_confined, confined_profiles]

/-- C8: a single-sided entry point runs the per-profile check once for every
confined profile of the label, in order, each run starting from the state the
previous one left: the log it returns is the log these runs leave, and the
audit decisions it adds to the log are one for each confined profile, in
order, for the request of the entry point. It returns 0 if and only if every
one of these runs returned 0, and a non-zero value it returns is the error of
one of the runs, that is of a profile that denied. -/
theorem single_sided_all_profiles (k : kern) (label : aa_label) (cred : Option Nat)
    (op : Option String) (request family : Nat) (type protocol : Int) (sk : sock)
    (log : List audit_event) :
    ((aa_unix_create_perm k label family type protocol log).2 =
        run_state (fun profile l => profile_create_perm k profile family type protocol l)
          (confined_profiles label) log ∧
     decided (aa_unix_create_perm k label family type protocol log).2 =
        decided log ++ (confined_profiles label).map (fun p => (p.hname, k.AA_MAY_CREATE)) ∧
     (run_results (fun profile l => profile_create_perm k profile family type protocol l)
        (confined_profiles label) log).length = (confined_profiles label).length ∧
     ((aa_unix_create_perm k label family type protocol log).1 = 0 ↔
        ∀ e ∈ run_results (fun profile l => profile_create_perm k profile family type protocol l)
          (confined_profiles label) log, e = 0) ∧
     ((aa_unix_create_perm k label family type protocol log).1 ≠ 0 →
        (aa_unix_create_perm k label family type protocol log).1 ∈
          run_results (fun profile l => profile_create_perm k profile family type protocol l)
            (confined_profiles label) log)) ∧
    ((aa_unix_label_sk_perm k cred label op request sk log).2 =
        (run_state (fun profile s => profile_sk_perm k profile s request sk)
          (confined_profiles label)
          { ad := { DEFINE_AUDIT_SK op sk with subj_cred := cred }, log := log }).log ∧
     decided (aa_unix_label_sk_perm k cred label op request sk log).2 =
        decided log ++ (confined_profiles label).map (fun p => (p.hname, request)) ∧
     (run_results (fun profile s => profile_sk_perm k profile s request sk)
        (confined_profiles label)
        { ad := { DEFINE_AUDIT_SK op sk with subj_cred := cred }, log := log }).length
        = (confined_profiles label).length ∧
     ((aa_unix_label_sk_perm k cred label op request sk log).1 = 0 ↔
        ∀ e ∈ run_results (fun profile s => profile_sk_perm k profile s request sk)
          (confined_profiles label)
          { ad := { DEFINE_AUDIT_SK op sk with subj_cred := cred }, log := log }, e = 0) ∧
     ((aa_unix_label_sk_perm k cred label op request sk log).1 ≠ 0 →
        (aa_unix_label_sk_perm k cred label op request sk log).1 ∈
          run_results (fun profile s => profile_sk_perm k profile s request sk)
            (confined_profiles label)
            { ad := { DEFINE_AUDIT_SK op sk with subj_cred := cred }, log := log })) := by
  refine ⟨⟨aa_unix_create_perm_state k label family type protocol log, ?_,
      run_results_length _ _ _, ?_, ?_⟩,
    ⟨aa_unix_label_sk_perm_state k cred label op request sk log, ?_,
      run_results_length _ _ _, ?_, ?_⟩⟩
  · rw [aa_unix_create_perm_state]
    exact run_state_decided decided _ (fun p => (p.hname, k.AA_MAY_CREATE))
      (fun p l => profile_create_perm_decided k p family type protocol l) _ _
  · rw [aa_unix_create_perm_eq, fn_for_each_XXX_zero_iff]
    simp
  · rw [aa_unix_create_perm_eq]
    intro hne
    rcases fn_for_each_XXX_mem
      (fun profile l => profile_create_perm k profile family type protocol l)
      (confined_profiles label) 0 log with h0 | ⟨_, h2⟩
    · exact absurd h0 hne
    · exact h2
  · rw [aa_unix_label_sk_perm_state]
    exact run_state_decided (fun s => decided s.log) _ (fun p => (p.hname, request))
      (fun p s => profile_sk_perm_decided k p s request sk) _ _
  · rw [aa_unix_label_sk_perm_eq, fn_for_each_XXX_zero_iff]
    simp
  · rw [aa_unix_label_sk_perm_eq]
    intro hne
    rcases fn_for_each_XXX_mem
      (fun profile s => profile_sk_perm k profile s request sk)
      (confined_profiles label) 0
      { ad := { DEFINE_AUDIT_SK op sk with subj_cred := cred }, log := log }
      with h0 | ⟨_, h2⟩
    · exact absurd h0 hne
    · exact h2

/-- Witness of C8: the sample label of two confined profiles. Creating a stream
socket, both profiles deny, each takes its decision, and the value returned
is the error of a run. Asking for a permission on the sample datagram socket,
both profiles take their decision and allow, and the value returned is 0. -/
theorem single_sided_all_profiles_witness :
    decided (aa_unix_create_perm ex_kern ex_label2 1 1 0 []).2 =
      [("P1", 16), ("denied", 16)] ∧
    (aa_unix_create_perm ex_kern ex_label2 1 1 0 []).1 ≠ 0 ∧
    (aa_unix_create_perm ex_kern ex_label2 1 1 0 []).1 ∈
      run_results (fun profile l => profile_create_perm ex_kern profile 1 1 0 l)
        (confined_profiles ex_label2) [] ∧
    decided (aa_unix_label_sk_perm ex_kern none ex_label2 (some "getattr") 4 ex_dgram []).2 =
      [("P1", 4), ("denied", 4)] ∧
    (aa_unix_label_sk_perm ex_kern none ex_label2 (some "getattr") 4 ex_dgram []).1 = 0 :=
  have T := single_sided_all_profiles ex_kern ex_label2 none (some "getattr") 4 1 1 0
    ex_dgram []
  ⟨T.1.2.1, by decide, T.1.2.2.2.2 (by decide), T.2.2.1,
   T.2.2.2.2.1.mpr (by decide)⟩

theorem last_error_eq_zero_iff (E subE : Int) : last_error E subE = 0 ↔ E = 0 ∧ subE = 0 := by
  unfold last_error
  by_cases h : subE = 0
  · simp [h]
  · simp [h]

theorem xcheck_error_eq_zero_iff (a b : decision) :
    (xcheck a b).error = 0 ↔ a.error = 0 ∧ b.error = 0 := by
  unfold xcheck
  by_cases h : a.error = 0
  · simp [h]
  · simp [h]

theorem aa_unix_file_perm_peer (k : kern) (cred : Option Nat) (label : aa_label)
    (op : Option String) (request : Nat) (sock : socket) (peer_sk : AppArmor.sock)
    (log : List audit_event)
    (hpeer : sock.peer = some peer_sk) (hfs : k.UNIX_FS sock.sk = false)
    (hpfs : k.UNIX_FS peer_sk = false)
    (sk_req : Nat) (r0 loc : Int × List audit_event)
    (hreq : sk_req = request &&& not32 k.NET_PEER_MASK)
    (hr0 : r0 = if (!sock.connected && decide (sk_req ≠ 0)) = true then
        unix_label_sock_perm k cred label op sk_req sock log else (0, log))
    (hloc : loc = if sk_req ≠ 0 then aa_unix_label_sk_perm k cred label op sk_req sock.sk r0.2
        else r0) :
    aa_unix_file_perm k cred label op request sock log =
      (last_error loc.1 (aa_unix_file_perm_xcheck k cred label op peer_sk sock loc.2).1.error,
       (aa_unix_file_perm_xcheck k cred label op peer_sk sock loc.2).2) := by
  subst hreq hr0 hloc
  unfold aa_unix_file_perm
  simp only [hpeer, hfs, hpfs]
  rfl

/-- C1: in aa_unix_file_perm, for a socket with a peer where neither the socket
nor the peer is filesystem-backed, the returned error is 0 if and only if the
local socket check (run only when request & ~NET_PEER_MASK is non-zero, and
contributing 0 otherwise), the check of the acting label against the peer and
the check of the peer's label against the acting label all return 0; and when
the local socket check fails while both peer checks succeed, the error
returned is the one of the local socket check. -/
theorem file_perm_needs_all_checks (k : kern) (cred : Option Nat) (label : aa_label)
    (op : Option String) (request : Nat) (sock : socket) (peer_sk : AppArmor.sock)
    (log : List audit_event)
    (sk_req : Nat) (r0 loc : Int × List audit_event) (a b : decision × List audit_event)
    (hpeer : sock.peer = some peer_sk) (hfs : k.UNIX_FS sock.sk = false)
    (hpfs : k.UNIX_FS peer_sk = false)
    (hreq : sk_req = request &&& not32 k.NET_PEER_MASK)
    (hr0 : r0 = if (!sock.connected && decide (sk_req ≠ 0)) = true then
        unix_label_sock_perm k cred label op sk_req sock log else (0, log))
    (hloc : loc = if sk_req ≠ 0 then aa_unix_label_sk_perm k cred label op sk_req sock.sk r0.2
        else r0)
    (ha : a = aa_unix_peer_perm k cred label op (k.MAY_READ ||| k.MAY_WRITE) sock.sk peer_sk
        none loc.2)
    (hb : b = aa_unix_peer_perm k sock.f_cred peer_sk.ctx.label op
        (k.MAY_READ ||| k.MAY_WRITE) peer_sk sock.sk (some label) a.2) :
    ((aa_unix_file_perm k cred label op request sock log).1 = 0 ↔
      loc.1 = 0 ∧ a.1.error = 0 ∧ b.1.error = 0) ∧
    (loc.1 ≠ 0 → a.1.error = 0 → b.1.error = 0 →
      (aa_unix_file_perm k cred label op request sock log).1 = loc.1) ∧
    (sk_req = 0 → loc = (0, log)) := by
  have hx : (aa_unix_file_perm_xcheck k cred label op peer_sk sock loc.2).1 = xcheck a.1 b.1 := by
    subst ha hb
    rfl
  rw [aa_unix_file_perm_peer k cred label op request sock peer_sk log hpeer hfs hpfs
    sk_req r0 loc hreq hr0 hloc, hx]
  refine ⟨?_, ?_, ?_⟩
  · rw [last_error_eq_zero_iff, xcheck_error_eq_zero_iff]
  · intro _ ha0 hb0
    have hz : (xcheck a.1 b.1).error = 0 := (xcheck_error_eq_zero_iff a.1 b.1).mpr ⟨ha0, hb0⟩
    simp [last_error, hz]
  · intro hz
    rw [hloc, hr0]
    simp [hz]

/-- Witness of C1: the read-write label requesting bit 1 besides the peer bits
on a connected datagram socket. Both peer checks succeed, the local socket
check denies bit 1, and its error is the one returned. -/
theorem file_perm_needs_all_checks_witness :
    ex_socket_rw.peer = some { ex_dgram_rw with id := 6 } ∧
    ex_kern.UNIX_FS ex_socket_rw.sk = false ∧
    (aa_unix_label_sk_perm ex_kern none ex_label_rw (some "file_perm") 1 ex_socket_rw.sk
      []).1 = -EACCES ∧
    (aa_unix_file_perm ex_kern none ex_label_rw (some "file_perm") 1 ex_socket_rw []).1 =
      (aa_unix_label_sk_perm ex_kern none ex_label_rw (some "file_perm") 1 ex_socket_rw.sk
        []).1 :=
  have T := file_perm_needs_all_checks ex_kern none ex_label_rw (some "file_perm") 1
    ex_socket_rw { ex_dgram_rw with id := 6 } [] 1 (0, [])
    (aa_unix_label_sk_perm ex_kern none ex_label_rw (some "file_perm") 1 ex_socket_rw.sk [])
    _ _ rfl (by decide) (by decide) (by decide) (by decide) (by decide) rfl rfl
  ⟨rfl, by decide, by decide, T.2.1 (by decide) (by decide) (by decide)⟩

/-- C2: when both sides of a cross-check deny, the combined decision is side
A's, error and diagnostic. In aa_unix_file_perm side A is the check of the
acting label against the peer and side B the check of the peer's label
against the acting label; in aa_may_signal side A is the sender's check and
side B the target's, and the value returned is then the sender's error. -/
theorem xcheck_keeps_first_denial (k : kern) (cred : Option Nat) (label : aa_label)
    (op : Option String) (sock : socket) (peer_sk : AppArmor.sock) (log : List audit_event)
    (subj_cred target_cred : Option Nat) (sender target : aa_label) (sig : Int)
    (a b : decision × List audit_event) (sa sb : Int × audit_state)
    (ha : a = aa_unix_peer_perm k cred label op (k.MAY_READ ||| k.MAY_WRITE) sock.sk peer_sk
        none log)
    (hb : b = aa_unix_peer_perm k sock.f_cred peer_sk.ctx.label op
        (k.MAY_READ ||| k.MAY_WRITE) peer_sk sock.sk (some label) a.2)
    (hsa : sa = fn_for_each sender
        (fun profile s => profile_signal_perm k subj_cred profile target k.MAY_WRITE s)
        { ad := { DEFINE_AUDIT_DATA (some OP_SIGNAL) with
                    signal := map_signal_num k.sig sig, unmappedsig := sig },
          log := log })
    (hsb : sb = fn_for_each target
        (fun profile s => profile_signal_perm k target_cred profile sender k.MAY_READ s) sa.2) :
    (a.1.error ≠ 0 → b.1.error ≠ 0 →
      (aa_unix_file_perm_xcheck k cred label op peer_sk sock log).1 = a.1) ∧
    (sa.1 ≠ 0 → sb.1 ≠ 0 →
      (aa_may_signal_xcheck k subj_cred sender target_cred target sig log).1 =
        { error := sa.1, info := sa.2.ad.info } ∧
      (aa_may_signal k subj_cred sender target_cred target sig log).1 = sa.1) := by
  subst ha hb hsa hsb
  constructor
  · intro ha0 _
    simp only [aa_unix_file_perm_xcheck, xcheck]
    rw [if_pos ha0]
  · intro ha0 _
    simp only [aa_may_signal, aa_may_signal_xcheck, xcheck_labels, xcheck]
    rw [if_pos ha0]
    exact ⟨rfl, rfl⟩

/-- Witness of C2: the sample stream socket against the peer bound to the
abstract address. Side A fails on type and protocol, side B on its local
address; the combined decision carries side A's diagnostic. Under the sample
environment that allows no signal, both directions of a signal deny. -/
theorem xcheck_keeps_first_denial_witness :
    (aa_unix_peer_perm ex_kern none ex_label (some "file_perm") 6 ex_sock ex_peer_abstract
      none []).1 = { error := -EACCES, info := some "failed type and protocol match" } ∧
    (aa_unix_peer_perm ex_kern none ex_label2 (some "file_perm") 6 ex_peer_abstract ex_sock
      (some ex_label) (aa_unix_peer_perm ex_kern none ex_label (some "file_perm") 6 ex_sock
        ex_peer_abstract none []).2).1
      = { error := -EACCES, info := some "failed local address match" } ∧
    (aa_unix_file_perm_xcheck ex_kern none ex_label (some "file_perm") ex_peer_abstract
      ex_socket []).1 = { error := -EACCES, info := some "failed type and protocol match" } ∧
    (aa_may_signal ex_kern_deny none ex_label none ex_label2 9 []).1 = -EACCES := by
  have T := xcheck_keeps_first_denial ex_kern none ex_label (some "file_perm") ex_socket
    ex_peer_abstract [] none none ex_label ex_label2 9 _ _ _ _ rfl rfl rfl rfl
  have S := xcheck_keeps_first_denial ex_kern_deny none ex_label (some "file_perm") ex_socket
    ex_peer_abstract [] none none ex_label ex_label2 9 _ _ _ _ rfl rfl rfl rfl
  refine ⟨by decide, by decide, ?_, ?_⟩
  · rw [T.1 (by decide) (by decide)]
    decide
  · rw [(S.2 (by decide) (by decide)).2]
    decide

/-- C12: profile_peer_perm called without a peer label gives the same result and
leaves the same audit data and log as when it is called with the label
recorded on the peer socket, for every environment, profile, request, pair of
sockets and audit state. -/
theorem profile_peer_perm_default_label (k : kern) (profile : aa_profile)
    (op : Option String) (request : Nat) (sk peer_sk : sock) (s : audit_state) :
    profile_peer_perm k profile op request sk peer_sk none s =
      profile_peer_perm k profile op request sk peer_sk (some peer_sk.ctx.label) s := rfl

theorem do_perms_log_state (profile : aa_profile) (rule : aa_ruleset) (st st1 request : Nat)
    (s : audit_state) (h : st = st1) :
    ∃ ad1, (do_perms profile rule st request s).2.log =
        s.log ++ [audit_event.lookup st1, audit_event.check profile.hname request ad1] ∧
      ad1.request = request ∧ ad1.op = s.ad.op ∧ ad1.net_type = s.ad.net_type ∧
      ad1.net_protocol = s.ad.net_protocol := by
  subst h
  exact ⟨_, do_perms_log profile rule st request s, rfl, rfl, rfl, rfl⟩

theorem lookups_append (a b : List audit_event) : lookups (a ++ b) = lookups a ++ lookups b := by
  induction a with
  | nil => rfl
  | cons e a ih => cases e <;> simp [lookups, ih]

theorem do_perms_lookups (profile : aa_profile) (rule : aa_ruleset) (state request : Nat)
    (s : audit_state) :
    lookups (do_perms profile rule state request s).2.log = lookups s.log ++ [state] := by
  rw [do_perms_log, lookups_append]
  rfl

theorem aa_profile_af_sk_perm_lookups (k : kern) (profile : aa_profile) (s : audit_state)
    (request : Nat) (sk : sock) :
    lookups (aa_profile_af_sk_perm k profile s request sk).2.log = lookups s.log := by
  unfold aa_profile_af_sk_perm
  rw [lookups_append]
  simp [lookups]

theorem profile_accept_perm_decided (k : kern) (profile : aa_profile) (sk newsk : sock)
    (log : List audit_event) :
    decided (profile_accept_perm k profile sk newsk log).2 =
      decided log ++ [(profile.hname, k.AA_MAY_ACCEPT)] := by
  unfold profile_accept_perm
  dsimp only
  split_ifs
  · exact do_perms_decided _ _ _ _ _
  · exact aa_profile_af_sk_perm_decided k profile _ _ sk

theorem profile_accept_perm_lookups (k : kern) (profile : aa_profile) (sk newsk : sock)
    (log : List audit_event) :
    lookups (profile_accept_perm k profile sk newsk log).2 =
      lookups log ++
        (if k.RULE_MEDIATES_AF profile.rules k.AF_UNIX ≠ 0 then
          some (match_to_sk k profile.rules.policy.dfa
            (k.RULE_MEDIATES_AF profile.rules k.AF_UNIX) sk none).1
         else none).toList := by
  unfold profile_accept_perm
  dsimp only
  by_cases h : k.RULE_MEDIATES_AF profile.rules k.AF_UNIX ≠ 0
  · rw [if_pos h, if_pos h]
    exact do_perms_lookups _ _ _ _ _
  · rw [if_neg h, if_neg h]
    simpa using aa_profile_af_sk_perm_lookups k profile _ _ sk

theorem aa_unix_accept_perm_eq (k : kern) (label : aa_label) (sock newsock : socket)
    (log : List audit_event) (hfs : k.UNIX_FS sock.sk = false) :
    aa_unix_accept_perm k label sock newsock log =
      fn_for_each_XXX (fun profile l => profile_accept_perm k profile sock.sk newsock.sk l)
        (confined_profiles label) 0 log := by
  by_cases h : unconfined label = true
  · simp [aa_unix_accept_perm, h, confined_profiles_of_unconfined label h, fn_for_each_XXX]
  · simp [aa_unix_accept_perm, h, hfs, fn_for_each_confined, confined_profiles]

/-- C14: the decision of aa_unix_accept_perm does not depend on the new socket:
for every two new sockets the returned error and the log, audit data
included, are identical. On a listening socket that is not filesystem-backed
the entry point runs profile_accept_perm for every confined profile of the
label, in order: the audit decisions it adds are one for each confined
profile, each for the request AA_MAY_ACCEPT, the states it looks up are, for
each confined profile mediating AF_UNIX, the state match_to_sk reaches on the
listening socket, and it returns 0 if and only if every run returned 0. For a
profile mediating AF_UNIX the permissions are resolved once, for the request
AA_MAY_ACCEPT, from that state, with an audit record of the listening socket;
for a profile that does not, the generic socket check is asked for
AA_MAY_ACCEPT on the listening socket. On a filesystem-backed listening
socket the entry point returns 0 and logs nothing. -/
theorem accept_ignores_new_socket (k : kern) (label : aa_label) (sock newsock1 newsock2 : socket)
    (log : List audit_event) :
    aa_unix_accept_perm k label sock newsock1 log =
      aa_unix_accept_perm k label sock newsock2 log ∧
    (∀ (profile : aa_profile) (l : List audit_event),
      k.RULE_MEDIATES_AF profile.rules k.AF_UNIX ≠ 0 →
      ∃ ad1, (profile_accept_perm k profile sock.sk newsock1.sk l).2 =
          l ++ [audit_event.lookup
                  (match_to_sk k profile.rules.policy.dfa
                    (k.RULE_MEDIATES_AF profile.rules k.AF_UNIX) sock.sk none).1,
                audit_event.check profile.hname k.AA_MAY_ACCEPT ad1] ∧
        ad1.request = k.AA_MAY_ACCEPT ∧ ad1.op = some OP_ACCEPT ∧
        ad1.net_type = sock.sk.sk_type ∧ ad1.net_protocol = sock.sk.sk_protocol) ∧
    (∀ (profile : aa_profile) (l : List audit_event),
      k.RULE_MEDIATES_AF profile.rules k.AF_UNIX = 0 →
      profile_accept_perm k profile sock.sk newsock1.sk l =
        ((aa_profile_af_sk_perm k profile
            { ad := DEFINE_AUDIT_SK (some OP_ACCEPT) sock.sk, log := l }
            k.AA_MAY_ACCEPT sock.sk).1,
         (aa_profile_af_sk_perm k profile
            { ad := DEFINE_AUDIT_SK (some OP_ACCEPT) sock.sk, log := l }
            k.AA_MAY_ACCEPT sock.sk).2.log)) ∧
    (k.UNIX_FS sock.sk = false →
      (aa_unix_accept_perm k label sock newsock1 log).2 =
        run_state (fun profile l => profile_accept_perm k profile sock.sk newsock1.sk l)
          (confined_profiles label) log ∧
      decided (aa_unix_accept_perm k label sock newsock1 log).2 =
        decided log ++ (confined_profiles label).map (fun p => (p.hname, k.AA_MAY_ACCEPT)) ∧
      lookups (aa_unix_accept_perm k label sock newsock1 log).2 =
        lookups log ++ (confined_profiles label).filterMap (fun p =>
          if k.RULE_MEDIATES_AF p.rules k.AF_UNIX ≠ 0 then
            some (match_to_sk k p.rules.policy.dfa
              (k.RULE_MEDIATES_AF p.rules k.AF_UNIX) sock.sk none).1
          else none) ∧
      ((aa_unix_accept_perm k label sock newsock1 log).1 = 0 ↔
        ∀ e ∈ run_results
          (fun profile l => profile_accept_perm k profile sock.sk newsock1.sk l)
          (confined_profiles label) log, e = 0)) ∧
    (k.UNIX_FS sock.sk = true → aa_unix_accept_perm k label sock newsock1 log = (0, log)) := by
  refine ⟨rfl, ?_, ?_, ?_, ?_⟩
  · intro profile l hmed
    unfold profile_accept_perm
    simp only [hmed, ne_eq, not_false_eq_true, if_true]
    exact do_perms_log_state profile profile.rules _ _ k.AA_MAY_ACCEPT
      { ad := { DEFINE_AUDIT_SK (some OP_ACCEPT) sock.sk with info := _ }, log := l } rfl
  · intro profile l hmed
    unfold profile_accept_perm
    simp only [hmed, ne_eq, not_true_eq_false, if_false]
  · intro hfs
    have hs : (aa_unix_accept_perm k label sock newsock1 log).2 =
        run_state (fun profile l => profile_accept_perm k profile sock.sk newsock1.sk l)
          (confined_profiles label) log := by
      rw [aa_unix_accept_perm_eq k label sock newsock1 log hfs, fn_for_each_XXX_state]
    refine ⟨hs, ?_, ?_, ?_⟩
    · rw [hs]
      exact run_state_decided decided _ (fun p => (p.hname, k.AA_MAY_ACCEPT))
        (fun p l => profile_accept_perm_decided k p sock.sk newsock1.sk l) _ _
    · rw [hs]
      exact run_state_collect lookups _ _
        (fun p l => profile_accept_perm_lookups k p sock.sk newsock1.sk l) _ _
    · rw [aa_unix_accept_perm_eq k label sock newsock1 log hfs, fn_for_each_XXX_zero_iff]
      simp
  · intro hfs
    simp [aa_unix_accept_perm, hfs]

/-- Witness of C14: the sample label of two confined profiles accepting on the
sample datagram socket, which is not filesystem-backed, with two different
new sockets: the result is the same, both profiles decide AA_MAY_ACCEPT from
the state reached on the listening socket, and the accept is allowed. -/
theorem accept_ignores_new_socket_witness :
    ex_kern.RULE_MEDIATES_AF ex_profile.rules ex_kern.AF_UNIX ≠ 0 ∧
    ex_kern.UNIX_FS ex_dgram = false ∧
    aa_unix_accept_perm ex_kern ex_label2
        { sk := ex_dgram, connected := false, peer := none, f_cred := none }
        ex_socket [] =
      aa_unix_accept_perm ex_kern ex_label2
        { sk := ex_dgram, connected := false, peer := none, f_cred := none }
        ex_fs_socket [] ∧
    (∃ ad1, (profile_accept_perm ex_kern ex_profile ex_dgram ex_sock []).2 =
        [] ++ [audit_event.lookup 6,
               audit_event.check ex_profile.hname ex_kern.AA_MAY_ACCEPT ad1]) ∧
    decided (aa_unix_accept_perm ex_kern ex_label2
        { sk := ex_dgram, connected := false, peer := none, f_cred := none }
        ex_socket []).2 = [("P1", 128), ("denied", 128)] ∧
    lookups (aa_unix_accept_perm ex_kern ex_label2
        { sk := ex_dgram, connected := false, peer := none, f_cred := none }
        ex_socket []).2 = [6, 6] ∧
    (aa_unix_accept_perm ex_kern ex_label2
        { sk := ex_dgram, connected := false, peer := none, f_cred := none }
        ex_socket []).1 = 0 := by
  have T := accept_ignores_new_socket ex_kern ex_label2
    { sk := ex_dgram, connected := false, peer := none, f_cred := none }
    ex_socket ex_fs_socket []
  obtain ⟨ad1, h, _⟩ := T.2.1 ex_profile [] (by decide)
  have U := T.2.2.2.1 (by decide)
  exact ⟨by decide, by decide, T.1, ⟨ad1, h⟩, U.2.1, U.2.2.1, U.2.2.2.mpr (by decide)⟩

/-- C18: complain_error turns exactly -EPERM and -EACCES into 0 and returns every
other error code unchanged; in particular -ENOMEM is returned as it is, and
is not 0. -/
theorem complain_error_only_denials (e : Int) :
    (e = -EPERM ∨ e = -EACCES → complain_error e = 0) ∧
    (e ≠ -EPERM → e ≠ -EACCES → complain_error e = e) ∧
    complain_error (-ENOMEM) = -ENOMEM ∧ complain_error (-ENOMEM) ≠ 0 := by
  refine ⟨?_, ?_, by decide, by decide⟩
  · intro h
    simp [complain_error, h]
  · intro h1 h2
    simp [complain_error, h1, h2]

/-- Witness of C18: -EACCES becomes 0, the error -36 stays as it is. -/
theorem complain_error_only_denials_witness :
    complain_error (-13) = 0 ∧ complain_error (-36) = -36 :=
  ⟨(complain_error_only_denials (-13)).1 (Or.inr (by decide)),
   (complain_error_only_denials (-36)).2.1 (by decide) (by decide)⟩

/-- C19: when aa_mqueue_perm cannot obtain its path buffer it returns -ENOMEM,
which is not 0, and leaves the log as it was: no profile is evaluated, for
every label, path and request. -/
theorem mqueue_without_buffer (k : kern) (op : Option String) (subj_cred : Option Nat)
    (label : aa_label) (path : AppArmor.path) (request : Nat) (log : List audit_event)
    (h : k.aa_get_buffer false = none) :
    aa_mqueue_perm k op subj_cred label path request log = (-ENOMEM, log) ∧
    (aa_mqueue_perm k op subj_cred label path request log).1 ≠ 0 := by
  have he : aa_mqueue_perm k op subj_cred label path request log = (-ENOMEM, log) := by
    unfold aa_mqueue_perm
    rw [h]
  rw [he]
  refine ⟨rfl, ?_⟩
  show (-ENOMEM : Int) ≠ 0
  decide

/-- Witness of C19: without a buffer, the sample confined label and the sample
unconfined label both get -ENOMEM. -/
theorem mqueue_without_buffer_witness :
    ex_kern_nobuf.aa_get_buffer false = none ∧
    aa_mqueue_perm ex_kern_nobuf (some "mq_open") none ex_label ex_mq_path 4 [] = (-ENOMEM, []) ∧
    (aa_mqueue_perm ex_kern_nobuf (some "mq_open") none ex_label_unconfined ex_mq_path 4 []).1
      ≠ 0 :=
  ⟨rfl, (mqueue_without_buffer ex_kern_nobuf (some "mq_open") none ex_label ex_mq_path 4 []
      rfl).1,
   (mqueue_without_buffer ex_kern_nobuf (some "mq_open") none ex_label_unconfined ex_mq_path 4
      [] rfl).2⟩

/-- C20: unix_state_double_lock takes the locks of two distinct sockets in the
same order whichever way round they are passed, the socket of lower identity
first and then the other; when both arguments are the same socket, or the
second is absent, it takes exactly one lock, that of the first argument. -/
theorem double_lock_order (a b : sock) :
    (a.id ≠ b.id →
      unix_state_double_lock a (some b) = unix_state_double_lock b (some a) ∧
      unix_state_double_lock a (some b) = [min a.id b.id, max a.id b.id]) ∧
    (a.id = b.id → unix_state_double_lock a (some b) = [a.id]) ∧
    unix_state_double_lock a none = [a.id] := by
  refine ⟨?_, ?_, rfl⟩
  · intro hne
    rcases Nat.lt_or_gt_of_ne hne with hlt | hgt
    · have h1 : ¬ b.id < a.id := Nat.not_lt.mpr (Nat.le_of_lt hlt)
      have h2 : ¬ b.id = a.id := fun h => hne h.symm
      simp [unix_state_double_lock, hne, hlt, h1, h2, Nat.min_eq_left (Nat.le_of_lt hlt),
        Nat.max_eq_right (Nat.le_of_lt hlt)]
    · have h1 : ¬ a.id < b.id := Nat.not_lt.mpr (Nat.le_of_lt hgt)
      have h2 : ¬ b.id = a.id := fun h => hne h.symm
      simp [unix_state_double_lock, hne, hgt, h1, h2, Nat.min_eq_right (Nat.le_of_lt hgt),
        Nat.max_eq_left (Nat.le_of_lt hgt)]
  · intro he
    simp [unix_state_double_lock, he]

/-- Witness of C20: the sample sockets of identity 1 and 2 are locked in the order
1, 2 both ways round. -/
theorem double_lock_order_witness :
    ex_sock.id ≠ ex_dgram.id ∧
    unix_state_double_lock ex_sock (some ex_dgram) = [1, 2] ∧
    unix_state_double_lock ex_dgram (some ex_sock) = [1, 2] ∧
    unix_state_double_lock ex_sock (some ex_sock) = [1] :=
  ⟨by decide,
   ((double_lock_order ex_sock ex_dgram).1 (by decide)).2,
   ((double_lock_order ex_sock ex_dgram).1 (by decide)).1 ▸
     ((double_lock_order ex_sock ex_dgram).1 (by decide)).2,
   (double_lock_order ex_sock ex_sock).2.1 rfl⟩

theorem profile_signal_perm_signal (k : kern) (cred : Option Nat) (profile : aa_profile)
    (peer : aa_label) (request : Nat) (s : audit_state) :
    (profile_signal_perm k cred profile peer request s).2.ad.signal = s.ad.signal ∧
    (profile_signal_perm k cred profile peer request s).2.ad.unmappedsig = s.ad.unmappedsig := by
  unfold profile_signal_perm
  by_cases h1 : k.profile_mediates profile k.AA_CLASS_SIGNAL = true
  · by_cases h2 : k.RULE_MEDIATES profile.rules k.AA_CLASS_SIGNAL = 0
    · simp [h1, h2]
    · simp [h1, h2, aa_check_perms]
  · simp [h1]

theorem fn_for_each_XXX_signal (FN : aa_profile → audit_state → Int × audit_state)
    (h : ∀ p s, (FN p s).2.ad.signal = s.ad.signal ∧
      (FN p s).2.ad.unmappedsig = s.ad.unmappedsig)
    (ps : List aa_profile) (E : Int) (s : audit_state) :
    (fn_for_each_XXX FN ps E s).2.ad.signal = s.ad.signal ∧
    (fn_for_each_XXX FN ps E s).2.ad.unmappedsig = s.ad.unmappedsig := by
  induction ps generalizing E s with
  | nil => exact ⟨rfl, rfl⟩
  | cons p ps ih =>
    simp only [fn_for_each_XXX]
    obtain ⟨i1, i2⟩ := ih (last_error E (FN p s).1) (FN p s).2
    exact ⟨i1.trans (h p s).1, i2.trans (h p s).2⟩

/-- C11: aa_may_signal runs the sender's profiles with request MAY_WRITE against
the target label (sa), then the target's profiles with request MAY_READ
against the sender label (sb), on one audit record whose signal is
map_signal_num(sig) and whose unmappedsig is sig; no profile check changes
these two fields, so both directions are checked on the same mapped signal.
It returns 0 exactly when both directions return 0. A profile that does not
mediate the signal class returns 0 and logs nothing; a profile that does is
checked, for the request, on the permissions of the state reached on the
mapped signal. -/
theorem may_signal_both_directions (k : kern) (subj_cred target_cred : Option Nat)
    (sender target : aa_label) (sig : Int) (log : List audit_event)
    (sa sb : Int × audit_state)
    (hsa : sa = fn_for_each sender
        (fun profile s => profile_signal_perm k subj_cred profile target k.MAY_WRITE s)
        { ad := { DEFINE_AUDIT_DATA (some OP_SIGNAL) with
                    signal := map_signal_num k.sig sig, unmappedsig := sig },
          log := log })
    (hsb : sb = fn_for_each target
        (fun profile s => profile_signal_perm k target_cred profile sender k.MAY_READ s) sa.2) :
    ((aa_may_signal k subj_cred sender target_cred target sig log).1 = 0 ↔
      sa.1 = 0 ∧ sb.1 = 0) ∧
    (aa_may_signal k subj_cred sender target_cred target sig log).2 = sb.2 ∧
    (sa.2.ad.signal = map_signal_num k.sig sig ∧ sa.2.ad.unmappedsig = sig ∧
     sb.2.ad.signal = map_signal_num k.sig sig ∧ sb.2.ad.unmappedsig = sig) ∧
    (∀ (cred : Option Nat) (profile : aa_profile) (peer : aa_label) (request : Nat)
        (s : audit_state),
      (profile_signal_perm k cred profile peer request s).2.ad.signal = s.ad.signal ∧
      (profile_signal_perm k cred profile peer request s).2.ad.unmappedsig
        = s.ad.unmappedsig) ∧
    (∀ (cred : Option Nat) (profile : aa_profile) (peer : aa_label) (request : Nat)
        (s : audit_state),
      (k.profile_mediates profile k.AA_CLASS_SIGNAL = false ∨
        k.RULE_MEDIATES profile.rules k.AA_CLASS_SIGNAL = 0) →
      (profile_signal_perm k cred profile peer request s).1 = 0 ∧
      (profile_signal_perm k cred profile peer request s).2.log = s.log) ∧
    (∀ (cred : Option Nat) (profile : aa_profile) (peer : aa_label) (request : Nat)
        (s : audit_state),
      k.profile_mediates profile k.AA_CLASS_SIGNAL = true →
      k.RULE_MEDIATES profile.rules k.AA_CLASS_SIGNAL ≠ 0 →
      profile_signal_perm k cred profile peer request s =
        aa_check_perms profile
          (aa_apply_modes_to_perms profile
            (k.aa_label_match profile profile.rules peer
              (profile.rules.policy.dfa.next
                (k.RULE_MEDIATES profile.rules k.AA_CLASS_SIGNAL)
                (s.ad.signal % 256).toNat)
              request))
          request
          { ad := { s.ad with subj_cred := cred, peer := some peer.hname }, log := s.log }) := by
  have hres : aa_may_signal k subj_cred sender target_cred target sig log =
      ((xcheck { error := sa.1, info := sa.2.ad.info }
          { error := sb.1, info := sb.2.ad.info }).error, sb.2) := by
    subst hsa hsb
    rfl
  refine ⟨?_, ?_, ?_, ?_, ?_, ?_⟩
  · rw [hres]
    exact xcheck_error_eq_zero_iff _ _
  · rw [hres]
  · have h1 := fn_for_each_XXX_signal
      (fun profile s => profile_signal_perm k subj_cred profile target k.MAY_WRITE s)
      (fun p s => profile_signal_perm_signal k subj_cred p target k.MAY_WRITE s)
      sender.vec 0
      { ad := { DEFINE_AUDIT_DATA (some OP_SIGNAL) with
                  signal := map_signal_num k.sig sig, unmappedsig := sig },
        log := log }
    have h2 := fn_for_each_XXX_signal
      (fun profile s => profile_signal_perm k target_cred profile sender k.MAY_READ s)
      (fun p s => profile_signal_perm_signal k target_cred p sender k.MAY_READ s)
      target.vec 0 sa.2
    have ea : sa.2.ad.signal = map_signal_num k.sig sig ∧ sa.2.ad.unmappedsig = sig := by
      rw [hsa]
      exact h1
    have eb : sb.2.ad.signal = sa.2.ad.signal ∧ sb.2.ad.unmappedsig = sa.2.ad.unmappedsig := by
      rw [hsb]
      exact h2
    exact ⟨ea.1, ea.2, eb.1.trans ea.1, eb.2.trans ea.2⟩
  · intro cred profile peer request s
    exact profile_signal_perm_signal k cred profile peer request s
  · intro cred profile peer request s h
    unfold profile_signal_perm
    rcases h with h | h
    · simp [h]
    · by_cases h1 : k.profile_mediates profile k.AA_CLASS_SIGNAL = true
      · simp [h1, h]
      · simp [h1]
  · intro cred profile peer request s h1 h2
    unfold profile_signal_perm
    simp [h1, h2]

/-- Witness of C11: under the sample environment that allows no signal, the
sample label signalling the two-profile label is denied, since the sender's
direction is; under the sample environment it is allowed. -/
theorem may_signal_both_directions_witness :
    (fn_for_each ex_label
        (fun profile s => profile_signal_perm ex_kern_deny none profile ex_label2
          ex_kern_deny.MAY_WRITE s)
        { ad := { DEFINE_AUDIT_DATA (some OP_SIGNAL) with
                    signal := map_signal_num ex_kern_deny.sig 9, unmappedsig := 9 },
          log := [] }).1 ≠ 0 ∧
    (aa_may_signal ex_kern_deny none ex_label none ex_label2 9 []).1 ≠ 0 ∧
    (aa_may_signal ex_kern none ex_label none ex_label2 9 []).1 = 0 ∧
    (aa_may_signal ex_kern none ex_label none ex_label2 9 []).2.ad.signal = 109 := by
  have D := may_signal_both_directions ex_kern_deny none none ex_label ex_label2 9 [] _ _
    rfl rfl
  have A := may_signal_both_directions ex_kern none none ex_label ex_label2 9 [] _ _
    rfl rfl
  have hd : (fn_for_each ex_label
        (fun profile s => profile_signal_perm ex_kern_deny none profile ex_label2
          ex_kern_deny.MAY_WRITE s)
        { ad := { DEFINE_AUDIT_DATA (some OP_SIGNAL) with
                    signal := map_signal_num ex_kern_deny.sig 9, unmappedsig := 9 },
          log := [] }).1 ≠ 0 := by decide
  refine ⟨hd, fun h => hd (D.1.mp h).1, A.1.mpr ⟨by decide, by decide⟩, ?_⟩
  rw [A.2.1, A.2.2.1.2.2.1]
  decide

theorem fn_for_each_XXX_events (FN : aa_profile → List audit_event → Int × List audit_event)
    (P : audit_event → Bool)
    (h : ∀ p l, ∃ evs, (FN p l).2 = l ++ evs ∧ ∀ e ∈ evs, P e = true)
    (ps : List aa_profile) (E : Int) (l : List audit_event) :
    ∃ evs, (fn_for_each_XXX FN ps E l).2 = l ++ evs ∧ ∀ e ∈ evs, P e = true := by
  induction ps generalizing E l with
  | nil => exact ⟨[], by simp [fn_for_each_XXX], by simp⟩
  | cons p ps ih =>
    simp only [fn_for_each_XXX]
    obtain ⟨e1, h1, p1⟩ := h p l
    obtain ⟨e2, h2, p2⟩ := ih (last_error E (FN p l).1) (FN p l).2
    refine ⟨e1 ++ e2, ?_, ?_⟩
    · rw [h2, h1, List.append_assoc]
    · intro e he
      rcases List.mem_append.mp he with h3 | h3
      · exact p1 e h3
      · exact p2 e h3

theorem unix_fs_perm_events (k : kern) (op : Option String) (mask : Nat)
    (subj_cred : Option Nat) (label : aa_label) (u : sock) (flags : Nat)
    (log : List audit_event) :
    ∃ evs, (unix_fs_perm k op mask subj_cred label u flags log).2 = log ++ evs ∧
      ∀ e ∈ evs, is_path_event e = true := by
  unfold unix_fs_perm
  split_ifs with h
  · exact ⟨[], by simp, by simp⟩
  · cases hp : u.path with
    | some d =>
      exact ⟨[audit_event.path_perm op label.hname (mask &&& k.NET_FS_PERMS) flags], rfl,
        by simp [is_path_event]⟩
    | none =>
      cases hc : u.ctx.path with
      | some d =>
        exact ⟨[audit_event.path_perm op label.hname (mask &&& k.NET_FS_PERMS) flags], rfl,
          by simp [is_path_event]⟩
      | none =>
        simp only [fn_for_each_confined]
        apply fn_for_each_XXX_events
        intro p l
        split_ifs
        · exact ⟨[audit_event.path_perm op p.hname (mask &&& k.NET_FS_PERMS) flags], rfl,
            by simp [is_path_event]⟩
        · exact ⟨[audit_event.audit_file op p.hname (mask &&& k.NET_FS_PERMS)], rfl,
            by simp [is_path_event]⟩

/-- Counterexample to C13: the sample confined label listening on the sample
socket bound in the filesystem, and binding to the sample filesystem address.
Both entry points return 0 and the log stays empty: the path mediator is not
called. -/
theorem fs_backed_listen_skips_path_mediator :
    unconfined ex_label = false ∧
    ex_kern.UNIX_FS ex_fs_socket.sk = true ∧
    ex_kern.label_mediates ex_label ex_kern.AA_CLASS_FILE = true ∧
    aa_unix_listen_perm ex_kern ex_label ex_fs_socket 5 [] = (0, []) ∧
    (¬ ∃ e ∈ (aa_unix_listen_perm ex_kern ex_label ex_fs_socket 5 []).2,
        is_path_event e = true) ∧
    ex_kern.unix_addr_fs ex_fs_addr 6 = true ∧
    aa_unix_bind_perm ex_kern ex_label none ex_fs_socket ex_fs_addr 6 [] = (0, []) := by
  have h : aa_unix_listen_perm ex_kern ex_label ex_fs_socket 5 [] = (0, []) := by decide
  refine ⟨by decide, by decide, by decide, h, ?_, by decide, by decide⟩
  rw [h]
  simp

theorem fn_for_each_XXX_single_events
    (FN : aa_profile → List audit_event → Int × List audit_event)
    (P : audit_event → Bool) (ps : List aa_profile)
    (h : ∀ p ∈ ps, ∀ l, ∃ e, (FN p l).2 = l ++ [e] ∧ P e = true)
    (E : Int) (l : List audit_event) :
    ∃ evs, (fn_for_each_XXX FN ps E l).2 = l ++ evs ∧ (∀ e ∈ evs, P e = true) ∧
      evs.length = ps.length := by
  induction ps generalizing E l with
  | nil => exact ⟨[], by simp [fn_for_each_XXX], by simp, rfl⟩
  | cons p ps ih =>
    simp only [fn_for_each_XXX]
    obtain ⟨e1, h1, p1⟩ := h p (List.mem_cons_self p ps) l
    obtain ⟨e2, h2, p2, l2⟩ := ih (fun q hq => h q (List.mem_cons_of_mem p hq))
      (last_error E (FN p l).1) (FN p l).2
    refine ⟨e1 :: e2, ?_, ?_, ?_⟩
    · rw [h2, h1, List.append_assoc]
      rfl
    · intro e he
      rcases List.mem_cons.mp he with h3 | h3
      · rw [h3]
        exact p1
      · exact p2 e h3
    · simp [l2]

theorem unix_fs_perm_cleared (k : kern) (op : Option String) (mask : Nat)
    (cred : Option Nat) (label : aa_label) (u : sock) (flags : Nat) (log : List audit_event)
    (hconf : unconfined label = false)
    (hmed : k.label_mediates label k.AA_CLASS_FILE = true)
    (hp : u.path = none) (hc : u.ctx.path = none) :
    unix_fs_perm k op mask cred label u flags log =
      fn_for_each_XXX (fun profile l =>
          if (flags ||| profile.path_flags) &&& k.PATH_MEDIATE_DELETED ≠ 0 then
            (k.__aa_path_perm op cred profile (u.addr.map unix_address.name)
                (mask &&& k.NET_FS_PERMS) u.i_uid u.i_mode flags,
             l ++ [audit_event.path_perm op profile.hname (mask &&& k.NET_FS_PERMS) flags])
          else
            (k.aa_audit_file cred profile op (mask &&& k.NET_FS_PERMS)
                (u.addr.map unix_address.name) u.i_uid "Failed name lookup - deleted entry"
                (-EACCES),
             l ++ [audit_event.audit_file op profile.hname (mask &&& k.NET_FS_PERMS)]))
        (confined_profiles label) 0 log := by
  unfold unix_fs_perm
  simp only [hconf, hmed, hp, hc, Bool.not_true, Bool.or_false, Bool.false_eq_true, if_false]
  rfl

/-- C13 as amended: when the socket an entry point acts on is filesystem-backed
and the acting label is confined, no entry point resolves permissions from
the automaton. Bind to a filesystem address, listen, accept and option
get/set return 0 and call nothing. Socket permission and peer interaction
hand the request to unix_fs_perm, and every event unix_fs_perm adds to the
log is a call of the path mediator or a file audit. It returns 0 with no
call when the label does not mediate the file class. When the label does:
for a socket that has its dentry it is one call of aa_path_perm on that
dentry; for a socket whose path has been cleared it is one call of
aa_path_perm on the path recorded in the security context of the socket, if
there is one; and when there is none, it runs for every confined profile
__aa_path_perm on the bound address if the flags of the call or of the
profile include PATH_MEDIATE_DELETED, and otherwise aa_audit_file with
-EACCES, which is no call of the path mediator. -/
theorem fs_backed_file_mediation (k : kern) (label : aa_label) (cred : Option Nat)
    (op : Option String) (request : Nat) (sock newsock : socket) (sk peer_sk : AppArmor.sock)
    (peer_label : Option aa_label) (address : sockaddr_un)
    (addrlen backlog level optname : Int) (log : List audit_event)
    (hconf : unconfined label = false) :
    (k.UNIX_FS sock.sk = true →
      aa_unix_sock_perm k label cred op request sock log =
        unix_fs_perm k op request cred label sock.sk 0 log) ∧
    (k.UNIX_FS peer_sk = true →
      aa_unix_peer_perm k cred label op request sk peer_sk peer_label log =
        ({ error := (unix_fs_perm k op request cred label peer_sk 0 log).1, info := none },
         (unix_fs_perm k op request cred label peer_sk 0 log).2)) ∧
    (k.UNIX_FS peer_sk = false → k.UNIX_FS sk = true →
      aa_unix_peer_perm k cred label op request sk peer_sk peer_label log =
        ({ error := (unix_fs_perm k op request cred label sk 0 log).1, info := none },
         (unix_fs_perm k op request cred label sk 0 log).2)) ∧
    (∀ (u : AppArmor.sock) (mask flags : Nat),
      ∃ evs, (unix_fs_perm k op mask cred label u flags log).2 = log ++ evs ∧
        ∀ e ∈ evs, is_path_event e = true) ∧
    (∀ (u : AppArmor.sock) (mask flags : Nat),
      k.label_mediates label k.AA_CLASS_FILE = false →
      unix_fs_perm k op mask cred label u flags log = (0, log)) ∧
    (∀ (u : AppArmor.sock) (mask flags : Nat) (d : dentry),
      k.label_mediates label k.AA_CLASS_FILE = true → u.path = some d →
      unix_fs_perm k op mask cred label u flags log =
        (k.aa_path_perm op cred label d flags (mask &&& k.NET_FS_PERMS) d.i_uid d.i_mode,
         log ++ [audit_event.path_perm op label.hname (mask &&& k.NET_FS_PERMS) flags])) ∧
    (∀ (u : AppArmor.sock) (mask flags : Nat) (d : dentry),
      k.label_mediates label k.AA_CLASS_FILE = true → u.path = none → u.ctx.path = some d →
      unix_fs_perm k op mask cred label u flags log =
        (k.aa_path_perm op cred label d flags (mask &&& k.NET_FS_PERMS) u.i_uid u.i_mode,
         log ++ [audit_event.path_perm op label.hname (mask &&& k.NET_FS_PERMS) flags])) ∧
    (∀ (u : AppArmor.sock) (mask flags : Nat),
      k.label_mediates label k.AA_CLASS_FILE = true → u.path = none → u.ctx.path = none →
      unix_fs_perm k op mask cred label u flags log =
        fn_for_each_XXX (fun profile l =>
            if (flags ||| profile.path_flags) &&& k.PATH_MEDIATE_DELETED ≠ 0 then
              (k.__aa_path_perm op cred profile (u.addr.map unix_address.name)
                  (mask &&& k.NET_FS_PERMS) u.i_uid u.i_mode flags,
               l ++ [audit_event.path_perm op profile.hname (mask &&& k.NET_FS_PERMS) flags])
            else
              (k.aa_audit_file cred profile op (mask &&& k.NET_FS_PERMS)
                  (u.addr.map unix_address.name) u.i_uid "Failed name lookup - deleted entry"
                  (-EACCES),
               l ++ [audit_event.audit_file op profile.hname (mask &&& k.NET_FS_PERMS)]))
          (confined_profiles label) 0 log ∧
      ((∀ p ∈ confined_profiles label,
          (flags ||| p.path_flags) &&& k.PATH_MEDIATE_DELETED ≠ 0) →
        ∃ evs, (unix_fs_perm k op mask cred label u flags log).2 = log ++ evs ∧
          (∀ e ∈ evs, is_path_perm_event e = true) ∧
          evs.length = (confined_profiles label).length) ∧
      ((∀ p ∈ confined_profiles label,
          (flags ||| p.path_flags) &&& k.PATH_MEDIATE_DELETED = 0) →
        ∃ evs, (unix_fs_perm k op mask cred label u flags log).2 = log ++ evs ∧
          (∀ e ∈ evs, is_audit_file_event e = true) ∧
          evs.length = (confined_profiles label).length)) ∧
    (k.unix_addr_fs address addrlen = true →
      aa_unix_bind_perm k label cred sock address addrlen log = (0, log)) ∧
    (k.UNIX_FS sock.sk = true →
      aa_unix_listen_perm k label sock backlog log = (0, log) ∧
      aa_unix_accept_perm k label sock newsock log = (0, log) ∧
      aa_unix_opt_perm k label op request sock level optname log = (0, log)) := by
  refine ⟨?_, ?_, ?_, ?_, ?_, ?_, ?_, ?_, ?_, ?_⟩
  · intro hfs
    simp [aa_unix_sock_perm, unix_label_sock_perm, hconf, hfs]
  · intro hfs
    simp [aa_unix_peer_perm, hfs]
  · intro hpfs hfs
    simp [aa_unix_peer_perm, hfs, hpfs]
  · intro u mask flags
    exact unix_fs_perm_events k op mask cred label u flags log
  · intro u mask flags hmed
    simp [unix_fs_perm, hmed]
  · intro u mask flags d hmed hd
    simp [unix_fs_perm, hconf, hmed, hd, aa_path_perm]
  · intro u mask flags d hmed hp hc
    simp [unix_fs_perm, hconf, hmed, hp, hc, aa_path_perm]
  · intro u mask flags hmed hp hc
    have e := unix_fs_perm_cleared k op mask cred label u flags log hconf hmed hp hc
    refine ⟨e, ?_, ?_⟩
    · intro hall
      rw [e]
      apply fn_for_each_XXX_single_events
      intro p hp2 l
      rw [if_pos (hall p hp2)]
      exact ⟨_, rfl, rfl⟩
    · intro hall
      rw [e]
      apply fn_for_each_XXX_single_events
      intro p hp2 l
      rw [if_neg (not_not.mpr (hall p hp2))]
      exact ⟨_, rfl, rfl⟩
  · intro hfs
    simp [aa_unix_bind_perm, hfs]
  · intro hfs
    simp [aa_unix_listen_perm, aa_unix_accept_perm, aa_unix_opt_perm, hfs]

/-- Witness of C13 as amended: the sample confined label on the sample socket
bound in the filesystem: the socket permission check is one call of the path
mediator, listen calls nothing; on the socket whose path has been cleared the
socket permission check is denied with -EACCES through the file audit,
without a call of the path mediator. -/
theorem fs_backed_file_mediation_witness :
    unconfined ex_label = false ∧ ex_kern.UNIX_FS ex_fs_socket.sk = true ∧
    aa_unix_sock_perm ex_kern ex_label none (some "getattr") 4 ex_fs_socket [] =
      (0, [audit_event.path_perm (some "getattr") "P1" 4 0]) ∧
    aa_unix_listen_perm ex_kern ex_label ex_fs_socket 5 [] = (0, []) ∧
    ex_kern.UNIX_FS ex_fs_socket_cleared.sk = true ∧
    aa_unix_sock_perm ex_kern ex_label none (some "getattr") 4 ex_fs_socket_cleared [] =
      (-13, [audit_event.audit_file (some "getattr") "P1" 4]) := by
  have T := fs_backed_file_mediation ex_kern ex_label none (some "getattr") 4 ex_fs_socket
    ex_fs_socket ex_sock ex_fs_sock none ex_fs_addr 6 5 0 0 [] (by decide)
  have U := fs_backed_file_mediation ex_kern ex_label none (some "getattr") 4
    ex_fs_socket_cleared ex_fs_socket ex_sock ex_fs_sock none ex_fs_addr 6 5 0 0 []
    (by decide)
  refine ⟨by decide, by decide, ?_, (T.2.2.2.2.2.2.2.2.2 (by decide)).1, by decide, ?_⟩
  · rw [T.1 (by decide)]
    decide
  · exact (U.1 (by decide)).trans
      ((U.2.2.2.2.2.2.2.1 ex_fs_socket_cleared.sk 4 0 (by decide) rfl rfl).1.trans (by decide))

/-- Counterexample to C17: a mediating confined profile and a queue whose path
name cannot be obtained. The function returns the error of the name lookup,
which no permission check returns, and leaves the log empty: nothing is looked
up and nothing is checked. -/
theorem mqueue_unnamed_path_returns_lookup_error :
    profile_unconfined ex_profile = false ∧
    ex_kern.RULE_MEDIATES ex_profile.rules ex_kern.AA_CLASS_POSIX_MQUEUE ≠ 0 ∧
    ex_kern.dentry_path_raw ex_mq_path_unnamed = Except.error (-36) ∧
    (aa_profile_mqueue_perm ex_kern ex_profile ex_mq_path_unnamed 4 1
      { ad := DEFINE_AUDIT_DATA (some "mq_open"), log := [] }).1 = -36 ∧
    (aa_profile_mqueue_perm ex_kern ex_profile ex_mq_path_unnamed 4 1
      { ad := DEFINE_AUDIT_DATA (some "mq_open"), log := [] }).2.log = [] ∧
    ∀ (perms : aa_perms) (t : audit_state),
      (aa_check_perms ex_profile perms 4 t).1 ≠ -36 := by
  refine ⟨by decide, by decide, rfl, by decide, by decide, ?_⟩
  intro perms t
  unfold aa_check_perms
  by_cases h : 4 &&& not32 perms.allow = 0
  · simp [h]
  · simp [h, EACCES]

/-- C17 as amended: for a mediating confined profile, a request and a path whose
name can be obtained, aa_profile_mqueue_perm returns, whether the early exit
is taken or not, the permission check applied to the mode-adjusted
permissions looked up at the state the automaton reaches on the path name
from the posix-mqueue start state; when the name cannot be obtained, it
returns the error of the name lookup and neither looks up nor checks
anything. In no case does the result depend on the label comparison. -/
theorem mqueue_perm_single_check (k : kern) (profile : aa_profile) (path : AppArmor.path)
    (request buffer : Nat) (s : audit_state)
    (hconf : profile_unconfined profile = false)
    (hmed : k.RULE_MEDIATES profile.rules k.AA_CLASS_POSIX_MQUEUE ≠ 0) :
    (∀ name, k.dentry_path_raw path = Except.ok name →
      aa_profile_mqueue_perm k profile path request buffer s =
        aa_check_perms profile
          (aa_apply_modes_to_perms profile
            (profile.rules.policy.perms
              (profile.rules.policy.dfa.match_str
                (profile.rules.policy.start k.AA_CLASS_POSIX_MQUEUE) name)))
          request
          { ad := { s.ad with subj_label := some profile.hname, name := some name },
            log := s.log ++ [audit_event.lookup
              (profile.rules.policy.dfa.match_str
                (profile.rules.policy.start k.AA_CLASS_POSIX_MQUEUE) name)] }) ∧
    (∀ e, k.dentry_path_raw path = Except.error e →
      aa_profile_mqueue_perm k profile path request buffer s =
        (e, { ad := { s.ad with subj_label := some profile.hname }, log := s.log })) ∧
    (∀ f, aa_profile_mqueue_perm { k with aa_label_match := f } profile path request buffer s =
      aa_profile_mqueue_perm k profile path request buffer s) := by
  refine ⟨?_, ?_, ?_⟩
  · intro name hname
    unfold aa_profile_mqueue_perm
    simp [hconf, hmed, hname, aa_lookup_perms]
  · intro e he
    unfold aa_profile_mqueue_perm
    simp [hconf, hmed, he]
  · intro f
    rfl

/-- Witness of C17 as amended: the sample profile opening the sample queue for
reading is allowed after one lookup and one check. -/
theorem mqueue_perm_single_check_witness :
    profile_unconfined ex_profile = false ∧
    ex_kern.RULE_MEDIATES ex_profile.rules ex_kern.AA_CLASS_POSIX_MQUEUE ≠ 0 ∧
    ex_kern.dentry_path_raw ex_mq_path = Except.ok "/queue" ∧
    (aa_profile_mqueue_perm ex_kern ex_profile ex_mq_path 4 1
      { ad := DEFINE_AUDIT_DATA (some "mq_open"), log := [] }).1 = 0 ∧
    lookups (aa_profile_mqueue_perm ex_kern ex_profile ex_mq_path 4 1
      { ad := DEFINE_AUDIT_DATA (some "mq_open"), log := [] }).2.log = [2] := by
  have T := (mqueue_perm_single_check ex_kern ex_profile ex_mq_path 4 1
    { ad := DEFINE_AUDIT_DATA (some "mq_open"), log := [] } (by decide) (by decide)).1
    "/queue" rfl
  refine ⟨by decide, by decide, rfl, ?_, ?_⟩
  · rw [T]
    decide
  · rw [T]
    decide

theorem match_to_local_run (k : kern) (dfa : aa_dfa) (start : Nat) (type protocol : Int)
    (addr : Option sockaddr_un) (addrlen : Int) (info : Option String)
    (hnull : dfa.null_transition 0 = 0) (hlen : ∀ bs, dfa.match_len 0 bs = 0) :
    (match_to_local k dfa start type protocol addr addrlen info).1 =
      dfa.null_transition (dfa.null_transition (dfa.match_len
        (dfa.match_len start (cpu_to_be16 type ++ cpu_to_be16 protocol))
        (addr_bytes k addr addrlen))) := by
  rw [match_to_local_eq, match_addr_eq]
  generalize dfa.match_len start (cpu_to_be16 type ++ cpu_to_be16 protocol) = s1
  by_cases h1 : s1 = 0
  · subst h1
    simp [hlen, hnull]
  · by_cases h2 : dfa.null_transition (dfa.match_len s1 (addr_bytes k addr addrlen)) = 0
    · simp [h1, h2, hnull]
    · by_cases h3 : dfa.null_transition
          (dfa.null_transition (dfa.match_len s1 (addr_bytes k addr addrlen))) = 0
      · simp [h1, h2, h3]
      · simp [h1, h2, h3]

theorem match_to_cmd_run (k : kern) (dfa : aa_dfa) (start : Nat) (u : sock) (cmd : Nat)
    (info : Option String)
    (hnull : dfa.null_transition 0 = 0) (hlen : ∀ bs, dfa.match_len 0 bs = 0) :
    (match_to_cmd k dfa start u cmd info).1 =
      run_tokens dfa start
        [token.bytes (cpu_to_be16 u.sk_type ++ cpu_to_be16 u.sk_protocol),
         token.bytes (addr_bytes k (sk_addr u).1 (sk_addr u).2),
         token.null, token.null, token.bytes [cmd]] := by
  rw [match_to_cmd_eq, match_to_sk_eq]
  simp only [run_tokens, List.foldl, feed]
  rw [← match_to_local_run k dfa start u.sk_type u.sk_protocol (sk_addr u).1 (sk_addr u).2
    info hnull hlen]
  generalize (match_to_local k dfa start u.sk_type u.sk_protocol (sk_addr u).1
    (sk_addr u).2 info) = r
  by_cases h1 : r.1 = 0
  · simp [h1, hlen]
  · by_cases h2 : dfa.match_len r.1 [cmd] = 0
    · simp [h1, h2]
    · simp [h1, h2]

theorem match_to_peer_run (k : kern) (dfa : aa_dfa) (start : Nat) (u : sock)
    (peer_addr : Option sockaddr_un) (peer_addrlen : Int) (info : Option String)
    (hnull : dfa.null_transition 0 = 0) (hlen : ∀ bs, dfa.match_len 0 bs = 0) :
    (match_to_peer k dfa start u peer_addr peer_addrlen info).1 =
      run_tokens dfa start
        [token.bytes (cpu_to_be16 u.sk_type ++ cpu_to_be16 u.sk_protocol),
         token.bytes (addr_bytes k (sk_addr u).1 (sk_addr u).2),
         token.null, token.null, token.bytes [CMD_ADDR],
         token.bytes (addr_bytes k peer_addr peer_addrlen), token.null] := by
  have hc := match_to_cmd_run k dfa start u CMD_ADDR info hnull hlen
  rw [match_to_peer_eq, match_addr_eq]
  simp only [run_tokens, List.foldl, feed] at hc ⊢
  rw [← hc]
  generalize (match_to_cmd k dfa start u CMD_ADDR info) = r
  by_cases h1 : r.1 = 0
  · simp [h1, hlen, hnull]
  · by_cases h2 : dfa.null_transition
        (dfa.match_len r.1 (addr_bytes k peer_addr peer_addrlen)) = 0
    · simp [h1, h2]
    · simp [h1, h2]

/-- C16: for a profile mediating AF_UNIX and an automaton whose no-match state
is absorbing, profile_listen_perm resolves AA_MAY_LISTEN exactly once, from
the state reached from the AF_UNIX start state on the socket's type and
protocol, its local address bytes (0x01 if it has none), two null
transitions and the command byte CMD_LISTEN (t5), followed, only if t5 is
not 0, by the two big-endian bytes of the backlog; that state is also the
one reached by feeding the whole sequence, backlog included. -/
theorem listen_perm_token_sequence (k : kern) (profile : aa_profile) (sk : sock)
    (backlog : Int) (log : List audit_event) (t5 final : Nat)
    (hmed : k.RULE_MEDIATES_AF profile.rules k.AF_UNIX ≠ 0)
    (hnull : profile.rules.policy.dfa.null_transition 0 = 0)
    (hlen : ∀ bs, profile.rules.policy.dfa.match_len 0 bs = 0)
    (h5 : t5 = run_tokens profile.rules.policy.dfa
      (k.RULE_MEDIATES_AF profile.rules k.AF_UNIX)
      [token.bytes (cpu_to_be16 sk.sk_type ++ cpu_to_be16 sk.sk_protocol),
       token.bytes (addr_bytes k (sk_addr sk).1 (sk_addr sk).2),
       token.null, token.null, token.bytes [CMD_LISTEN]])
    (hfinal : final = if t5 = 0 then 0
      else profile.rules.policy.dfa.match_len t5 (cpu_to_be16 backlog)) :
    (∃ ad1, (profile_listen_perm k profile sk backlog log).2 =
        log ++ [audit_event.lookup final,
                audit_event.check profile.hname k.AA_MAY_LISTEN ad1] ∧
      ad1.request = k.AA_MAY_LISTEN) ∧
    final = run_tokens profile.rules.policy.dfa
      (k.RULE_MEDIATES_AF profile.rules k.AF_UNIX)
      [token.bytes (cpu_to_be16 sk.sk_type ++ cpu_to_be16 sk.sk_protocol),
       token.bytes (addr_bytes k (sk_addr sk).1 (sk_addr sk).2),
       token.null, token.null, token.bytes [CMD_LISTEN],
       token.bytes (cpu_to_be16 backlog)] := by
  have hc := match_to_cmd_run k profile.rules.policy.dfa
    (k.RULE_MEDIATES_AF profile.rules k.AF_UNIX) sk CMD_LISTEN none hnull hlen
  rw [← h5] at hc
  constructor
  · unfold profile_listen_perm
    simp only [hmed, ne_eq, not_false_eq_true, if_true]
    have hst : (guarded_stage
        (fun t => profile.rules.policy.dfa.match_len t (cpu_to_be16 backlog))
        "failed listen backlog match"
        (match_to_cmd k profile.rules.policy.dfa
          (k.RULE_MEDIATES_AF profile.rules k.AF_UNIX) sk CMD_LISTEN none)).1 = final := by
      unfold guarded_stage
      rw [hfinal, hc]
      by_cases h0 : t5 = 0
      · simp [h0, hc]
      · by_cases h1 : profile.rules.policy.dfa.match_len t5 (cpu_to_be16 backlog) = 0
        · simp [h0, h1]
        · simp [h0, h1]
    obtain ⟨ad1, h1, h2, _⟩ := do_perms_log_state profile profile.rules _ final k.AA_MAY_LISTEN
      { ad := { DEFINE_AUDIT_SK (some OP_LISTEN) sk with info := _ }, log := log } hst
    exact ⟨ad1, h1, h2⟩
  · rw [hfinal, h5]
    simp only [run_tokens, List.foldl, feed]
    split_ifs with h0
    · rw [h0, hlen]
    · rfl

/-- Witness of C16: the sample profile listening on the sample datagram socket
with backlog 5 resolves AA_MAY_LISTEN from state 10, the state after the
backlog bytes. -/
theorem listen_perm_token_sequence_witness :
    ex_kern.RULE_MEDIATES_AF ex_profile.rules ex_kern.AF_UNIX ≠ 0 ∧
    ex_profile.rules.policy.dfa.null_transition 0 = 0 ∧
    (∀ bs, ex_profile.rules.policy.dfa.match_len 0 bs = 0) ∧
    ∃ ad1, (profile_listen_perm ex_kern ex_profile ex_dgram 5 []).2 =
        [] ++ [audit_event.lookup 10,
               audit_event.check ex_profile.hname ex_kern.AA_MAY_LISTEN ad1] ∧
      ad1.request = ex_kern.AA_MAY_LISTEN :=
  ⟨by decide, by decide, fun _ => rfl,
   (listen_perm_token_sequence ex_kern ex_profile ex_dgram 5 [] 8 10 (by decide) (by decide)
     (fun _ => rfl) (by decide) (by decide)).1⟩

theorem checks_append (a b : List audit_event) : checks (a ++ b) = checks a ++ checks b := by
  induction a with
  | nil => rfl
  | cons e rest ih => cases e <;> simp [checks, ih]

theorem match_label_log (profile : aa_profile) (rules : aa_ruleset) (peer : aa_profile)
    (st request : Nat) (t : audit_state) :
    ∃ ad1, (match_label profile rules peer st request t).2.log =
      t.log ++ [audit_event.lookup (if st = 0 then 0 else rules.policy.dfa.match_str st peer.hname),
                audit_event.check profile.hname request ad1] := by
  unfold match_label
  have hst : (match_label_state rules peer st t.ad).1 =
      (if st = 0 then 0 else rules.policy.dfa.match_str st peer.hname) := by
    rw [match_label_state_eq]
    by_cases h : st = 0
    · simp [h]
    · by_cases h2 : rules.policy.dfa.match_str st peer.hname = 0
      · simp [h, h2]
      · simp [h, h2]
  obtain ⟨ad1, h1, _⟩ := do_perms_log_state profile rules _ _ request
    { ad := (match_label_state rules peer st t.ad).2, log := t.log } hst
  exact ⟨ad1, h1⟩

theorem match_label_fold_log (profile : aa_profile) (rules : aa_ruleset) (st request : Nat)
    (ps : List aa_profile) (E : Int) (t : audit_state) :
    lookups (fn_for_each_XXX (fun peerp u => match_label profile rules peerp st request u)
        ps E t).2.log =
      lookups t.log ++ ps.map
        (fun pp => if st = 0 then 0 else rules.policy.dfa.match_str st pp.hname) ∧
    checks (fn_for_each_XXX (fun peerp u => match_label profile rules peerp st request u)
        ps E t).2.log =
      checks t.log ++ ps.map (fun _ => (profile.hname, request)) := by
  induction ps generalizing E t with
  | nil => simp [fn_for_each_XXX]
  | cons p ps ih =>
    simp only [fn_for_each_XXX, List.map_cons]
    obtain ⟨ad1, h1⟩ := match_label_log profile rules p st request t
    obtain ⟨i1, i2⟩ := ih (last_error E (match_label profile rules p st request t).1)
      (match_label profile rules p st request t).2
    rw [i1, i2, h1, lookups_append, checks_append]
    simp [lookups, checks]

/-- C15: for a profile mediating AF_UNIX and an automaton whose no-match state
is absorbing, profile_peer_perm resolves the request once for each profile
of the peer label (the label passed, or the one recorded on the peer socket
when none is passed), in order, each time from the state reached from the
AF_UNIX start state on: the acting socket's type and protocol, its local
address bytes (0x01 if it has none), a null transition, a second null
transition, the command byte CMD_ADDR, the peer socket's address bytes (0x01
if it has none), a null transition, and then that peer profile's name. -/
theorem peer_perm_token_sequence (k : kern) (profile : aa_profile) (op : Option String)
    (request : Nat) (sk peer_sk : sock) (peer_label : Option aa_label) (s : audit_state)
    (hmed : k.RULE_MEDIATES_AF profile.rules k.AF_UNIX ≠ 0)
    (hnull : profile.rules.policy.dfa.null_transition 0 = 0)
    (hlen : ∀ bs, profile.rules.policy.dfa.match_len 0 bs = 0)
    (hstr : ∀ n, profile.rules.policy.dfa.match_str 0 n = 0) :
    lookups (profile_peer_perm k profile op request sk peer_sk peer_label s).2.log =
      lookups s.log ++ (peer_label.getD peer_sk.ctx.label).vec.map
        (fun pp => run_tokens profile.rules.policy.dfa
          (k.RULE_MEDIATES_AF profile.rules k.AF_UNIX)
          [token.bytes (cpu_to_be16 sk.sk_type ++ cpu_to_be16 sk.sk_protocol),
           token.bytes (addr_bytes k (sk_addr sk).1 (sk_addr sk).2),
           token.null, token.null, token.bytes [CMD_ADDR],
           token.bytes (addr_bytes k (sk_addr peer_sk).1 (sk_addr peer_sk).2),
           token.null, token.name pp.hname]) ∧
    checks (profile_peer_perm k profile op request sk peer_sk peer_label s).2.log =
      checks s.log ++ (peer_label.getD peer_sk.ctx.label).vec.map
        (fun _ => (profile.hname, request)) := by
  have hL : (match peer_label with
      | some l => l
      | none => peer_sk.ctx.label) = peer_label.getD peer_sk.ctx.label := by
    cases peer_label <;> rfl
  have hp := match_to_peer_run k profile.rules.policy.dfa
    (k.RULE_MEDIATES_AF profile.rules k.AF_UNIX) sk (sk_addr peer_sk).1 (sk_addr peer_sk).2
    s.ad.info hnull hlen
  have hf := match_label_fold_log profile profile.rules
    (match_to_peer k profile.rules.policy.dfa (k.RULE_MEDIATES_AF profile.rules k.AF_UNIX)
      sk (sk_addr peer_sk).1 (sk_addr peer_sk).2 s.ad.info).1
    request (peer_label.getD peer_sk.ctx.label).vec 0
    { ad := { s.ad with info := (match_to_peer k profile.rules.policy.dfa
        (k.RULE_MEDIATES_AF profile.rules k.AF_UNIX) sk (sk_addr peer_sk).1
        (sk_addr peer_sk).2 s.ad.info).2 }, log := s.log }
  have hname : ∀ pp : aa_profile,
      (if (match_to_peer k profile.rules.policy.dfa
            (k.RULE_MEDIATES_AF profile.rules k.AF_UNIX) sk (sk_addr peer_sk).1
            (sk_addr peer_sk).2 s.ad.info).1 = 0 then 0
        else profile.rules.policy.dfa.match_str
          (match_to_peer k profile.rules.policy.dfa
            (k.RULE_MEDIATES_AF profile.rules k.AF_UNIX) sk (sk_addr peer_sk).1
            (sk_addr peer_sk).2 s.ad.info).1 pp.hname) =
      run_tokens profile.rules.policy.dfa (k.RULE_MEDIATES_AF profile.rules k.AF_UNIX)
        [token.bytes (cpu_to_be16 sk.sk_type ++ cpu_to_be16 sk.sk_protocol),
         token.bytes (addr_bytes k (sk_addr sk).1 (sk_addr sk).2),
         token.null, token.null, token.bytes [CMD_ADDR],
         token.bytes (addr_bytes k (sk_addr peer_sk).1 (sk_addr peer_sk).2),
         token.null, token.name pp.hname] := by
    intro pp
    have e : run_tokens profile.rules.policy.dfa (k.RULE_MEDIATES_AF profile.rules k.AF_UNIX)
        [token.bytes (cpu_to_be16 sk.sk_type ++ cpu_to_be16 sk.sk_protocol),
         token.bytes (addr_bytes k (sk_addr sk).1 (sk_addr sk).2),
         token.null, token.null, token.bytes [CMD_ADDR],
         token.bytes (addr_bytes k (sk_addr peer_sk).1 (sk_addr peer_sk).2),
         token.null, token.name pp.hname] =
        profile.rules.policy.dfa.match_str
          (match_to_peer k profile.rules.policy.dfa
            (k.RULE_MEDIATES_AF profile.rules k.AF_UNIX) sk (sk_addr peer_sk).1
            (sk_addr peer_sk).2 s.ad.info).1 pp.hname := by
      rw [hp]
      rfl
    rw [e]
    split_ifs with h0
    · rw [h0, hstr]
    · rfl
  simp only [hname] at hf
  unfold profile_peer_perm
  simp only [hmed, ne_eq, not_false_eq_true, if_true, hL]
  exact hf

/-- Witness of C15: the sample profile on the sample datagram socket against an
anonymous peer, with the two-profile peer label: the request is resolved
twice, from state 10 after the name "P1" and from state 0 after the name
"denied". -/
theorem peer_perm_token_sequence_witness :
    ex_kern.RULE_MEDIATES_AF ex_profile.rules ex_kern.AF_UNIX ≠ 0 ∧
    ex_profile.rules.policy.dfa.null_transition 0 = 0 ∧
    (∀ bs, ex_profile.rules.policy.dfa.match_len 0 bs = 0) ∧
    (∀ n, ex_profile.rules.policy.dfa.match_str 0 n = 0) ∧
    lookups (profile_peer_perm ex_kern ex_profile (some "connect") 6 ex_dgram ex_dgram_rw
      (some ex_label2) { ad := DEFINE_AUDIT_SK (some "connect") ex_dgram, log := [] }).2.log
      = [10, 0] ∧
    checks (profile_peer_perm ex_kern ex_profile (some "connect") 6 ex_dgram ex_dgram_rw
      (some ex_label2) { ad := DEFINE_AUDIT_SK (some "connect") ex_dgram, log := [] }).2.log
      = [("P1", 6), ("P1", 6)] := by
  have T := peer_perm_token_sequence ex_kern ex_profile (some "connect") 6 ex_dgram
    ex_dgram_rw (some ex_label2)
    { ad := DEFINE_AUDIT_SK (some "connect") ex_dgram, log := [] }
    (by decide) (by decide) (fun _ => rfl) (fun _ => rfl)
  refine ⟨by decide, by decide, fun _ => rfl, fun _ => rfl, ?_, ?_⟩
  · rw [T.1]
    decide
  · rw [T.2]
    decide

/-- C25: for every signal number sig >= 0, map_signal_num either returns without
reading the table or reads sig_map at an index i with 0 <= i <
MAXMAPPED_SIG. The table is read only at index sig, and only when sig <
SIGRTMIN, sig <= SIGRTMAX and sig < MAXMAPPED_SIG, the value read being the
result; so an index outside the table can only come from a negative sig. -/
theorem map_signal_num_reads_in_table (c : sig_names) (sig : Int) :
    (0 ≤ sig →
      map_signal_num_read c sig = none ∨
      ∃ i, map_signal_num_read c sig = some i ∧ 0 ≤ i ∧ i < c.MAXMAPPED_SIG) ∧
    (∀ i, map_signal_num_read c sig = some i →
      i = sig ∧ sig < c.SIGRTMIN ∧ sig ≤ c.SIGRTMAX ∧ sig < c.MAXMAPPED_SIG ∧
      map_signal_num c sig = c.sig_map i) ∧
    (map_signal_num_read c sig = none →
      map_signal_num c sig = c.SIGUNKNOWN ∨
      map_signal_num c sig = sig - c.SIGRTMIN + c.SIGRT_BASE) ∧
    (∀ i, map_signal_num_read c sig = some i → ¬ (0 ≤ i ∧ i < c.MAXMAPPED_SIG) → sig < 0) := by
  by_cases h1 : sig > c.SIGRTMAX
  · have hr : map_signal_num_read c sig = none := by simp [map_signal_num_read, h1]
    have hm : map_signal_num c sig = c.SIGUNKNOWN := by simp [map_signal_num, h1]
    rw [hr, hm]
    simp
  · by_cases h2 : sig ≥ c.SIGRTMIN
    · have hr : map_signal_num_read c sig = none := by simp [map_signal_num_read, h1, h2]
      have hm : map_signal_num c sig = sig - c.SIGRTMIN + c.SIGRT_BASE := by
        simp [map_signal_num, h1, h2]
      rw [hr, hm]
      simp
    · by_cases h3 : sig < c.MAXMAPPED_SIG
      · have hr : map_signal_num_read c sig = some sig := by
          simp [map_signal_num_read, h1, h2, h3]
        have hm : map_signal_num c sig = c.sig_map sig := by
          simp [map_signal_num, h1, h2, h3]
        rw [hr, hm]
        refine ⟨?_, ?_, ?_, ?_⟩
        · intro h0
          exact Or.inr ⟨sig, rfl, h0, h3⟩
        · intro i hi
          have e : sig = i := Option.some.inj hi
          subst e
          exact ⟨rfl, not_le.mp h2, not_lt.mp h1, h3, rfl⟩
        · intro h
          exact absurd h (by simp)
        · intro i hi hn
          have e : sig = i := Option.some.inj hi
          subst e
          by_contra hneg
          exact hn ⟨not_lt.mp hneg, h3⟩
      · have hr : map_signal_num_read c sig = none := by
          simp [map_signal_num_read, h1, h2, h3]
        have hm : map_signal_num c sig = c.SIGUNKNOWN := by
          simp [map_signal_num, h1, h2, h3]
        rw [hr, hm]
        simp

/-- Witness of C25 at the sample constants: signal 9 reads the table at index
9, inside the table of 35 entries; signal 40 does not read it. -/
theorem map_signal_num_reads_in_table_witness :
    (0 : Int) ≤ 9 ∧ map_signal_num_read ex_sig 9 = some 9 ∧
    (∃ i, map_signal_num_read ex_sig 9 = some i ∧ 0 ≤ i ∧ i < ex_sig.MAXMAPPED_SIG) ∧
    map_signal_num_read ex_sig 40 = none := by
  have T := (map_signal_num_reads_in_table ex_sig 9).1 (by decide)
  refine ⟨by decide, by decide, ?_, by decide⟩
  rcases T with h | h
  · exact absurd h (by decide)
  · exact h

theorem cpu_to_be16_congr (v w : Int) (h : v % 65536 = w % 65536) :
    cpu_to_be16 v = cpu_to_be16 w := by
  unfold cpu_to_be16
  rw [h]

theorem cpu_to_be16_bytes (v : Int) :
    cpu_to_be16 v = [((v >>> (8 : Nat)) % 256).toNat, (v % 256).toNat] := by
  unfold cpu_to_be16
  rw [Int.shiftRight_eq_div_pow]
  have e : (((2 : Nat) ^ 8 : Nat) : Int) = 256 := by norm_num
  rw [e]
  have h1 : (v % 65536).toNat / 256 = ((v / 256) % 256).toNat := by omega
  have h2 : (v % 65536).toNat % 256 = (v % 256).toNat := by omega
  rw [h1, h2]

theorem cpu_to_be16_bits (v : Int) :
    cpu_to_be16 v =
      [((v % 65536).toNat >>> 8) &&& 255, (v % 65536).toNat &&& 255] := by
  unfold cpu_to_be16
  have hlt : (v % 65536).toNat < 65536 := by omega
  have e : (255 : Nat) = 2 ^ 8 - 1 := by norm_num
  rw [e, Nat.and_pow_two_sub_one_eq_mod, Nat.and_pow_two_sub_one_eq_mod,
    Nat.shiftRight_eq_div_pow]
  have h1 : (v % 65536).toNat / 2 ^ 8 % 2 ^ 8 = (v % 65536).toNat / 256 := by
    have e2 : (2 : Nat) ^ 8 = 256 := by norm_num
    rw [e2]
    omega
  rw [h1]

theorem profile_opt_perm_fed (k : kern) (profile : aa_profile) (op : Option String)
    (request : Nat) (sk : sock) (level v : Int) (log : List audit_event)
    (hm : k.RULE_MEDIATES_AF profile.rules k.AF_UNIX ≠ 0)
    (hne : (match_to_cmd k profile.rules.policy.dfa
      (k.RULE_MEDIATES_AF profile.rules k.AF_UNIX) sk CMD_OPT none).1 ≠ 0) :
    ∃ ad1, (profile_opt_perm k profile op request sk level v log).2 =
      log ++ [audit_event.lookup (profile.rules.policy.dfa.match_len
          (match_to_cmd k profile.rules.policy.dfa
            (k.RULE_MEDIATES_AF profile.rules k.AF_UNIX) sk CMD_OPT none).1 (cpu_to_be16 v)),
        audit_event.check profile.hname request ad1] := by
  unfold profile_opt_perm
  dsimp only
  rw [if_pos hm]
  split_ifs with h1 h2
  · exact ⟨_, do_perms_log _ _ _ _ _⟩
  · exact ⟨_, do_perms_log _ _ _ _ _⟩
  · exact absurd hne h1

theorem profile_listen_perm_fed (k : kern) (profile : aa_profile) (sk : sock) (v : Int)
    (log : List audit_event)
    (hm : k.RULE_MEDIATES_AF profile.rules k.AF_UNIX ≠ 0)
    (hne : (match_to_cmd k profile.rules.policy.dfa
      (k.RULE_MEDIATES_AF profile.rules k.AF_UNIX) sk CMD_LISTEN none).1 ≠ 0) :
    ∃ ad1, (profile_listen_perm k profile sk v log).2 =
      log ++ [audit_event.lookup (profile.rules.policy.dfa.match_len
          (match_to_cmd k profile.rules.policy.dfa
            (k.RULE_MEDIATES_AF profile.rules k.AF_UNIX) sk CMD_LISTEN none).1
            (cpu_to_be16 v)),
        audit_event.check profile.hname k.AA_MAY_LISTEN ad1] := by
  unfold profile_listen_perm
  dsimp only
  rw [if_pos hm]
  split_ifs with h1 h2
  · exact ⟨_, do_perms_log _ _ _ _ _⟩
  · exact ⟨_, do_perms_log _ _ _ _ _⟩
  · exact absurd hne h1

/-- C23: the two-byte descriptor fields keep only the low 16 bits of their
value. Two option numbers congruent modulo 65536 give profile_opt_perm the
same result on the same socket and profile: the same error and the same
log, hence the same state looked up and the same audit decision; likewise
two backlogs congruent modulo 65536 for profile_listen_perm. For a profile
mediating AF_UNIX whose match of the socket and of the command selector has
not failed, the state profile_opt_perm resolves the request from is the
state the automaton reaches from there on exactly the two bytes
(v >> 8) & 0xff and v & 0xff of the option number v, in this order, and
profile_listen_perm resolves AA_MAY_LISTEN from the state reached on these
two bytes of the backlog. The two bytes are the arithmetic shift of v by 8
and v itself, each reduced modulo 256, which are also bits 8 to 15 and bits
0 to 7 of the low 16 bits of v. -/
theorem two_byte_fields_keep_low_16_bits (k : kern) (profile : aa_profile)
    (op : Option String) (request : Nat) (sk : sock) (level v w : Int)
    (log : List audit_event) :
    (v % 65536 = w % 65536 →
      profile_opt_perm k profile op request sk level v log =
        profile_opt_perm k profile op request sk level w log) ∧
    (v % 65536 = w % 65536 →
      profile_listen_perm k profile sk v log = profile_listen_perm k profile sk w log) ∧
    (k.RULE_MEDIATES_AF profile.rules k.AF_UNIX ≠ 0 →
      (match_to_cmd k profile.rules.policy.dfa
        (k.RULE_MEDIATES_AF profile.rules k.AF_UNIX) sk CMD_OPT none).1 ≠ 0 →
      ∃ ad1, (profile_opt_perm k profile op request sk level v log).2 =
        log ++ [audit_event.lookup (profile.rules.policy.dfa.match_len
            (match_to_cmd k profile.rules.policy.dfa
              (k.RULE_MEDIATES_AF profile.rules k.AF_UNIX) sk CMD_OPT none).1
            [((v >>> (8 : Nat)) % 256).toNat, (v % 256).toNat]),
          audit_event.check profile.hname request ad1]) ∧
    (k.RULE_MEDIATES_AF profile.rules k.AF_UNIX ≠ 0 →
      (match_to_cmd k profile.rules.policy.dfa
        (k.RULE_MEDIATES_AF profile.rules k.AF_UNIX) sk CMD_LISTEN none).1 ≠ 0 →
      ∃ ad1, (profile_listen_perm k profile sk v log).2 =
        log ++ [audit_event.lookup (profile.rules.policy.dfa.match_len
            (match_to_cmd k profile.rules.policy.dfa
              (k.RULE_MEDIATES_AF profile.rules k.AF_UNIX) sk CMD_LISTEN none).1
            [((v >>> (8 : Nat)) % 256).toNat, (v % 256).toNat]),
          audit_event.check profile.hname k.AA_MAY_LISTEN ad1]) ∧
    cpu_to_be16 v = [((v >>> (8 : Nat)) % 256).toNat, (v % 256).toNat] ∧
    cpu_to_be16 v = [((v % 65536).toNat >>> 8) &&& 255, (v % 65536).toNat &&& 255] := by
  refine ⟨?_, ?_, ?_, ?_, cpu_to_be16_bytes v, cpu_to_be16_bits v⟩
  · intro h
    unfold profile_opt_perm
    rw [cpu_to_be16_congr v w h]
  · intro h
    unfold profile_listen_perm
    rw [cpu_to_be16_congr v w h]
  · intro hm hne
    rw [← cpu_to_be16_bytes v]
    exact profile_opt_perm_fed k profile op request sk level v log hm hne
  · intro hm hne
    rw [← cpu_to_be16_bytes v]
    exact profile_listen_perm_fed k profile sk v log hm hne

/-- Witness of C23: on the sample datagram socket, for the sample profile whose
automaton tells every byte apart, the option numbers 261 and 65797 give the
same result, resolved from the state reached on the bytes 1, 5, which is not
the state reached on the byte 5 alone; the backlogs -1 and 65535, whose
bytes are 255, 255, give the same result too. -/
theorem two_byte_fields_keep_low_16_bits_witness :
    (261 : Int) % 65536 = 65797 % 65536 ∧
    profile_opt_perm ex_kern ex_profile_sum (some "getsockopt") 4 ex_dgram 1 261 [] =
      profile_opt_perm ex_kern ex_profile_sum (some "getsockopt") 4 ex_dgram 1 65797 [] ∧
    (∃ ad1, (profile_opt_perm ex_kern ex_profile_sum (some "getsockopt") 4 ex_dgram 1 261
        []).2 =
      [] ++ [audit_event.lookup (ex_dfa_sum.match_len
          (match_to_cmd ex_kern ex_dfa_sum 1 ex_dgram CMD_OPT none).1 [1, 5]),
        audit_event.check "sum" 4 ad1]) ∧
    ex_dfa_sum.match_len (match_to_cmd ex_kern ex_dfa_sum 1 ex_dgram CMD_OPT none).1 [1, 5] ≠
      ex_dfa_sum.match_len (match_to_cmd ex_kern ex_dfa_sum 1 ex_dgram CMD_OPT none).1 [5] ∧
    profile_listen_perm ex_kern ex_profile_sum ex_dgram (-1) [] =
      profile_listen_perm ex_kern ex_profile_sum ex_dgram 65535 [] ∧
    cpu_to_be16 (-1) = [255, 255] :=
  ⟨by decide,
   (two_byte_fields_keep_low_16_bits ex_kern ex_profile_sum (some "getsockopt") 4 ex_dgram 1
     261 65797 []).1 (by decide),
   (two_byte_fields_keep_low_16_bits ex_kern ex_profile_sum (some "getsockopt") 4 ex_dgram 1
     261 65797 []).2.2.1 (by decide) (by decide),
   by decide,
   (two_byte_fields_keep_low_16_bits ex_kern ex_profile_sum (some "getsockopt") 4 ex_dgram 1
     (-1) 65535 []).2.1 (by decide),
   by decide⟩

theorem decisions_append (a b : List audit_event) :
    decisions (a ++ b) = decisions a + decisions b := by
  induction a with
  | nil => simp [decisions]
  | cons e a ih => cases e <;> simp [decisions, ih] <;> omega

theorem do_perms_decisions (profile : aa_profile) (rule : aa_ruleset) (state request : Nat)
    (s : audit_state) :
    decisions (do_perms profile rule state request s).2.log = decisions s.log + 1 := by
  rw [do_perms_log, decisions_append]
  rfl

theorem aa_profile_af_sk_perm_decisions (k : kern) (profile : aa_profile) (s : audit_state)
    (request : Nat) (sk : sock) :
    decisions (aa_profile_af_sk_perm k profile s request sk).2.log = decisions s.log + 1 := by
  unfold aa_profile_af_sk_perm
  rw [decisions_append]
  rfl

theorem aa_profile_af_perm_decisions (k : kern) (profile : aa_profile) (s : audit_state)
    (request family : Nat) (type : Int) :
    decisions (aa_profile_af_perm k profile s request family type).2.log =
      decisions s.log + 1 := by
  unfold aa_profile_af_perm
  rw [decisions_append]
  rfl

theorem fn_for_each_XXX_count {σ : Type} (m : σ → Nat) (FN : aa_profile → σ → Int × σ)
    (h : ∀ p s, m (FN p s).2 = m s + 1) (ps : List aa_profile) (E : Int) (s : σ) :
    m (fn_for_each_XXX FN ps E s).2 = m s + ps.length := by
  induction ps generalizing E s with
  | nil => simp [fn_for_each_XXX]
  | cons p ps ih =>
    simp only [fn_for_each_XXX, List.length_cons]
    rw [ih, h]
    omega

theorem guarded_fold_decisions (label : aa_label) (g : Bool)
    (FN : aa_profile → List audit_event → Int × List audit_event)
    (h : ∀ p l, decisions (FN p l).2 = decisions l + 1) (hg : g = false)
    (log : List audit_event) :
    decisions (if !(unconfined label || g) then fn_for_each_confined label FN log
      else (0, log)).2 = decisions log + (confined_profiles label).length := by
  subst hg
  by_cases hu : unconfined label = true
  · simp [hu, confined_profiles_of_unconfined label hu]
  · have hu2 : unconfined label = false := by simpa using hu
    have e : (if !(unconfined label || false) then fn_for_each_confined label FN log
        else (0, log)) = fn_for_each_XXX FN (confined_profiles label) 0 log := by
      simp [hu2, fn_for_each_confined, confined_profiles]
    rw [e]
    exact fn_for_each_XXX_count decisions FN h (confined_profiles label) 0 log

theorem profile_create_perm_decisions (k : kern) (profile : aa_profile) (family : Nat)
    (type protocol : Int) (log : List audit_event) :
    decisions (profile_create_perm k profile family type protocol log).2 =
      decisions log + 1 := by
  unfold profile_create_perm
  dsimp only
  split_ifs
  · exact do_perms_decisions _ _ _ _ _
  · exact aa_profile_af_perm_decisions k profile _ _ family type

theorem profile_sk_perm_decisions (k : kern) (profile : aa_profile) (s : audit_state)
    (request : Nat) (sk : sock) :
    decisions (profile_sk_perm k profile s request sk).2.log = decisions s.log + 1 := by
  unfold profile_sk_perm
  dsimp only
  split_ifs
  · exact do_perms_decisions _ _ _ _ _
  · exact aa_profile_af_sk_perm_decisions k profile _ _ sk

theorem profile_bind_perm_decisions (k : kern) (cred : Option Nat) (profile : aa_profile)
    (sk : sock) (addr : sockaddr_un) (addrlen : Int) (log : List audit_event) :
    decisions (profile_bind_perm k cred profile sk addr addrlen log).2 = decisions log + 1 := by
  unfold profile_bind_perm
  dsimp only
  split_ifs
  · exact do_perms_decisions _ _ _ _ _
  · exact aa_profile_af_sk_perm_decisions k profile _ _ sk

theorem profile_listen_perm_decisions (k : kern) (profile : aa_profile) (sk : sock)
    (backlog : Int) (log : List audit_event) :
    decisions (profile_listen_perm k profile sk backlog log).2 = decisions log + 1 := by
  unfold profile_listen_perm
  dsimp only
  by_cases h : k.RULE_MEDIATES_AF profile.rules k.AF_UNIX ≠ 0
  · rw [if_pos h]
    exact do_perms_decisions _ _ _ _ _
  · rw [if_neg h]
    exact aa_profile_af_sk_perm_decisions k profile _ _ sk

theorem profile_accept_perm_decisions (k : kern) (profile : aa_profile) (sk newsk : sock)
    (log : List audit_event) :
    decisions (profile_accept_perm k profile sk newsk log).2 = decisions log + 1 := by
  unfold profile_accept_perm
  dsimp only
  split_ifs
  · exact do_perms_decisions _ _ _ _ _
  · exact aa_profile_af_sk_perm_decisions k profile _ _ sk

theorem profile_opt_perm_decisions (k : kern) (profile : aa_profile) (op : Option String)
    (request : Nat) (sk : sock) (level optname : Int) (log : List audit_event) :
    decisions (profile_opt_perm k profile op request sk level optname log).2 =
      decisions log + 1 := by
  unfold profile_opt_perm
  dsimp only
  by_cases h : k.RULE_MEDIATES_AF profile.rules k.AF_UNIX ≠ 0
  · rw [if_pos h]
    exact do_perms_decisions _ _ _ _ _
  · rw [if_neg h]
    exact aa_profile_af_sk_perm_decisions k profile _ _ sk

theorem match_label_decisions (profile : aa_profile) (rules : aa_ruleset) (peer : aa_profile)
    (state request : Nat) (s : audit_state) :
    decisions (match_label profile rules peer state request s).2.log = decisions s.log + 1 := by
  unfold match_label
  exact do_perms_decisions _ _ _ _ _

theorem aa_unix_label_sk_perm_decisions (k : kern) (cred : Option Nat) (label : aa_label)
    (op : Option String) (request : Nat) (sk : sock) (log : List audit_event) :
    decisions (aa_unix_label_sk_perm k cred label op request sk log).2 =
      decisions log + (confined_profiles label).length := by
  by_cases h : unconfined label = true
  · simp [aa_unix_label_sk_perm, h, confined_profiles_of_unconfined label h]
  · have h2 : unconfined label = false := by simpa using h
    have e : (aa_unix_label_sk_perm k cred label op request sk log).2 =
        (fn_for_each_XXX (fun profile s => profile_sk_perm k profile s request sk)
          (confined_profiles label) 0
          { ad := { DEFINE_AUDIT_SK op sk with subj_cred := cred }, log := log }).2.log := by
      simp [aa_unix_label_sk_perm, h2, fn_for_each_confined, confined_profiles]
    rw [e]
    exact fn_for_each_XXX_count (fun s => decisions s.log)
      (fun profile s => profile_sk_perm k profile s request sk)
      (fun p s => profile_sk_perm_decisions k p s request sk) (confined_profiles label) 0 _

/-- Counterexample to C21: the connect and message entry points return success
with no audit decision at all, and so does socket creation for an unconfined
label; socket creation for the sample label of two confined profiles takes
two audit decisions in one call. -/
theorem entry_points_without_single_decision :
    aa_unix_connect_perm ex_socket ex_abstract_addr 6 [] = (0, []) ∧
    decisions (aa_unix_connect_perm ex_socket ex_abstract_addr 6 []).2 = 0 ∧
    aa_unix_msg_perm (some "sendmsg") 2 ex_socket 10 [] = (0, []) ∧
    decisions (aa_unix_msg_perm (some "sendmsg") 2 ex_socket 10 []).2 = 0 ∧
    aa_unix_create_perm ex_kern ex_label_unconfined 1 1 0 [] = (0, []) ∧
    decisions (aa_unix_create_perm ex_kern ex_label2 1 1 0 []).2 = 2 := by
  decide

/-- C21, amended: each per-profile check takes exactly one audit decision, whether
it allows or denies, so an entry point that mediates takes one audit decision
for every confined profile of the acting label: socket creation and the
socket permission check always, bind for an address that is not in the
filesystem, listen, accept and the option check for a socket that is not
filesystem-backed. The connect and message entry points return success and
leave the log as it is. The peer check of a profile that mediates the family
takes one audit decision for every profile of the peer label. -/
theorem one_decision_per_confined_profile (k : kern) (label : aa_label) (cred : Option Nat)
    (op : Option String) (request family : Nat) (type protocol : Int)
    (sock newsock : socket) (address : sockaddr_un)
    (addrlen backlog level optname size : Int) (log : List audit_event) :
    decisions (aa_unix_create_perm k label family type protocol log).2 =
      decisions log + (confined_profiles label).length ∧
    decisions (aa_unix_label_sk_perm k cred label op request sock.sk log).2 =
      decisions log + (confined_profiles label).length ∧
    (k.unix_addr_fs address addrlen = false →
      decisions (aa_unix_bind_perm k label cred sock address addrlen log).2 =
        decisions log + (confined_profiles label).length) ∧
    (k.UNIX_FS sock.sk = false →
      decisions (aa_unix_listen_perm k label sock backlog log).2 =
        decisions log + (confined_profiles label).length ∧
      decisions (aa_unix_accept_perm k label sock newsock log).2 =
        decisions log + (confined_profiles label).length ∧
      decisions (aa_unix_opt_perm k label op request sock level optname log).2 =
        decisions log + (confined_profiles label).length) ∧
    aa_unix_connect_perm sock address addrlen log = (0, log) ∧
    aa_unix_msg_perm op request sock size log = (0, log) ∧
    (∀ (profile : aa_profile) (peer_sk : AppArmor.sock) (peer_label : aa_label)
        (s : audit_state),
      k.RULE_MEDIATES_AF profile.rules k.AF_UNIX ≠ 0 →
      decisions (profile_peer_perm k profile op request sock.sk peer_sk (some peer_label)
        s).2.log = decisions s.log + peer_label.vec.length) := by
  refine ⟨?_, aa_unix_label_sk_perm_decisions k cred label op request sock.sk log,
    ?_, ?_, rfl, rfl, ?_⟩
  · rw [aa_unix_create_perm_eq]
    exact fn_for_each_XXX_count decisions _
      (fun p l => profile_create_perm_decisions k p family type protocol l) _ _ _
  · intro h
    exact guarded_fold_decisions label _ _
      (fun p l => profile_bind_perm_decisions k cred p sock.sk address addrlen l) h log
  · intro h
    refine ⟨?_, ?_, ?_⟩
    · exact guarded_fold_decisions label _ _
        (fun p l => profile_listen_perm_decisions k p sock.sk backlog l) h log
    · exact guarded_fold_decisions label _ _
        (fun p l => profile_accept_perm_decisions k p sock.sk newsock.sk l) h log
    · exact guarded_fold_decisions label _ _
        (fun p l => profile_opt_perm_decisions k p op request sock.sk level optname l) h log
  · intro profile peer_sk peer_label s h
    unfold profile_peer_perm
    dsimp only
    rw [if_pos h]
    exact fn_for_each_XXX_count (fun s => decisions s.log) _
      (fun p t => match_label_decisions profile profile.rules p _ request t) _ _ _

/-- Witness of C21, amended: on the sample stream socket, which is not
filesystem-backed, listen for the sample label of two confined profiles
takes two audit decisions, and socket creation for the label of one
confined profile takes one. -/
theorem one_decision_per_confined_profile_witness :
    ex_kern.UNIX_FS ex_socket.sk = false ∧
    decisions (aa_unix_listen_perm ex_kern ex_label2 ex_socket 5 []).2 = 2 ∧
    decisions (aa_unix_create_perm ex_kern ex_label 1 1 0 []).2 = 1 :=
  ⟨by decide,
   ((one_decision_per_confined_profile ex_kern ex_label2 none (some "listen") 512 1 1 0
      ex_socket ex_socket ex_abstract_addr 6 5 0 0 0 []).2.2.2.1 (by decide)).1,
   (one_decision_per_confined_profile ex_kern ex_label none (some "create") 16 1 1 0
      ex_socket ex_socket ex_abstract_addr 6 5 0 0 0 []).1⟩

theorem check_infos_append (a b : List audit_event) :
    check_infos (a ++ b) = check_infos a ++ check_infos b := by
  induction a with
  | nil => rfl
  | cons e a ih => cases e <;> simp [check_infos, ih]

theorem match_to_prot_keeps (dfa : aa_dfa) (state : Nat) (type protocol : Int)
    (info : Option String) (h : (match_to_prot dfa state type protocol info).1 ≠ 0) :
    (match_to_prot dfa state type protocol info).2 = info := by
  unfold match_to_prot at h ⊢
  dsimp only at h ⊢
  split_ifs at h ⊢ with h0
  · exact absurd h0 h
  · rfl

theorem match_to_local_keeps (k : kern) (dfa : aa_dfa) (state : Nat) (type protocol : Int)
    (addr : Option sockaddr_un) (addrlen : Int) (info : Option String)
    (h : (match_to_local k dfa state type protocol addr addrlen info).1 ≠ 0) :
    (match_to_local k dfa state type protocol addr addrlen info).2 = info := by
  rw [match_to_local_eq] at h ⊢
  split_ifs at h ⊢
  · exact absurd rfl h
  · exact absurd rfl h
  · exact absurd rfl h
  · rfl

theorem match_to_local_state (k : kern) (dfa : aa_dfa) (state : Nat) (type protocol : Int)
    (addr : Option sockaddr_un) (addrlen : Int) (i j : Option String) :
    (match_to_local k dfa state type protocol addr addrlen i).1 =
      (match_to_local k dfa state type protocol addr addrlen j).1 := by
  rw [match_to_local_eq, match_to_local_eq]
  split_ifs <;> rfl

theorem match_to_local_zero (k : kern) (dfa : aa_dfa) (state : Nat) (type protocol : Int)
    (addr : Option sockaddr_un) (addrlen : Int) (info : Option String)
    (h : (match_to_local k dfa state type protocol addr addrlen info).1 = 0) :
    ∃ d, (match_to_local k dfa state type protocol addr addrlen info).2 = some d := by
  rw [match_to_local_eq] at h ⊢
  split_ifs at h ⊢ with h1 h2 h3
  · exact ⟨_, rfl⟩
  · exact ⟨_, rfl⟩
  · exact ⟨_, rfl⟩
  · exact absurd h h3

theorem match_to_cmd_keeps (k : kern) (dfa : aa_dfa) (state : Nat) (u : sock) (cmd : Nat)
    (info : Option String) (h : (match_to_cmd k dfa state u cmd info).1 ≠ 0) :
    (match_to_cmd k dfa state u cmd info).2 = info := by
  rw [match_to_cmd_eq] at h ⊢
  split_ifs at h ⊢ with h1 h2
  · exact absurd h1 h
  · exact absurd rfl h
  · exact match_to_local_keeps k dfa state u.sk_type u.sk_protocol (sk_addr u).1 (sk_addr u).2
      info h1

theorem match_to_cmd_state (k : kern) (dfa : aa_dfa) (state : Nat) (u : sock) (cmd : Nat)
    (i j : Option String) :
    (match_to_cmd k dfa state u cmd i).1 = (match_to_cmd k dfa state u cmd j).1 := by
  have e : (match_to_sk k dfa state u i).1 = (match_to_sk k dfa state u j).1 :=
    match_to_local_state k dfa state u.sk_type u.sk_protocol (sk_addr u).1 (sk_addr u).2 i j
  rw [match_to_cmd_eq, match_to_cmd_eq, e]
  split_ifs with h1 h2
  · exact e
  · rfl
  · rfl

theorem match_to_cmd_zero (k : kern) (dfa : aa_dfa) (state : Nat) (u : sock) (cmd : Nat)
    (info : Option String) (h : (match_to_cmd k dfa state u cmd info).1 = 0) :
    ∃ d, (match_to_cmd k dfa state u cmd info).2 = some d := by
  rw [match_to_cmd_eq] at h ⊢
  split_ifs at h ⊢ with h1 h2
  · exact match_to_local_zero k dfa state u.sk_type u.sk_protocol (sk_addr u).1 (sk_addr u).2
      info h1
  · exact ⟨_, rfl⟩
  · exact absurd h h2

theorem match_to_peer_keeps (k : kern) (dfa : aa_dfa) (state : Nat) (u : sock)
    (peer_addr : Option sockaddr_un) (peer_addrlen : Int) (info : Option String)
    (h : (match_to_peer k dfa state u peer_addr peer_addrlen info).1 ≠ 0) :
    (match_to_peer k dfa state u peer_addr peer_addrlen info).2 = info := by
  rw [match_to_peer_eq] at h ⊢
  split_ifs at h ⊢ with h1 h2
  · exact absurd h1 h
  · exact absurd rfl h
  · exact match_to_cmd_keeps k dfa state u CMD_ADDR info h1

theorem match_to_peer_state (k : kern) (dfa : aa_dfa) (state : Nat) (u : sock)
    (peer_addr : Option sockaddr_un) (peer_addrlen : Int) (i j : Option String) :
    (match_to_peer k dfa state u peer_addr peer_addrlen i).1 =
      (match_to_peer k dfa state u peer_addr peer_addrlen j).1 := by
  have e := match_to_cmd_state k dfa state u CMD_ADDR i j
  rw [match_to_peer_eq, match_to_peer_eq, e]
  split_ifs with h1 h2
  · exact e
  · rfl
  · rfl

theorem match_to_peer_zero (k : kern) (dfa : aa_dfa) (state : Nat) (u : sock)
    (peer_addr : Option sockaddr_un) (peer_addrlen : Int) (info : Option String)
    (h : (match_to_peer k dfa state u peer_addr peer_addrlen info).1 = 0) :
    ∃ d, (match_to_peer k dfa state u peer_addr peer_addrlen info).2 = some d := by
  rw [match_to_peer_eq] at h ⊢
  split_ifs at h ⊢ with h1 h2
  · exact match_to_cmd_zero k dfa state u CMD_ADDR info h1
  · exact ⟨_, rfl⟩
  · exact absurd h h2

theorem unconfined_of_confined_head (label : aa_label) (p1 p2 : aa_profile)
    (hvec : label.vec = [p1, p2]) (hc1 : profile_unconfined p1 = false) :
    unconfined label = false := by
  simp [unconfined, hvec, hc1]

theorem profile_sk_perm_step (k : kern) (p : aa_profile) (s : audit_state) (request : Nat)
    (sk : sock) (hm : k.RULE_MEDIATES_AF p.rules k.AF_UNIX ≠ 0) :
    (profile_sk_perm k p s request sk).2.log =
      s.log ++ [audit_event.lookup
          (match_to_sk k p.rules.policy.dfa (k.RULE_MEDIATES_AF p.rules k.AF_UNIX) sk
            s.ad.info).1,
        audit_event.check p.hname request (profile_sk_perm k p s request sk).2.ad] ∧
    (profile_sk_perm k p s request sk).2.ad.info =
      (match_to_sk k p.rules.policy.dfa (k.RULE_MEDIATES_AF p.rules k.AF_UNIX) sk
        s.ad.info).2 := by
  have e : profile_sk_perm k p s request sk =
      do_perms p p.rules
        (match_to_sk k p.rules.policy.dfa (k.RULE_MEDIATES_AF p.rules k.AF_UNIX) sk
          s.ad.info).1 request
        { ad := { s.ad with info := (match_to_sk k p.rules.policy.dfa
            (k.RULE_MEDIATES_AF p.rules k.AF_UNIX) sk s.ad.info).2 }, log := s.log } := by
    unfold profile_sk_perm
    dsimp only
    rw [if_pos hm]
  rw [e]
  exact ⟨do_perms_log _ _ _ _ _, rfl⟩

theorem match_label_state_info (rule : aa_ruleset) (peer : aa_profile) (state : Nat)
    (ad : apparmor_audit_data)
    (h : state = 0 ∨ rule.policy.dfa.match_str state peer.hname ≠ 0) :
    (match_label_state rule peer state ad).2.info = ad.info := by
  rw [match_label_state_eq]
  split_ifs with h1 h2
  · rfl
  · rcases h with h | h
    · exact absurd h h1
    · exact absurd h2 h
  · rfl

theorem profile_peer_perm_step (k : kern) (p : aa_profile) (op : Option String)
    (request : Nat) (sk peer_sk : sock) (pl : aa_label) (pp : aa_profile) (s : audit_state)
    (hm : k.RULE_MEDIATES_AF p.rules k.AF_UNIX ≠ 0) (hv : pl.vec = [pp]) :
    (profile_peer_perm k p op request sk peer_sk (some pl) s).2.log =
      s.log ++ [audit_event.lookup
          (match_label_state p.rules pp
            (match_to_peer k p.rules.policy.dfa (k.RULE_MEDIATES_AF p.rules k.AF_UNIX) sk
              (sk_addr peer_sk).1 (sk_addr peer_sk).2 s.ad.info).1
            { s.ad with info := (match_to_peer k p.rules.policy.dfa
              (k.RULE_MEDIATES_AF p.rules k.AF_UNIX) sk (sk_addr peer_sk).1
              (sk_addr peer_sk).2 s.ad.info).2 }).1,
        audit_event.check p.hname request
          (profile_peer_perm k p op request sk peer_sk (some pl) s).2.ad] ∧
    (profile_peer_perm k p op request sk peer_sk (some pl) s).2.ad.info =
      (match_label_state p.rules pp
        (match_to_peer k p.rules.policy.dfa (k.RULE_MEDIATES_AF p.rules k.AF_UNIX) sk
          (sk_addr peer_sk).1 (sk_addr peer_sk).2 s.ad.info).1
        { s.ad with info := (match_to_peer k p.rules.policy.dfa
          (k.RULE_MEDIATES_AF p.rules k.AF_UNIX) sk (sk_addr peer_sk).1
          (sk_addr peer_sk).2 s.ad.info).2 }).2.info := by
  have e : (profile_peer_perm k p op request sk peer_sk (some pl) s).2 =
      (match_label p p.rules pp
        (match_to_peer k p.rules.policy.dfa (k.RULE_MEDIATES_AF p.rules k.AF_UNIX) sk
          (sk_addr peer_sk).1 (sk_addr peer_sk).2 s.ad.info).1 request
        { ad := { s.ad with info := (match_to_peer k p.rules.policy.dfa
            (k.RULE_MEDIATES_AF p.rules k.AF_UNIX) sk (sk_addr peer_sk).1
            (sk_addr peer_sk).2 s.ad.info).2 }, log := s.log }).2 := by
    unfold profile_peer_perm
    dsimp only
    rw [if_pos hm]
    unfold fn_for_each_in_ns
    rw [hv]
    rfl
  rw [e]
  unfold match_label
  exact ⟨do_perms_log _ _ _ _ _, rfl⟩

theorem match_to_sk_keeps (k : kern) (dfa : aa_dfa) (state : Nat) (u : sock)
    (info : Option String) (h : (match_to_sk k dfa state u info).1 ≠ 0) :
    (match_to_sk k dfa state u info).2 = info :=
  match_to_local_keeps k dfa state u.sk_type u.sk_protocol (sk_addr u).1 (sk_addr u).2 info h

theorem match_to_sk_state (k : kern) (dfa : aa_dfa) (state : Nat) (u : sock)
    (i j : Option String) :
    (match_to_sk k dfa state u i).1 = (match_to_sk k dfa state u j).1 :=
  match_to_local_state k dfa state u.sk_type u.sk_protocol (sk_addr u).1 (sk_addr u).2 i j

theorem match_to_sk_zero (k : kern) (dfa : aa_dfa) (state : Nat) (u : sock)
    (info : Option String) (h : (match_to_sk k dfa state u info).1 = 0) :
    ∃ d, (match_to_sk k dfa state u info).2 = some d :=
  match_to_local_zero k dfa state u.sk_type u.sk_protocol (sk_addr u).1 (sk_addr u).2 info h

theorem label_sk_perm_keeps_diagnostic (k : kern) (cred : Option Nat) (label : aa_label)
    (p1 p2 : aa_profile) (op : Option String) (request : Nat) (sk : sock)
    (log : List audit_event)
    (hvec : label.vec = [p1, p2])
    (hc1 : profile_unconfined p1 = false) (hc2 : profile_unconfined p2 = false)
    (hm1 : k.RULE_MEDIATES_AF p1.rules k.AF_UNIX ≠ 0)
    (hm2 : k.RULE_MEDIATES_AF p2.rules k.AF_UNIX ≠ 0)
    (f1 : (match_to_sk k p1.rules.policy.dfa (k.RULE_MEDIATES_AF p1.rules k.AF_UNIX) sk
      none).1 = 0)
    (f2 : (match_to_sk k p2.rules.policy.dfa (k.RULE_MEDIATES_AF p2.rules k.AF_UNIX) sk
      none).1 ≠ 0) :
    ∃ d,
      (match_to_sk k p1.rules.policy.dfa (k.RULE_MEDIATES_AF p1.rules k.AF_UNIX) sk
        none).2 = some d ∧
      lookups (aa_unix_label_sk_perm k cred label op request sk log).2 =
        lookups log ++ [0, (match_to_sk k p2.rules.policy.dfa
          (k.RULE_MEDIATES_AF p2.rules k.AF_UNIX) sk none).1] ∧
      check_infos (aa_unix_label_sk_perm k cred label op request sk log).2 =
        check_infos log ++ [some d, some d] := by
  obtain ⟨d, hd⟩ := match_to_sk_zero k p1.rules.policy.dfa _ sk none f1
  have hu := unconfined_of_confined_head label p1 p2 hvec hc1
  have e : (aa_unix_label_sk_perm k cred label op request sk log).2 =
      (profile_sk_perm k p2 (profile_sk_perm k p1
        { ad := { DEFINE_AUDIT_SK op sk with subj_cred := cred }, log := log }
        request sk).2 request sk).2.log := by
    simp [aa_unix_label_sk_perm, hu, fn_for_each_confined, hvec, hc1, hc2, fn_for_each_XXX]
  obtain ⟨l1, i1⟩ := profile_sk_perm_step k p1
    { ad := { DEFINE_AUDIT_SK op sk with subj_cred := cred }, log := log } request sk hm1
  obtain ⟨l2, i2⟩ := profile_sk_perm_step k p2 (profile_sk_perm k p1
    { ad := { DEFINE_AUDIT_SK op sk with subj_cred := cred }, log := log } request sk).2
    request sk hm2
  have i1' : (profile_sk_perm k p1
      { ad := { DEFINE_AUDIT_SK op sk with subj_cred := cred }, log := log }
      request sk).2.ad.info = some d := i1.trans hd
  have st2 := match_to_sk_state k p2.rules.policy.dfa (k.RULE_MEDIATES_AF p2.rules k.AF_UNIX)
    sk (profile_sk_perm k p1
      { ad := { DEFINE_AUDIT_SK op sk with subj_cred := cred }, log := log }
      request sk).2.ad.info none
  have n2 := f2
  rw [← st2] at n2
  have i2' := i2.trans ((match_to_sk_keeps k _ _ sk _ n2).trans i1')
  refine ⟨d, hd, ?_, ?_⟩
  · rw [e, l2, lookups_append, l1, lookups_append, st2]
    have z : (match_to_sk k p1.rules.policy.dfa (k.RULE_MEDIATES_AF p1.rules k.AF_UNIX) sk
        ({ ad := { DEFINE_AUDIT_SK op sk with subj_cred := cred }, log := log } :
          audit_state).ad.info).1 = 0 := f1
    rw [z]
    simp [lookups]
  · rw [e, l2, check_infos_append, l1, check_infos_append]
    simp [check_infos, i1', i2']

theorem peer_perm_keeps_diagnostic (k : kern) (cred : Option Nat) (label : aa_label)
    (p1 p2 : aa_profile) (op : Option String) (request : Nat) (sk peer_sk : sock)
    (pl : aa_label) (pp : aa_profile) (log : List audit_event)
    (hvec : label.vec = [p1, p2])
    (hc1 : profile_unconfined p1 = false) (hc2 : profile_unconfined p2 = false)
    (hm1 : k.RULE_MEDIATES_AF p1.rules k.AF_UNIX ≠ 0)
    (hm2 : k.RULE_MEDIATES_AF p2.rules k.AF_UNIX ≠ 0)
    (hfs1 : k.UNIX_FS peer_sk = false) (hfs2 : k.UNIX_FS sk = false) (hv : pl.vec = [pp])
    (f1 : (match_to_peer k p1.rules.policy.dfa (k.RULE_MEDIATES_AF p1.rules k.AF_UNIX) sk
      (sk_addr peer_sk).1 (sk_addr peer_sk).2 none).1 = 0)
    (f2 : (match_to_peer k p2.rules.policy.dfa (k.RULE_MEDIATES_AF p2.rules k.AF_UNIX) sk
      (sk_addr peer_sk).1 (sk_addr peer_sk).2 none).1 ≠ 0)
    (f3 : p2.rules.policy.dfa.match_str
      (match_to_peer k p2.rules.policy.dfa (k.RULE_MEDIATES_AF p2.rules k.AF_UNIX) sk
        (sk_addr peer_sk).1 (sk_addr peer_sk).2 none).1 pp.hname ≠ 0) :
    ∃ d,
      (match_to_peer k p1.rules.policy.dfa (k.RULE_MEDIATES_AF p1.rules k.AF_UNIX) sk
        (sk_addr peer_sk).1 (sk_addr peer_sk).2 none).2 = some d ∧
      check_infos (aa_unix_peer_perm k cred label op request sk peer_sk (some pl) log).2 =
        check_infos log ++ [some d, some d] ∧
      (aa_unix_peer_perm k cred label op request sk peer_sk (some pl) log).1.info =
        some d := by
  obtain ⟨d, hd⟩ := match_to_peer_zero k p1.rules.policy.dfa _ sk _ _ none f1
  have hu := unconfined_of_confined_head label p1 p2 hvec hc1
  have e : (aa_unix_peer_perm k cred label op request sk peer_sk (some pl) log).2 =
      (profile_peer_perm k p2 op request sk peer_sk (some pl)
        (profile_peer_perm k p1 op request sk peer_sk (some pl)
          { ad := { DEFINE_AUDIT_SK op sk with net_peer_sk := some peer_sk.id,
                                                subj_cred := cred }, log := log }).2).2.log ∧
      (aa_unix_peer_perm k cred label op request sk peer_sk (some pl) log).1.info =
      (profile_peer_perm k p2 op request sk peer_sk (some pl)
        (profile_peer_perm k p1 op request sk peer_sk (some pl)
          { ad := { DEFINE_AUDIT_SK op sk with net_peer_sk := some peer_sk.id,
                                                subj_cred := cred }, log := log }).2).2.ad.info := by
    simp [aa_unix_peer_perm, hfs1, hfs2, hu, fn_for_each_confined, hvec, hc1, hc2,
      fn_for_each_XXX]
  obtain ⟨l1, i1⟩ := profile_peer_perm_step k p1 op request sk peer_sk pl pp
    { ad := { DEFINE_AUDIT_SK op sk with net_peer_sk := some peer_sk.id,
                                          subj_cred := cred }, log := log } hm1 hv
  obtain ⟨l2, i2⟩ := profile_peer_perm_step k p2 op request sk peer_sk pl pp
    (profile_peer_perm k p1 op request sk peer_sk (some pl)
      { ad := { DEFINE_AUDIT_SK op sk with net_peer_sk := some peer_sk.id,
                                            subj_cred := cred }, log := log }).2 hm2 hv
  have i1' : (profile_peer_perm k p1 op request sk peer_sk (some pl)
      { ad := { DEFINE_AUDIT_SK op sk with net_peer_sk := some peer_sk.id,
                                            subj_cred := cred }, log := log }).2.ad.info =
      some d :=
    i1.trans ((match_label_state_info p1.rules pp _ _ (Or.inl f1)).trans hd)
  have st2 := match_to_peer_state k p2.rules.policy.dfa
    (k.RULE_MEDIATES_AF p2.rules k.AF_UNIX) sk (sk_addr peer_sk).1 (sk_addr peer_sk).2
    (profile_peer_perm k p1 op request sk peer_sk (some pl)
      { ad := { DEFINE_AUDIT_SK op sk with net_peer_sk := some peer_sk.id,
                                            subj_cred := cred }, log := log }).2.ad.info none
  have n2 := f2
  have n3 := f3
  rw [← st2] at n2 n3
  have i2' := i2.trans ((match_label_state_info p2.rules pp _ _ (Or.inr n3)).trans
    ((match_to_peer_keeps k _ _ sk _ _ _ n2).trans i1'))
  refine ⟨d, hd, ?_, ?_⟩
  · rw [e.1, l2, check_infos_append, l1, check_infos_append]
    simp [check_infos, i1', i2']
  · rw [e.2]
    exact i2'

/-- C24: each of the descriptor-matching helpers match_to_prot, match_to_local,
match_to_sk, match_to_cmd and match_to_peer returns the diagnostic it was
entered with whenever the state it returns is not 0, so it writes the
diagnostic only when it returns state 0. Consequently, for a label of two
confined profiles that mediate the family, when the match of the first
profile fails and the match of the second succeeds, the audit decision of
the second profile is taken with the diagnostic the first one set still in
the shared audit data: in aa_unix_label_sk_perm both decisions hold that
diagnostic and the second is resolved from a state that is not 0; in
aa_unix_peer_perm, for sockets that are not filesystem-backed and a peer
label of one profile, both decisions hold it and it is the diagnostic the
function leaves in its audit data. -/
theorem matching_helpers_keep_diagnostic (k : kern) (dfa : aa_dfa) (state : Nat)
    (type protocol : Int) (addr : Option sockaddr_un) (addrlen : Int) (u : sock) (cmd : Nat)
    (info : Option String) (cred : Option Nat) (label : aa_label) (p1 p2 : aa_profile)
    (op : Option String) (request : Nat) (sk peer_sk : sock) (pl : aa_label)
    (pp : aa_profile) (log : List audit_event)
    (hvec : label.vec = [p1, p2])
    (hc1 : profile_unconfined p1 = false) (hc2 : profile_unconfined p2 = false)
    (hm1 : k.RULE_MEDIATES_AF p1.rules k.AF_UNIX ≠ 0)
    (hm2 : k.RULE_MEDIATES_AF p2.rules k.AF_UNIX ≠ 0) :
    ((match_to_prot dfa state type protocol info).1 ≠ 0 →
      (match_to_prot dfa state type protocol info).2 = info) ∧
    ((match_to_local k dfa state type protocol addr addrlen info).1 ≠ 0 →
      (match_to_local k dfa state type protocol addr addrlen info).2 = info) ∧
    ((match_to_sk k dfa state u info).1 ≠ 0 → (match_to_sk k dfa state u info).2 = info) ∧
    ((match_to_cmd k dfa state u cmd info).1 ≠ 0 →
      (match_to_cmd k dfa state u cmd info).2 = info) ∧
    ((match_to_peer k dfa state u addr addrlen info).1 ≠ 0 →
      (match_to_peer k dfa state u addr addrlen info).2 = info) ∧
    ((match_to_sk k p1.rules.policy.dfa (k.RULE_MEDIATES_AF p1.rules k.AF_UNIX) sk
        none).1 = 0 →
      (match_to_sk k p2.rules.policy.dfa (k.RULE_MEDIATES_AF p2.rules k.AF_UNIX) sk
        none).1 ≠ 0 →
      ∃ d,
        (match_to_sk k p1.rules.policy.dfa (k.RULE_MEDIATES_AF p1.rules k.AF_UNIX) sk
          none).2 = some d ∧
        lookups (aa_unix_label_sk_perm k cred label op request sk log).2 =
          lookups log ++ [0, (match_to_sk k p2.rules.policy.dfa
            (k.RULE_MEDIATES_AF p2.rules k.AF_UNIX) sk none).1] ∧
        check_infos (aa_unix_label_sk_perm k cred label op request sk log).2 =
          check_infos log ++ [some d, some d]) ∧
    (k.UNIX_FS peer_sk = false → k.UNIX_FS sk = false → pl.vec = [pp] →
      (match_to_peer k p1.rules.policy.dfa (k.RULE_MEDIATES_AF p1.rules k.AF_UNIX) sk
        (sk_addr peer_sk).1 (sk_addr peer_sk).2 none).1 = 0 →
      (match_to_peer k p2.rules.policy.dfa (k.RULE_MEDIATES_AF p2.rules k.AF_UNIX) sk
        (sk_addr peer_sk).1 (sk_addr peer_sk).2 none).1 ≠ 0 →
      p2.rules.policy.dfa.match_str
        (match_to_peer k p2.rules.policy.dfa (k.RULE_MEDIATES_AF p2.rules k.AF_UNIX) sk
          (sk_addr peer_sk).1 (sk_addr peer_sk).2 none).1 pp.hname ≠ 0 →
      ∃ d,
        (match_to_peer k p1.rules.policy.dfa (k.RULE_MEDIATES_AF p1.rules k.AF_UNIX) sk
          (sk_addr peer_sk).1 (sk_addr peer_sk).2 none).2 = some d ∧
        check_infos (aa_unix_peer_perm k cred label op request sk peer_sk (some pl) log).2 =
          check_infos log ++ [some d, some d] ∧
        (aa_unix_peer_perm k cred label op request sk peer_sk (some pl) log).1.info =
          some d) :=
  ⟨match_to_prot_keeps dfa state type protocol info,
   match_to_local_keeps k dfa state type protocol addr addrlen info,
   match_to_sk_keeps k dfa state u info,
   match_to_cmd_keeps k dfa state u cmd info,
   match_to_peer_keeps k dfa state u addr addrlen info,
   fun f1 f2 => label_sk_perm_keeps_diagnostic k cred label p1 p2 op request sk log hvec hc1
     hc2 hm1 hm2 f1 f2,
   fun hfs1 hfs2 hv f1 f2 f3 => peer_perm_keeps_diagnostic k cred label p1 p2 op request sk
     peer_sk pl pp log hvec hc1 hc2 hm1 hm2 hfs1 hfs2 hv f1 f2 f3⟩

/-- Witness of C24: for the sample label whose first profile rejects the sample
stream socket at its type and protocol and whose second profile matches it,
both audit decisions of the socket permission check, and both of the peer
check against the sample datagram socket, hold a diagnostic. -/
theorem matching_helpers_keep_diagnostic_witness :
    ex_label_mixed.vec = [ex_profile, ex_profile_open] ∧
    (∃ d, (match_to_sk ex_kern ex_profile.rules.policy.dfa
        (ex_kern.RULE_MEDIATES_AF ex_profile.rules ex_kern.AF_UNIX) ex_sock none).2 = some d ∧
      lookups (aa_unix_label_sk_perm ex_kern none ex_label_mixed (some "getattr") 4 ex_sock
        []).2 = lookups [] ++ [0, (match_to_sk ex_kern ex_profile_open.rules.policy.dfa
          (ex_kern.RULE_MEDIATES_AF ex_profile_open.rules ex_kern.AF_UNIX) ex_sock none).1] ∧
      check_infos (aa_unix_label_sk_perm ex_kern none ex_label_mixed (some "getattr") 4
        ex_sock []).2 = check_infos [] ++ [some d, some d]) ∧
    (∃ d, (match_to_peer ex_kern ex_profile.rules.policy.dfa
        (ex_kern.RULE_MEDIATES_AF ex_profile.rules ex_kern.AF_UNIX) ex_sock
        (sk_addr ex_dgram).1 (sk_addr ex_dgram).2 none).2 = some d ∧
      check_infos (aa_unix_peer_perm ex_kern none ex_label_mixed (some "sendmsg") 2 ex_sock
        ex_dgram (some ex_label) []).2 = check_infos [] ++ [some d, some d] ∧
      (aa_unix_peer_perm ex_kern none ex_label_mixed (some "sendmsg") 2 ex_sock ex_dgram
        (some ex_label) []).1.info = some d) :=
  ⟨rfl,
   (matching_helpers_keep_diagnostic ex_kern ex_dfa 1 1 0 none 0 ex_sock 1 none none
      ex_label_mixed ex_profile ex_profile_open (some "getattr") 4 ex_sock ex_dgram ex_label
      ex_profile [] rfl rfl rfl (by decide) (by decide)).2.2.2.2.2.1 (by decide) (by decide),
   (matching_helpers_keep_diagnostic ex_kern ex_dfa 1 1 0 none 0 ex_sock 1 none none
      ex_label_mixed ex_profile ex_profile_open (some "sendmsg") 2 ex_sock ex_dgram ex_label
      ex_profile [] rfl rfl rfl (by decide) (by decide)).2.2.2.2.2.2 (by decide) (by decide)
      rfl (by decide) (by decide) (by decide)⟩

/-- C22: starting from the cache aa_audit_cache_init sets up (size 0, empty list),
inserting a node with one reference and then a node whose record
aa_audit_data_cmp finds equal to the first leaves exactly one node linked,
the first, with reference count 2; the second insert returns that node and
the size counter is 1 after the first insert and after the second. After
aa_audit_cache_destroy, aa_audit_cache_find returns no node, for every cache
and every record. -/
theorem audit_cache_insert_idempotent (k : kern) (n1 n2 : aa_audit_node)
    (cache : aa_audit_cache) (ad : apparmor_audit_data)
    (hc : n1.count = 1) (heq : k.aa_audit_data_cmp n1.data n2.data = 0) :
    aa_audit_cache_init = { size := 0, head := [] } ∧
    (aa_audit_cache_insert k (aa_audit_cache_insert k aa_audit_cache_init n1).2 n2).2.head =
      [{ count := 2, data := n1.data }] ∧
    (aa_audit_cache_insert k (aa_audit_cache_insert k aa_audit_cache_init n1).2 n2).1 =
      { count := 2, data := n1.data } ∧
    (aa_audit_cache_insert k aa_audit_cache_init n1).2.size = 1 ∧
    (aa_audit_cache_insert k (aa_audit_cache_insert k aa_audit_cache_init n1).2 n2).2.size =
      (aa_audit_cache_insert k aa_audit_cache_init n1).2.size ∧
    aa_audit_cache_find k (aa_audit_cache_destroy cache) ad = none := by
  have e1 : aa_audit_cache_insert k aa_audit_cache_init n1 =
      (n1, { size := 1, head := [n1] }) := rfl
  have e2 : get_equal_node k n2.data [n1] =
      some ({ n1 with count := n1.count + 1 }, [{ n1 with count := n1.count + 1 }]) := by
    simp [get_equal_node, heq]
  have e3 : aa_audit_cache_insert k { size := 1, head := [n1] } n2 =
      ({ n1 with count := n1.count + 1 },
       { size := 1, head := [{ n1 with count := n1.count + 1 }] }) := by
    simp [aa_audit_cache_insert, e2]
  rw [e1, e3, hc]
  exact ⟨rfl, rfl, rfl, rfl, rfl, rfl⟩

/-- Witness of C22: two sample records that differ in their operation and that the
sample comparator finds equal end up as one node with two references. -/
theorem audit_cache_insert_idempotent_witness :
    ex_kern.aa_audit_data_cmp (DEFINE_AUDIT_DATA (some "getsockopt"))
      (DEFINE_AUDIT_DATA (some "setsockopt")) = 0 ∧
    (aa_audit_cache_insert ex_kern
      (aa_audit_cache_insert ex_kern aa_audit_cache_init
        { count := 1, data := DEFINE_AUDIT_DATA (some "getsockopt") }).2
      { count := 1, data := DEFINE_AUDIT_DATA (some "setsockopt") }).2.head =
      [{ count := 2, data := DEFINE_AUDIT_DATA (some "getsockopt") }] :=
  ⟨by decide,
   (audit_cache_insert_idempotent ex_kern
     { count := 1, data := DEFINE_AUDIT_DATA (some "getsockopt") }
     { count := 1, data := DEFINE_AUDIT_DATA (some "setsockopt") }
     aa_audit_cache_init (DEFINE_AUDIT_DATA none) rfl (by decide)).2.1⟩

end AppArmor

namespace X86

theorem resource_clip_sound (res : resource) (start end_ : Nat)
    (hrs : res.start < U64_MOD) (hre : res.end_ < U64_MOD) (hs : start < U64_MOD)
    (he : end_ + 1 < U64_MOD) (a : Nat)
    (ha : in_resource (resource_clip res start end_) a) :
    in_resource res a ∧ ¬ (start ≤ a ∧ a ≤ end_) := by
  unfold in_resource resource_clip at *
  simp only [U64_MOD] at *
  split_ifs at ha
  all_goals first
    | omega
    | (simp only at ha; omega)

theorem resource_clip_bounds (res : resource) (start end_ : Nat)
    (hrs : res.start < U64_MOD) (hre : res.end_ < U64_MOD) :
    (resource_clip res start end_).start < U64_MOD ∧
    (resource_clip res start end_).end_ < U64_MOD := by
  unfold resource_clip
  simp only [U64_MOD] at *
  split_ifs
  all_goals first
    | omega
    | (simp only; omega)

/-- C26: for a resource range [rs, re] and a region [start, end] of 64-bit
values, with end below the largest 64-bit value, every address of the
resource after resource_clip is an address of the original range and none is
an address of [start, end]; and when the resource does not overlap the
region, it is unchanged. This holds in particular when rs <= re and
start <= end, which the proof does not need. -/
theorem resource_clip_removes_region (res : resource) (start end_ : Nat)
    (hrs : res.start < U64_MOD) (hre : res.end_ < U64_MOD) (hs : start < U64_MOD)
    (he : end_ + 1 < U64_MOD) :
    (∀ a, in_resource (resource_clip res start end_) a →
      in_resource res a ∧ ¬ (start ≤ a ∧ a ≤ end_)) ∧
    ((res.end_ < start ∨ res.start > end_) → resource_clip res start end_ = res) := by
  constructor
  · intro a ha
    exact resource_clip_sound res start end_ hrs hre hs he a ha
  · intro h
    unfold resource_clip
    rw [if_pos h]

/-- Witness of C26: the sample resource, addresses 5 to 10, clipped by the region
0 to 6 becomes 7 to 10, and is left alone by the region 11 to 20. -/
theorem resource_clip_removes_region_witness :
    ex_res.start ≤ ex_res.end_ ∧ (0 : Nat) ≤ 6 ∧ 6 + 1 < U64_MOD ∧
    resource_clip ex_res 0 6 = { start := 7, end_ := 10 } ∧
    (∀ a, in_resource (resource_clip ex_res 0 6) a →
      in_resource ex_res a ∧ ¬ (0 ≤ a ∧ a ≤ 6)) ∧
    resource_clip ex_res 11 20 = ex_res :=
  ⟨by decide, by decide, by decide, by decide,
   (resource_clip_removes_region ex_res 0 6 (by decide) (by decide) (by decide)
     (by decide)).1,
   (resource_clip_removes_region ex_res 11 20 (by decide) (by decide) (by decide)
     (by decide)).2 (Or.inl (by decide))⟩

theorem resource_clip_keeps_larger (res : resource) (start end_ low high : Nat)
    (hrs : res.start < U64_MOD) (hre : res.end_ < U64_MOD) (hs : start < U64_MOD)
    (he : end_ + 1 < U64_MOD)
    (hov : ¬ (res.end_ < start ∨ res.start > end_))
    (hlow : low = if res.start < start then start - res.start else 0)
    (hhigh : high = if res.end_ > end_ then res.end_ - end_ else 0) :
    (low > high → resource_clip res start end_ = { start := res.start, end_ := start - 1 }) ∧
    (low ≤ high → resource_clip res start end_ = { start := end_ + 1, end_ := res.end_ }) ∧
    (start ≤ res.start → res.end_ ≤ end_ →
      (resource_clip res start end_).start > (resource_clip res start end_).end_) := by
  have hl : (if res.start < start then (start + U64_MOD - res.start) % U64_MOD else 0) = low := by
    rw [hlow]
    simp only [U64_MOD] at *
    split_ifs <;> omega
  have hh : (if res.end_ > end_ then (res.end_ + U64_MOD - end_) % U64_MOD else 0) = high := by
    rw [hhigh]
    simp only [U64_MOD] at *
    split_ifs <;> omega
  have h1 : (end_ + 1) % U64_MOD = end_ + 1 := Nat.mod_eq_of_lt he
  unfold resource_clip
  rw [if_neg hov]
  simp only [hl, hh, h1]
  refine ⟨?_, ?_, ?_⟩
  · intro hgt
    have hpos : 1 ≤ start := by
      rw [hlow] at hgt
      split_ifs at hgt <;> omega
    have h2 : (start + U64_MOD - 1) % U64_MOD = start - 1 := by
      simp only [U64_MOD] at *
      omega
    rw [if_pos hgt, h2]
  · intro hle
    rw [if_neg (Nat.not_lt.mpr hle)]
  · intro h3 h4
    have hz : ¬ low > high := by
      rw [hlow, hhigh]
      split_ifs <;> omega
    rw [if_neg hz]
    simp only
    omega

/-- C27: evaluation of resource_clip where the claim fails. The sample resource,
addresses 5 to 10, lies wholly inside the region from 0 to the largest 64-bit
value: low and high are both 0, the start becomes end + 1, which wraps to 0,
and the resource is 0 to 10: it is not empty, and it has the addresses 0 to 4
that the original range did not have. -/
theorem resource_clip_wraps_at_top :
    resource_clip ex_res 0 18446744073709551615 = { start := 0, end_ := 10 } ∧
    ¬ ((resource_clip ex_res 0 18446744073709551615).start >
        (resource_clip ex_res 0 18446744073709551615).end_) ∧
    in_resource (resource_clip ex_res 0 18446744073709551615) 4 ∧ ¬ in_resource ex_res 4 := by
  have h : resource_clip ex_res 0 18446744073709551615 = { start := 0, end_ := 10 } := by
    decide
  rw [h]
  refine ⟨rfl, by decide, ?_, ?_⟩
  · unfold in_resource
    decide
  · unfold in_resource ex_res
    decide

theorem e820_end_eq (e : e820_entry) (h1 : 1 ≤ e.addr + e.size)
    (h2 : e.addr + e.size < U64_MOD) : e820_end e = e.addr + e.size - 1 := by
  unfold e820_end
  simp only [U64_MOD] at *
  omega

theorem clip_all_sound (table : List e820_entry) (res : resource)
    (hrs : res.start < U64_MOD) (hre : res.end_ < U64_MOD)
    (hgood : ∀ e ∈ table, 1 ≤ e.addr + e.size ∧ e.addr + e.size < U64_MOD) (a : Nat)
    (ha : in_resource
      (table.foldl (fun r entry => resource_clip r entry.addr (e820_end entry)) res) a) :
    in_resource res a ∧ ∀ e ∈ table, ¬ (e.addr ≤ a ∧ a ≤ e.addr + e.size - 1) := by
  induction table generalizing res with
  | nil =>
    simp only [List.foldl] at ha
    exact ⟨ha, by simp⟩
  | cons e rest ih =>
    simp only [List.foldl] at ha
    obtain ⟨g1, g2⟩ := hgood e (List.mem_cons_self e rest)
    have hb := resource_clip_bounds res e.addr (e820_end e) hrs hre
    have hrest : ∀ x ∈ rest, 1 ≤ x.addr + x.size ∧ x.addr + x.size < U64_MOD :=
      fun x hx => hgood x (List.mem_cons_of_mem e hx)
    obtain ⟨i1, i2⟩ := ih (resource_clip res e.addr (e820_end e)) hb.1 hb.2 hrest ha
    have hend : e820_end e + 1 < U64_MOD := by
      rw [e820_end_eq e g1 g2]
      omega
    have haddr : e.addr < U64_MOD := by omega
    obtain ⟨c1, c2⟩ := resource_clip_sound res e.addr (e820_end e) hrs hre haddr hend a i1
    rw [e820_end_eq e g1 g2] at c2
    refine ⟨c1, ?_⟩
    intro x hx
    rcases List.mem_cons.mp hx with h | h
    · rw [h]
      exact c2
    · exact i2 x h

/-- C28: when pci_use_e820 is set, for a resource of 64-bit values and a table of
any length whose entries have their end addr + size - 1, and that end plus
one, computed without wrapping, every address of the resource after
remove_e820_regions is an address of its original range and lies in none of
the entries [addr, addr + size - 1]; when pci_use_e820 is clear the resource
is unchanged. -/
theorem remove_e820_regions_clears_entries (table : List e820_entry) (res : resource)
    (hrs : res.start < U64_MOD) (hre : res.end_ < U64_MOD)
    (hgood : ∀ e ∈ table, 1 ≤ e.addr + e.size ∧ e.addr + e.size < U64_MOD) :
    (∀ a, in_resource (remove_e820_regions true table res) a →
      in_resource res a ∧ ∀ e ∈ table, ¬ (e.addr ≤ a ∧ a ≤ e.addr + e.size - 1)) ∧
    remove_e820_regions false table res = res := by
  constructor
  · intro a ha
    exact clip_all_sound table res hrs hre hgood a ha
  · rfl

/-- Witness of C28: the sample resource, addresses 5 to 10, under the sample
table with entries 0 to 6 and 9 to 108, becomes 7 to 8. -/
theorem remove_e820_regions_clears_entries_witness :
    (∀ e ∈ ex_table, 1 ≤ e.addr + e.size ∧ e.addr + e.size < U64_MOD) ∧
    remove_e820_regions true ex_table ex_res = { start := 7, end_ := 8 } ∧
    (∀ a, in_resource (remove_e820_regions true ex_table ex_res) a →
      in_resource ex_res a ∧ ∀ e ∈ ex_table, ¬ (e.addr ≤ a ∧ a ≤ e.addr + e.size - 1)) ∧
    remove_e820_regions false ex_table ex_res = ex_res :=
  have hg : ∀ e ∈ ex_table, 1 ≤ e.addr + e.size ∧ e.addr + e.size < U64_MOD := by decide
  ⟨hg, by decide,
   (remove_e820_regions_clears_entries ex_table ex_res (by decide) (by decide) hg).1,
   (remove_e820_regions_clears_entries ex_table ex_res (by decide) (by decide) hg).2⟩

end X86
